import Mathlib

/-!
OpenTESArena: weather particle simulation.

A shallow embedding of `src/World/WeatherInstance.cpp`, of `getWildDungeonSeed` in
`src/World/LocationDefinition.cpp` and of `getLocationTextClampedPosition` in
`src/Interface/ProvinceMapUiView.cpp`, and theorems about them.

Modelling conventions.

* A C++ `double` that only ever holds computed values is an exact rational (`ℚ`):
  arithmetic is the real-number arithmetic of the source expressions, without rounding.
  The one field the source sets to `std::numeric_limits<double>::infinity()` ranges over
  `Double`, rationals extended with the IEEE special values.
* Overflow, infinities and NaNs in the particle positions are the subject of the section
  `Doubles with a finite range`: it embeds the particle code a second time (prefix `IEEE`),
  every stored `double` ranging over `Double` and every result of magnitude `2^1024` or more
  overflowing to an infinity. Rounding within the range is not modelled in either embedding.
* `Random &random` is threaded explicitly: a generator state of an arbitrary type `σ`, with
  the two operations the source calls, each returning the drawn value and the next state.
* `Buffer<T>` is a `List`; `Buffer::get`/`Buffer::set` assert that the index is valid.
* `DebugAssert` and `DebugNotImplementedMsg` halt the program; here they return a `Fault`.
* An `int` is an integer; where an `int` expression can leave the 32-bit range on the inputs
  a statement allows, it is reduced to that range (`wrapInt32`), and otherwise the range is
  a hypothesis. A `uint32_t` is a natural number, reduced modulo `2^32` where the source adds.
* The headers `ArenaWeatherUtils.h`, `ArenaRenderUtils.h`, `Constants.h` and `Random.h` are
  not part of the sources at hand; what the code uses of them is collected in `Env`.
-/

namespace OpenTESArena

/-- Ways in which a call halts the program instead of returning. -/
inductive Fault where
  | assertionFailed
  | notImplemented
  deriving DecidableEq, Repr

/-- A C++ `double` including the IEEE special values; finite values are exact rationals. -/
inductive Double where
  | fin (q : ℚ)
  | posInf
  | negInf
  | nan
  deriving DecidableEq, Repr

/-- IEEE addition `a + b` (exact on finite values). -/
def Double.add : Double → Double → Double
  | .fin a, .fin b => .fin (a + b)
  | .nan, _ => .nan
  | _, .nan => .nan
  | .posInf, .negInf => .nan
  | .negInf, .posInf => .nan
  | .posInf, _ => .posInf
  | _, .posInf => .posInf
  | .negInf, _ => .negInf
  | _, .negInf => .negInf

/-- Everything `WeatherInstance.cpp` takes from headers that are not at hand: the operations
of `Random`, the constants of `ArenaWeatherUtils` and `ArenaRenderUtils`, the snowflake
direction policy, and `Constants::TwoPi`. -/
structure Env (σ : Type) where
  /-- `Random::nextReal()`: the next real and the advanced generator. -/
  nextReal : σ → ℚ × σ
  /-- `Random::next()`: the next integer and the advanced generator. -/
  next : σ → Int × σ
  THUNDERSTORM_SKY_FLASH_SECONDS : ℚ
  THUNDERSTORM_BOLT_SECONDS : ℚ
  RAINDROP_FAST_COUNT : Nat
  RAINDROP_MEDIUM_COUNT : Nat
  RAINDROP_SLOW_COUNT : Nat
  RAINDROP_TOTAL_COUNT : Nat
  RAINDROP_FAST_PIXELS_PER_FRAME_X : Int
  RAINDROP_FAST_PIXELS_PER_FRAME_Y : Int
  RAINDROP_MEDIUM_PIXELS_PER_FRAME_X : Int
  RAINDROP_MEDIUM_PIXELS_PER_FRAME_Y : Int
  RAINDROP_SLOW_PIXELS_PER_FRAME_X : Int
  RAINDROP_SLOW_PIXELS_PER_FRAME_Y : Int
  SNOWFLAKE_FAST_COUNT : Nat
  SNOWFLAKE_MEDIUM_COUNT : Nat
  SNOWFLAKE_SLOW_COUNT : Nat
  SNOWFLAKE_TOTAL_COUNT : Nat
  SNOWFLAKE_PIXELS_PER_FRAME_X : Int
  SNOWFLAKE_FAST_PIXELS_PER_FRAME_Y : Int
  SNOWFLAKE_MEDIUM_PIXELS_PER_FRAME_Y : Int
  SNOWFLAKE_SLOW_PIXELS_PER_FRAME_Y : Int
  SNOWFLAKE_MIN_SECONDS_BEFORE_DIRECTION_CHANGE : ℚ
  /-- `ArenaWeatherUtils::shouldSnowflakeChangeDirection(random)`. -/
  shouldSnowflakeChangeDirection : σ → Bool × σ
  SCREEN_WIDTH : Int
  SCREEN_HEIGHT : Int
  FRAMES_PER_SECOND : Int
  ASPECT_RATIO : ℚ
  TwoPi : ℚ

/-- `Buffer<T>::get(index)`. -/
def Buffer.get {α : Type} (buffer : List α) (index : Nat) : Except Fault α :=
  match buffer[index]? with
  | some value => .ok value
  | none => .error .assertionFailed

/-- `Buffer<T>::set(index, value)`. -/
def Buffer.set {α : Type} (buffer : List α) (index : Nat) (value : α) : Except Fault (List α) :=
  if index < buffer.length then .ok (List.set buffer index value) else .error .assertionFailed

/-- The loop `for (int i = i0; ...; i++) body`, run for `n` iterations from `i0`. -/
def forCount {S : Type} (body : Nat → S → Except Fault S) : Nat → Nat → S → Except Fault S
  | 0, _, s => .ok s
  | n + 1, i, s =>
    match body i s with
    | .ok s1 => forCount body n (i + 1) s1
    | .error e => .error e

/-- The loop `for (int i = startIndex; i < endIndex; i++) body`. -/
def forRange {S : Type} (body : Nat → S → Except Fault S) (startIndex endIndex : Nat) (s : S) :
    Except Fault S :=
  forCount body (endIndex - startIndex) startIndex s

/-- `MakeSecondsUntilNextLightning(random)`. -/
def MakeSecondsUntilNextLightning {σ : Type} (E : Env σ) (random : σ) : ℚ × σ :=
  (E.THUNDERSTORM_SKY_FLASH_SECONDS + (E.nextReal random).1 * 5, (E.nextReal random).2)

/-- `MakeLightningBoltAngle(random)`. -/
def MakeLightningBoltAngle {σ : Type} (E : Env σ) (random : σ) : ℚ × σ :=
  ((E.nextReal random).1 * E.TwoPi, (E.nextReal random).2)

/-- `MakeSnowflakeDirection(random)`; `%` is the C++ remainder. -/
def MakeSnowflakeDirection {σ : Type} (E : Env σ) (random : σ) : Bool × σ :=
  (decide (Int.tmod (E.next random).1 2 ≠ 0), (E.next random).2)

/-- `WeatherInstance::Particle`. -/
structure Particle where
  xPercent : ℚ
  yPercent : ℚ
  deriving DecidableEq, Repr

/-- `WeatherInstance::Particle::init`. -/
def Particle.init (xPercent yPercent : ℚ) : Particle :=
  { xPercent := xPercent, yPercent := yPercent }

/-- `WeatherInstance::RainInstance::Thunderstorm`. -/
structure Thunderstorm where
  flashColors : List (Fin 256)
  secondsSincePrevLightning : Double
  secondsUntilNextLightning : ℚ
  lightningBoltAngle : ℚ
  active : Bool
  deriving DecidableEq, Repr

/-- `WeatherInstance::RainInstance::Thunderstorm::init`. -/
def Thunderstorm.init {σ : Type} (E : Env σ) (flashColors : List (Fin 256)) (random : σ) :
    Thunderstorm × σ :=
  ({ flashColors := flashColors
     secondsSincePrevLightning := Double.posInf
     secondsUntilNextLightning := (MakeSecondsUntilNextLightning E random).1
     lightningBoltAngle := 0
     active := false },
   (MakeSecondsUntilNextLightning E random).2)

/-- `WeatherInstance::RainInstance::Thunderstorm::update`. -/
def Thunderstorm.update {σ : Type} (E : Env σ) (self : Thunderstorm) (dt : ℚ) (random : σ) :
    Thunderstorm × σ :=
  if self.active then
    let secondsSincePrevLightning := Double.add self.secondsSincePrevLightning (Double.fin dt)
    let secondsUntilNextLightning := self.secondsUntilNextLightning - dt
    if secondsUntilNextLightning ≤ 0 then
      let seconds := MakeSecondsUntilNextLightning E random
      let angle := MakeLightningBoltAngle E seconds.2
      ({ self with
         secondsSincePrevLightning := Double.fin 0
         secondsUntilNextLightning := seconds.1
         lightningBoltAngle := angle.1 },
       angle.2)
    else
      ({ self with
         secondsSincePrevLightning := secondsSincePrevLightning
         secondsUntilNextLightning := secondsUntilNextLightning },
       random)
  else
    (self, random)

/-- A sequence of `Thunderstorm::update` calls, one for each `dt` of the list, on the same
thunderstorm and generator. -/
def Thunderstorm.updateMany {σ : Type} (E : Env σ) : List ℚ → Thunderstorm × σ → Thunderstorm × σ
  | [], s => s
  | dt :: dts, s => Thunderstorm.updateMany E dts (Thunderstorm.update E s.1 dt s.2)

/-- `WeatherInstance::RainInstance`. -/
structure RainInstance where
  particles : List Particle
  thunderstorm : Option Thunderstorm
  deriving DecidableEq, Repr

/-- The loop of `RainInstance::init` and `SnowInstance::init` that places the particles:
`particle.init(random.nextReal(), random.nextReal())` for each of `count` particles. The
two draws are taken in the order the arguments are written. -/
def initParticles {σ : Type} (E : Env σ) : Nat → σ → List Particle × σ
  | 0, random => ([], random)
  | count + 1, random =>
    let x := E.nextReal random
    let y := E.nextReal x.2
    let rest := initParticles E count y.2
    (Particle.init x.1 y.1 :: rest.1, rest.2)

/-- `WeatherInstance::RainInstance::init`. -/
def RainInstance.init {σ : Type} (E : Env σ) (isThunderstorm : Bool)
    (flashColors : List (Fin 256)) (random : σ) : RainInstance × σ :=
  let placed := initParticles E E.RAINDROP_TOTAL_COUNT random
  if isThunderstorm then
    let thunderstorm := Thunderstorm.init E flashColors placed.2
    ({ particles := placed.1, thunderstorm := some thunderstorm.1 }, thunderstorm.2)
  else
    ({ particles := placed.1, thunderstorm := none }, placed.2)

/-- The body of the loop in the lambda `animateRaindropRange`, for one particle. -/
def animateRaindrop {σ : Type} (E : Env σ) (dt aspectRatio velocityPercentX velocityPercentY : ℚ)
    (particle : Particle) (random : σ) : Particle × σ :=
  let canBeRestarted := decide (particle.xPercent < 0) || decide (particle.yPercent ≥ 1)
  if canBeRestarted then
    let topEdgeLength := aspectRatio
    let rightEdgeLength : ℚ := 1
    let topEdgePercent := topEdgeLength / (topEdgeLength + rightEdgeLength)
    let edge := E.nextReal random
    if edge.1 ≤ topEdgePercent then
      ({ xPercent := (E.nextReal edge.2).1, yPercent := 0 }, (E.nextReal edge.2).2)
    else
      ({ xPercent := 1, yPercent := (E.nextReal edge.2).1 }, (E.nextReal edge.2).2)
  else
    let aspectRatioMultiplierX := E.ASPECT_RATIO / aspectRatio
    let deltaPercentX := (velocityPercentX * aspectRatioMultiplierX) * dt
    let deltaPercentY := velocityPercentY * dt
    ({ xPercent := particle.xPercent + deltaPercentX
       yPercent := particle.yPercent + deltaPercentY },
     random)

/-- One iteration of the loop in `animateRaindropRange`: particle `i` is fetched from the
buffer by reference and overwritten. -/
def raindropStep {σ : Type} (E : Env σ) (dt aspectRatio velocityPercentX velocityPercentY : ℚ)
    (i : Nat) (s : List Particle × σ) : Except Fault (List Particle × σ) :=
  match Buffer.get s.1 i with
  | .ok particle =>
    let moved := animateRaindrop E dt aspectRatio velocityPercentX velocityPercentY particle s.2
    .ok (List.set s.1 i moved.1, moved.2)
  | .error e => .error e

/-- The lambda `animateRaindropRange` of `RainInstance::update`. -/
def animateRaindropRange {σ : Type} (E : Env σ) (dt aspectRatio : ℚ) (startIndex endIndex : Nat)
    (velocityPercentX velocityPercentY : ℚ) (s : List Particle × σ) :
    Except Fault (List Particle × σ) :=
  forRange (raindropStep E dt aspectRatio velocityPercentX velocityPercentY) startIndex endIndex s

namespace RainInstance

/-- The constant `fastEndIndex` (also `mediumStartIndex`) of `RainInstance::update`. -/
def fastEndIndex {σ : Type} (E : Env σ) : Nat := E.RAINDROP_FAST_COUNT

/-- The constant `mediumEndIndex` (also `slowStartIndex`) of `RainInstance::update`. -/
def mediumEndIndex {σ : Type} (E : Env σ) : Nat := fastEndIndex E + E.RAINDROP_MEDIUM_COUNT

/-- The constant `slowEndIndex` of `RainInstance::update`. -/
def slowEndIndex {σ : Type} (E : Env σ) : Nat := mediumEndIndex E + E.RAINDROP_SLOW_COUNT

/-- The constant `fastVelocityPercentX` of `RainInstance::update`. -/
def fastVelocityPercentX {σ : Type} (E : Env σ) : ℚ :=
  ((E.RAINDROP_FAST_PIXELS_PER_FRAME_X * E.FRAMES_PER_SECOND : Int) : ℚ) / (E.SCREEN_WIDTH : ℚ)

/-- The constant `fastVelocityPercentY` of `RainInstance::update`. -/
def fastVelocityPercentY {σ : Type} (E : Env σ) : ℚ :=
  ((E.RAINDROP_FAST_PIXELS_PER_FRAME_Y * E.FRAMES_PER_SECOND : Int) : ℚ) / (E.SCREEN_HEIGHT : ℚ)

/-- The constant `mediumVelocityPercentX` of `RainInstance::update`. -/
def mediumVelocityPercentX {σ : Type} (E : Env σ) : ℚ :=
  ((E.RAINDROP_MEDIUM_PIXELS_PER_FRAME_X * E.FRAMES_PER_SECOND : Int) : ℚ) / (E.SCREEN_WIDTH : ℚ)

/-- The constant `mediumVelocityPercentY` of `RainInstance::update`. -/
def mediumVelocityPercentY {σ : Type} (E : Env σ) : ℚ :=
  ((E.RAINDROP_MEDIUM_PIXELS_PER_FRAME_Y * E.FRAMES_PER_SECOND : Int) : ℚ) / (E.SCREEN_HEIGHT : ℚ)

/-- The constant `slowVelocityPercentX` of `RainInstance::update`. -/
def slowVelocityPercentX {σ : Type} (E : Env σ) : ℚ :=
  ((E.RAINDROP_SLOW_PIXELS_PER_FRAME_X * E.FRAMES_PER_SECOND : Int) : ℚ) / (E.SCREEN_WIDTH : ℚ)

/-- The constant `slowVelocityPercentY` of `RainInstance::update`. -/
def slowVelocityPercentY {σ : Type} (E : Env σ) : ℚ :=
  ((E.RAINDROP_SLOW_PIXELS_PER_FRAME_Y * E.FRAMES_PER_SECOND : Int) : ℚ) / (E.SCREEN_HEIGHT : ℚ)

/-- The `velocityPercentX` argument `RainInstance::update` passes for index `i`: that of the
call whose index range holds `i`. -/
def velocityPercentX {σ : Type} (E : Env σ) (i : Nat) : ℚ :=
  if i < fastEndIndex E then fastVelocityPercentX E
  else if i < mediumEndIndex E then mediumVelocityPercentX E
  else slowVelocityPercentX E

/-- The `velocityPercentY` argument `RainInstance::update` passes for index `i`: that of the
call whose index range holds `i`. -/
def velocityPercentY {σ : Type} (E : Env σ) (i : Nat) : ℚ :=
  if i < fastEndIndex E then fastVelocityPercentY E
  else if i < mediumEndIndex E then mediumVelocityPercentY E
  else slowVelocityPercentY E

/-- The three `animateRaindropRange` calls of `RainInstance::update`, with every end index
capped at `stop`: the loops as far as they have run when index `stop` is about to be
visited. With `stop = slowEndIndex` these are the three calls themselves. -/
def animateUpTo {σ : Type} (E : Env σ) (dt aspectRatio : ℚ) (stop : Nat)
    (s : List Particle × σ) : Except Fault (List Particle × σ) :=
  match animateRaindropRange E dt aspectRatio 0 (min (fastEndIndex E) stop)
      (fastVelocityPercentX E) (fastVelocityPercentY E) s with
  | .error e => .error e
  | .ok s1 =>
    match animateRaindropRange E dt aspectRatio (fastEndIndex E) (min (mediumEndIndex E) stop)
        (mediumVelocityPercentX E) (mediumVelocityPercentY E) s1 with
    | .error e => .error e
    | .ok s2 =>
      animateRaindropRange E dt aspectRatio (mediumEndIndex E) (min (slowEndIndex E) stop)
        (slowVelocityPercentX E) (slowVelocityPercentY E) s2

/-- `WeatherInstance::RainInstance::update`. -/
def update {σ : Type} (E : Env σ) (self : RainInstance) (dt aspectRatio : ℚ) (random : σ) :
    Except Fault (RainInstance × σ) :=
  match animateRaindropRange E dt aspectRatio 0 (fastEndIndex E)
      (fastVelocityPercentX E) (fastVelocityPercentY E) (self.particles, random) with
  | .error e => .error e
  | .ok s1 =>
    match animateRaindropRange E dt aspectRatio (fastEndIndex E) (mediumEndIndex E)
        (mediumVelocityPercentX E) (mediumVelocityPercentY E) s1 with
    | .error e => .error e
    | .ok s2 =>
      match animateRaindropRange E dt aspectRatio (mediumEndIndex E) (slowEndIndex E)
          (slowVelocityPercentX E) (slowVelocityPercentY E) s2 with
      | .error e => .error e
      | .ok s3 =>
        match self.thunderstorm with
        | some thunderstorm =>
          let struck := Thunderstorm.update E thunderstorm dt s3.2
          .ok ({ particles := s3.1, thunderstorm := some struck.1 }, struck.2)
        | none => .ok ({ particles := s3.1, thunderstorm := none }, s3.2)

end RainInstance

/-- `std::fmod(x, y)` on finite values with `y` non-zero: `x - n * y`, with `n` the quotient
`x / y` truncated towards zero. -/
def fmod (x y : ℚ) : ℚ :=
  x - ((if 0 ≤ x / y then Int.floor (x / y) else Int.ceil (x / y) : Int) : ℚ) * y

/-- `WeatherInstance::SnowInstance`. -/
structure SnowInstance where
  particles : List Particle
  directions : List Bool
  lastDirectionChangeSeconds : List ℚ
  deriving DecidableEq, Repr

/-- The loop of `SnowInstance::init` that fills `directions`:
`directions.set(i, MakeSnowflakeDirection(random))` for each of `count` entries. -/
def initDirections {σ : Type} (E : Env σ) : Nat → σ → List Bool × σ
  | 0, random => ([], random)
  | count + 1, random =>
    let direction := MakeSnowflakeDirection E random
    let rest := initDirections E count direction.2
    (direction.1 :: rest.1, rest.2)

/-- `WeatherInstance::SnowInstance::init`. -/
def SnowInstance.init {σ : Type} (E : Env σ) (random : σ) : SnowInstance × σ :=
  let placed := initParticles E E.SNOWFLAKE_TOTAL_COUNT random
  let directed := initDirections E placed.1.length placed.2
  ({ particles := placed.1
     directions := directed.1
     lastDirectionChangeSeconds := List.replicate placed.1.length 0 },
   directed.2)

/-- One iteration of the loop in the lambda `animateSnowflakeRange` of `SnowInstance::update`.
In the branch that moves the particle the source reads `lastDirectionChangeSeconds.get(i)`
and `directions.get(i)` (each asserting the index), updates the timer through a reference and
writes `directions` only when the flag flips; here both entries are read first and written
back, the flag with its old value when it does not flip. -/
def snowflakeStep {σ : Type} (E : Env σ) (dt aspectRatio velocityPercentX velocityPercentY : ℚ)
    (i : Nat) (s : SnowInstance × σ) : Except Fault (SnowInstance × σ) :=
  match Buffer.get s.1.particles i with
  | .error e => .error e
  | .ok particle =>
    let canBeRestarted := decide (particle.yPercent ≥ 1)
    if canBeRestarted then
      let place := E.nextReal s.2
      let direction := MakeSnowflakeDirection E place.2
      match Buffer.set s.1.directions i direction.1 with
      | .error e => .error e
      | .ok directions =>
        .ok ({ s.1 with
               particles := List.set s.1.particles i { xPercent := place.1, yPercent := 0 }
               directions := directions },
             direction.2)
    else
      match Buffer.get s.1.lastDirectionChangeSeconds i, Buffer.get s.1.directions i with
      | .error e, _ => .error e
      | _, .error e => .error e
      | .ok seconds, .ok direction =>
        let secondsSinceDirectionChange := seconds + dt
        let threshold := E.SNOWFLAKE_MIN_SECONDS_BEFORE_DIRECTION_CHANGE
        let turned : ℚ × Bool × σ :=
          if secondsSinceDirectionChange ≥ threshold then
            let change := E.shouldSnowflakeChangeDirection s.2
            (fmod secondsSinceDirectionChange threshold,
             (if change.1 then !direction else direction), change.2)
          else
            (secondsSinceDirectionChange, direction, s.2)
        let directionX : ℚ := if turned.2.1 then 1 else -1
        let aspectRatioMultiplierX := E.ASPECT_RATIO / aspectRatio
        let velocityCorrectionX : ℚ := 1 / 2
        let deltaPercentX :=
          (velocityPercentX * directionX * aspectRatioMultiplierX * velocityCorrectionX) * dt
        let deltaPercentY := velocityPercentY * dt
        .ok ({ particles := List.set s.1.particles i
                 { xPercent := particle.xPercent + deltaPercentX
                   yPercent := particle.yPercent + deltaPercentY }
               directions := List.set s.1.directions i turned.2.1
               lastDirectionChangeSeconds := List.set s.1.lastDirectionChangeSeconds i turned.1 },
             turned.2.2)

/-- The lambda `animateSnowflakeRange` of `SnowInstance::update`. -/
def animateSnowflakeRange {σ : Type} (E : Env σ) (dt aspectRatio : ℚ) (startIndex endIndex : Nat)
    (velocityPercentX velocityPercentY : ℚ) (s : SnowInstance × σ) :
    Except Fault (SnowInstance × σ) :=
  forRange (snowflakeStep E dt aspectRatio velocityPercentX velocityPercentY) startIndex endIndex s

namespace SnowInstance

/-- The constant `fastEndIndex` (also `mediumStartIndex`) of `SnowInstance::update`. -/
def fastEndIndex {σ : Type} (E : Env σ) : Nat := E.SNOWFLAKE_FAST_COUNT

/-- The constant `mediumEndIndex` (also `slowStartIndex`) of `SnowInstance::update`. -/
def mediumEndIndex {σ : Type} (E : Env σ) : Nat := fastEndIndex E + E.SNOWFLAKE_MEDIUM_COUNT

/-- The constant `slowEndIndex` of `SnowInstance::update`. -/
def slowEndIndex {σ : Type} (E : Env σ) : Nat := mediumEndIndex E + E.SNOWFLAKE_SLOW_COUNT

/-- The constant `fastVelocityPercentX` of `SnowInstance::update`. -/
def fastVelocityPercentX {σ : Type} (E : Env σ) : ℚ :=
  ((E.SNOWFLAKE_PIXELS_PER_FRAME_X * E.FRAMES_PER_SECOND : Int) : ℚ) / (E.SCREEN_WIDTH : ℚ)

/-- The constant `mediumVelocityPercentX` of `SnowInstance::update`. -/
def mediumVelocityPercentX {σ : Type} (E : Env σ) : ℚ :=
  ((E.SNOWFLAKE_PIXELS_PER_FRAME_X * E.FRAMES_PER_SECOND : Int) : ℚ) / (E.SCREEN_WIDTH : ℚ)

/-- The constant `slowVelocityPercentX` of `SnowInstance::update`. -/
def slowVelocityPercentX {σ : Type} (E : Env σ) : ℚ :=
  ((E.SNOWFLAKE_PIXELS_PER_FRAME_X * E.FRAMES_PER_SECOND : Int) : ℚ) / (E.SCREEN_WIDTH : ℚ)

/-- The constant `fastVelocityPercentY` of `SnowInstance::update`. -/
def fastVelocityPercentY {σ : Type} (E : Env σ) : ℚ :=
  ((E.SNOWFLAKE_FAST_PIXELS_PER_FRAME_Y * E.FRAMES_PER_SECOND : Int) : ℚ) / (E.SCREEN_HEIGHT : ℚ)

/-- The constant `mediumVelocityPercentY` of `SnowInstance::update`. -/
def mediumVelocityPercentY {σ : Type} (E : Env σ) : ℚ :=
  ((E.SNOWFLAKE_MEDIUM_PIXELS_PER_FRAME_Y * E.FRAMES_PER_SECOND : Int) : ℚ) / (E.SCREEN_HEIGHT : ℚ)

/-- The constant `slowVelocityPercentY` of `SnowInstance::update`. -/
def slowVelocityPercentY {σ : Type} (E : Env σ) : ℚ :=
  ((E.SNOWFLAKE_SLOW_PIXELS_PER_FRAME_Y * E.FRAMES_PER_SECOND : Int) : ℚ) / (E.SCREEN_HEIGHT : ℚ)

/-- The three `animateSnowflakeRange` calls of `SnowInstance::update`, with every end index
capped at `stop`: the loops as far as they have run when index `stop` is about to be
visited. With `stop = slowEndIndex` these are the three calls themselves. -/
def animateUpTo {σ : Type} (E : Env σ) (dt aspectRatio : ℚ) (stop : Nat)
    (s : SnowInstance × σ) : Except Fault (SnowInstance × σ) :=
  match animateSnowflakeRange E dt aspectRatio 0 (min (fastEndIndex E) stop)
      (fastVelocityPercentX E) (fastVelocityPercentY E) s with
  | .error e => .error e
  | .ok s1 =>
    match animateSnowflakeRange E dt aspectRatio (fastEndIndex E) (min (mediumEndIndex E) stop)
        (mediumVelocityPercentX E) (mediumVelocityPercentY E) s1 with
    | .error e => .error e
    | .ok s2 =>
      animateSnowflakeRange E dt aspectRatio (mediumEndIndex E) (min (slowEndIndex E) stop)
        (slowVelocityPercentX E) (slowVelocityPercentY E) s2

/-- `WeatherInstance::SnowInstance::update`. -/
def update {σ : Type} (E : Env σ) (self : SnowInstance) (dt aspectRatio : ℚ) (random : σ) :
    Except Fault (SnowInstance × σ) :=
  match animateSnowflakeRange E dt aspectRatio 0 (fastEndIndex E)
      (fastVelocityPercentX E) (fastVelocityPercentY E) (self, random) with
  | .error e => .error e
  | .ok s1 =>
    match animateSnowflakeRange E dt aspectRatio (fastEndIndex E) (mediumEndIndex E)
        (mediumVelocityPercentX E) (mediumVelocityPercentY E) s1 with
    | .error e => .error e
    | .ok s2 =>
      animateSnowflakeRange E dt aspectRatio (mediumEndIndex E) (slowEndIndex E)
        (slowVelocityPercentX E) (slowVelocityPercentY E) s2

end SnowInstance

/-- `WeatherDefinition::Type`; `Other` stands for a value of the enumeration type that is
none of the four weather types this file handles. -/
inductive WeatherDefinitionType where
  | Clear
  | Overcast
  | Rain
  | Snow
  | Other (value : Int)
  deriving DecidableEq, Repr

/-- `WeatherDefinition::RainDefinition`. -/
structure RainDefinition where
  thunderstorm : Bool
  deriving DecidableEq, Repr

/-- What `WeatherInstance::init` reads of a `WeatherDefinition`: `getType()` and `getRain()`. -/
structure WeatherDefinition where
  type : WeatherDefinitionType
  rain : RainDefinition
  deriving DecidableEq, Repr

/-- `WeatherInstance::Type`; `Other` stands for a value that is none of the enumerators,
such as the `static_cast<WeatherInstance::Type>(-1)` of the constructor. -/
inductive WeatherInstanceType where
  | None
  | Rain
  | Snow
  | Other (value : Int)
  deriving DecidableEq, Repr

/-- `WeatherInstance`: the type tag and the two payload members. -/
structure WeatherInstance where
  type : WeatherInstanceType
  rain : RainInstance
  snow : SnowInstance
  deriving DecidableEq, Repr

namespace WeatherInstance

/-- `WeatherInstance::WeatherInstance()`: the payload members are default-constructed. -/
def new : WeatherInstance :=
  { type := WeatherInstanceType.Other (-1)
    rain := { particles := [], thunderstorm := none }
    snow := { particles := [], directions := [], lastDirectionChangeSeconds := [] } }

/-- `WeatherInstance::init`; `thunderstormColors` is the buffer returned by
`ArenaWeatherUtils::makeThunderstormColors(exeData)`. -/
def init {σ : Type} (E : Env σ) (self : WeatherInstance) (weatherDef : WeatherDefinition)
    (thunderstormColors : List (Fin 256)) (random : σ) : Except Fault (WeatherInstance × σ) :=
  let weatherDefType := weatherDef.type
  if weatherDefType = WeatherDefinitionType.Clear ∨ weatherDefType = WeatherDefinitionType.Overcast then
    .ok ({ self with type := WeatherInstanceType.None }, random)
  else if weatherDefType = WeatherDefinitionType.Rain then
    let rainDef := weatherDef.rain
    let made := RainInstance.init E rainDef.thunderstorm thunderstormColors random
    .ok ({ self with type := WeatherInstanceType.Rain, rain := made.1 }, made.2)
  else if weatherDefType = WeatherDefinitionType.Snow then
    let made := SnowInstance.init E random
    .ok ({ self with type := WeatherInstanceType.Snow, snow := made.1 }, made.2)
  else
    .error Fault.notImplemented

/-- `WeatherInstance::getType`. -/
def getType (self : WeatherInstance) : WeatherInstanceType := self.type

/-- `WeatherInstance::getRain` (both overloads). -/
def getRain (self : WeatherInstance) : Except Fault RainInstance :=
  if self.type = WeatherInstanceType.Rain then .ok self.rain else .error Fault.assertionFailed

/-- `WeatherInstance::getSnow`. -/
def getSnow (self : WeatherInstance) : Except Fault SnowInstance :=
  if self.type = WeatherInstanceType.Snow then .ok self.snow else .error Fault.assertionFailed

/-- `WeatherInstance::update`. -/
def update {σ : Type} (E : Env σ) (self : WeatherInstance) (dt aspectRatio : ℚ) (random : σ) :
    Except Fault (WeatherInstance × σ) :=
  if self.type = WeatherInstanceType.None then
    .ok (self, random)
  else if self.type = WeatherInstanceType.Rain then
    match RainInstance.update E self.rain dt aspectRatio random with
    | .ok r => .ok ({ self with rain := r.1 }, r.2)
    | .error e => .error e
  else if self.type = WeatherInstanceType.Snow then
    match SnowInstance.update E self.snow dt aspectRatio random with
    | .ok r => .ok ({ self with snow := r.1 }, r.2)
    | .error e => .error e
  else
    .error Fault.notImplemented

end WeatherInstance

/-- What one iteration of the loop in `animateSnowflakeRange` does to the entries at its index
(the particle, its direction flag, its direction-change timer) and to the generator; see
`snowflakeStep`. -/
def animateSnowflake {σ : Type} (E : Env σ) (dt aspectRatio velocityPercentX velocityPercentY : ℚ)
    (cell : Particle × Bool × ℚ) (random : σ) : (Particle × Bool × ℚ) × σ :=
  if cell.1.yPercent ≥ 1 then
    let place := E.nextReal random
    let direction := MakeSnowflakeDirection E place.2
    (({ xPercent := place.1, yPercent := 0 }, direction.1, cell.2.2), direction.2)
  else
    let secondsSinceDirectionChange := cell.2.2 + dt
    let threshold := E.SNOWFLAKE_MIN_SECONDS_BEFORE_DIRECTION_CHANGE
    let turned : ℚ × Bool × σ :=
      if secondsSinceDirectionChange ≥ threshold then
        let change := E.shouldSnowflakeChangeDirection random
        (fmod secondsSinceDirectionChange threshold,
         (if change.1 then !cell.2.1 else cell.2.1), change.2)
      else
        (secondsSinceDirectionChange, cell.2.1, random)
    let directionX : ℚ := if turned.2.1 then 1 else -1
    let aspectRatioMultiplierX := E.ASPECT_RATIO / aspectRatio
    let velocityCorrectionX : ℚ := 1 / 2
    let deltaPercentX :=
      (velocityPercentX * directionX * aspectRatioMultiplierX * velocityCorrectionX) * dt
    let deltaPercentY := velocityPercentY * dt
    (({ xPercent := cell.1.xPercent + deltaPercentX
        yPercent := cell.1.yPercent + deltaPercentY }, turned.2.1, turned.1), turned.2.2)

/-- The entries of a snow field at index `k`: the particle, its direction flag and its
direction-change timer, when all three buffers hold the index. -/
def SnowInstance.cell (self : SnowInstance) (k : Nat) : Option (Particle × Bool × ℚ) :=
  match self.particles[k]?, self.directions[k]?, self.lastDirectionChangeSeconds[k]? with
  | some particle, some direction, some seconds => some (particle, direction, seconds)
  | _, _, _ => none

/-- The `velocityPercentX` argument `SnowInstance::update` passes for index `i`: that of the
call whose index range holds `i`. -/
def SnowInstance.velocityPercentX {σ : Type} (E : Env σ) (i : Nat) : ℚ :=
  if i < SnowInstance.fastEndIndex E then SnowInstance.fastVelocityPercentX E
  else if i < SnowInstance.mediumEndIndex E then SnowInstance.mediumVelocityPercentX E
  else SnowInstance.slowVelocityPercentX E

/-- The `velocityPercentY` argument `SnowInstance::update` passes for index `i`: that of the
call whose index range holds `i`. -/
def SnowInstance.velocityPercentY {σ : Type} (E : Env σ) (i : Nat) : ℚ :=
  if i < SnowInstance.fastEndIndex E then SnowInstance.fastVelocityPercentY E
  else if i < SnowInstance.mediumEndIndex E then SnowInstance.mediumVelocityPercentY E
  else SnowInstance.slowVelocityPercentY E

/-- IEEE subtraction `a - b` (exact on finite values). -/
def Double.sub : Double → Double → Double
  | .fin a, .fin b => .fin (a - b)
  | .nan, _ => .nan
  | _, .nan => .nan
  | .posInf, .posInf => .nan
  | .negInf, .negInf => .nan
  | .posInf, _ => .posInf
  | _, .negInf => .posInf
  | .negInf, _ => .negInf
  | _, .posInf => .negInf

/-- IEEE division `a / b` (exact on finite values). Zero carries no sign here and stands for
`+0.0`: a non-zero finite value divided by zero is the infinity of its own sign. -/
def Double.div : Double → Double → Double
  | .nan, _ => .nan
  | _, .nan => .nan
  | .fin a, .fin b =>
    if b = 0 then (if a = 0 then .nan else if 0 < a then .posInf else .negInf)
    else .fin (a / b)
  | .fin _, .posInf => .fin 0
  | .fin _, .negInf => .fin 0
  | .posInf, .fin b => if 0 ≤ b then .posInf else .negInf
  | .negInf, .fin b => if 0 ≤ b then .negInf else .posInf
  | .posInf, .posInf => .nan
  | .posInf, .negInf => .nan
  | .negInf, .posInf => .nan
  | .negInf, .negInf => .nan

/-- IEEE comparison `a < b`: false when either side is a NaN. -/
def Double.lt : Double → Double → Bool
  | .fin a, .fin b => decide (a < b)
  | .nan, _ => false
  | _, .nan => false
  | .negInf, .negInf => false
  | .negInf, _ => true
  | .posInf, _ => false
  | .fin _, .posInf => true
  | .fin _, .negInf => false

/-- IEEE comparison `a <= b`: false when either side is a NaN. -/
def Double.le : Double → Double → Bool
  | .fin a, .fin b => decide (a ≤ b)
  | .nan, _ => false
  | _, .nan => false
  | .negInf, _ => true
  | .posInf, .posInf => true
  | .posInf, _ => false
  | .fin _, .posInf => true
  | .fin _, .negInf => false

/-- `std::clamp(v, lo, hi)`: `(v < lo) ? lo : (hi < v) ? hi : v`. -/
def Double.clamp (v lo hi : Double) : Double :=
  if Double.lt v lo then lo else if Double.lt hi v then hi else v

/-- `WeatherInstance::RainInstance::Thunderstorm::getFlashPercent`. -/
def Thunderstorm.getFlashPercent {σ : Type} (E : Env σ) (self : Thunderstorm) : Double :=
  let percent :=
    Double.div self.secondsSincePrevLightning (Double.fin E.THUNDERSTORM_SKY_FLASH_SECONDS)
  Double.clamp (Double.sub (Double.fin 1) percent) (Double.fin 0) (Double.fin 1)

/-- `WeatherInstance::RainInstance::Thunderstorm::isLightningBoltVisible`. -/
def Thunderstorm.isLightningBoltVisible {σ : Type} (E : Env σ) (self : Thunderstorm) : Bool :=
  Double.le self.secondsSincePrevLightning (Double.fin E.THUNDERSTORM_BOLT_SECONDS)

/-- The test `canBeRestarted` of the loop in `animateRaindropRange`. -/
def RainInstance.canBeRestarted (particle : Particle) : Bool :=
  decide (particle.xPercent < 0) || decide (particle.yPercent ≥ 1)

/-- The generator after two calls of `nextReal`. -/
def Env.afterTwoReals {σ : Type} (E : Env σ) (random : σ) : σ :=
  (E.nextReal (E.nextReal random).2).2

/-- The instance as `WeatherInstance::init` has written it when it returns or halts: the
branches of `init`, keeping track of `*this` only. -/
def WeatherInstance.initWrites {σ : Type} (E : Env σ) (self : WeatherInstance)
    (weatherDef : WeatherDefinition) (thunderstormColors : List (Fin 256)) (random : σ) :
    WeatherInstance :=
  let weatherDefType := weatherDef.type
  if weatherDefType = WeatherDefinitionType.Clear ∨ weatherDefType = WeatherDefinitionType.Overcast then
    { self with type := WeatherInstanceType.None }
  else if weatherDefType = WeatherDefinitionType.Rain then
    let rainDef := weatherDef.rain
    { self with
      type := WeatherInstanceType.Rain
      rain := (RainInstance.init E rainDef.thunderstorm thunderstormColors random).1 }
  else if weatherDefType = WeatherDefinitionType.Snow then
    { self with type := WeatherInstanceType.Snow, snow := (SnowInstance.init E random).1 }
  else
    self

/-- A sequence of `Thunderstorm::update` calls in which the `active` flag is written from
outside before each call: one call for each pair (flag, `dt`) of the list. -/
def Thunderstorm.updateManyWithActive {σ : Type} (E : Env σ) :
    List (Bool × ℚ) → Thunderstorm × σ → Thunderstorm × σ
  | [], s => s
  | call :: calls, s =>
    Thunderstorm.updateManyWithActive E calls
      (Thunderstorm.update E { s.1 with active := call.1 } call.2 s.2)

/-- A sequence of `RainInstance::update` calls, one for each pair (`dt`, `aspectRatio`) of the
list, on the same field and generator. -/
def RainInstance.updateMany {σ : Type} (E : Env σ) :
    List (ℚ × ℚ) → RainInstance × σ → Except Fault (RainInstance × σ)
  | [], s => .ok s
  | call :: calls, s =>
    match RainInstance.update E s.1 call.1 call.2 s.2 with
    | .ok s1 => RainInstance.updateMany E calls s1
    | .error e => .error e

/-- A sequence of `SnowInstance::update` calls, one for each pair (`dt`, `aspectRatio`) of the
list, on the same field and generator. -/
def SnowInstance.updateMany {σ : Type} (E : Env σ) :
    List (ℚ × ℚ) → SnowInstance × σ → Except Fault (SnowInstance × σ)
  | [], s => .ok s
  | call :: calls, s =>
    match SnowInstance.update E s.1 call.1 call.2 s.2 with
    | .ok s1 => SnowInstance.updateMany E calls s1
    | .error e => .error e

/-- A sequence of `WeatherInstance::update` calls, one for each pair (`dt`, `aspectRatio`) of
the list, on the same instance and generator. -/
def WeatherInstance.updateMany {σ : Type} (E : Env σ) :
    List (ℚ × ℚ) → WeatherInstance × σ → Except Fault (WeatherInstance × σ)
  | [], s => .ok s
  | call :: calls, s =>
    match WeatherInstance.update E s.1 call.1 call.2 s.2 with
    | .ok s1 => WeatherInstance.updateMany E calls s1
    | .error e => .error e

/-! ## LocationDefinition and ProvinceMapUiView -/

/-- `LocationDefinition::CityDefinition`: the member `getWildDungeonSeed` reads, a
`uint32_t`. -/
structure CityDefinition where
  provinceSeed : Nat
  deriving DecidableEq, Repr

/-- `LocationDefinition::CityDefinition::getWildDungeonSeed`. The coordinates are `int`s and
`(wildBlockY << 6) + wildBlockX` is computed on integers without wrap-around; the mask
`& 0xFFFF` leaves a value in `[0, 65535]`, which is added to the `uint32_t` seed modulo
`2^32` before the mask `& 0xFFFFFFFF`. -/
def CityDefinition.getWildDungeonSeed (self : CityDefinition) (wildBlockX wildBlockY : Int) :
    Nat :=
  Nat.land
    ((self.provinceSeed
      + (Int.land ((wildBlockY <<< (6 : Int)) + wildBlockX) 0xFFFF).toNat) % 2 ^ 32)
    0xFFFFFFFF

/-- `Int2`: a pair of `int`s. -/
structure Int2 where
  x : Int
  y : Int
  deriving DecidableEq, Repr

/-- `std::clamp(v, lo, hi)` on `int`: `(v < lo) ? lo : (hi < v) ? hi : v`. -/
def clampInt (v lo hi : Int) : Int :=
  if v < lo then lo else if hi < v then hi else v

/-- The value a 32-bit `int` takes for an expression whose exact value is `v`: a value
outside `[-2^31, 2^31)` wraps around modulo `2^32`, as the compiled subtraction does. -/
def wrapInt32 (v : Int) : Int :=
  (v + 2147483648) % 4294967296 - 2147483648

/-- `ProvinceMapUiView::getLocationTextClampedPosition`; the two subtractions of each upper
bound are 32-bit `int` subtractions. -/
def ProvinceMapUiView.getLocationTextClampedPosition {σ : Type} (E : Env σ)
    (textX textY textWidth textHeight : Int) : Int2 :=
  { x := clampInt textX 2 (wrapInt32 (wrapInt32 (E.SCREEN_WIDTH - textWidth) - 2))
    y := clampInt textY 2 (wrapInt32 (wrapInt32 (E.SCREEN_HEIGHT - textHeight) - 2)) }

/-! ## Doubles with a finite range

The definitions above take a `double` that holds a computed value for an exact rational. The
definitions of this section (prefix `IEEE`) embed the particle code once more with every
stored `double` ranging over `Double`: a result whose magnitude reaches `2^1024` overflows to
the infinity of its sign, and infinities and NaNs propagate as in IEEE 754. Rounding within
the range is not modelled. The arguments `dt` and `aspectRatio` and the constants are finite
doubles, given by their values. -/

/-- The bound of the finite range of a `double`: a result whose magnitude reaches `2^1024`
overflows. -/
def Double.limit : ℚ := 2 ^ 1024

/-- The `double` an arithmetic result becomes: a finite value outside the range overflows to
the infinity of its sign. -/
def Double.toRange : Double → Double
  | .fin q =>
    if Double.limit ≤ q then .posInf else if q ≤ -Double.limit then .negInf else .fin q
  | .posInf => .posInf
  | .negInf => .negInf
  | .nan => .nan

/-- IEEE multiplication `a * b` (exact on finite values): an infinity times zero is a NaN. -/
def Double.mul : Double → Double → Double
  | .nan, _ => .nan
  | _, .nan => .nan
  | .fin a, .fin b => .fin (a * b)
  | .fin a, .posInf => if a = 0 then .nan else if 0 < a then .posInf else .negInf
  | .fin a, .negInf => if a = 0 then .nan else if 0 < a then .negInf else .posInf
  | .posInf, .fin b => if b = 0 then .nan else if 0 < b then .posInf else .negInf
  | .negInf, .fin b => if b = 0 then .nan else if 0 < b then .negInf else .posInf
  | .posInf, .posInf => .posInf
  | .posInf, .negInf => .negInf
  | .negInf, .posInf => .negInf
  | .negInf, .negInf => .posInf

/-- The sum `a + b` as a `double`: IEEE addition, with overflow. -/
def Double.addR (a b : Double) : Double := Double.toRange (Double.add a b)

/-- The product `a * b` as a `double`: IEEE multiplication, with overflow. -/
def Double.mulR (a b : Double) : Double := Double.toRange (Double.mul a b)

/-- The quotient `a / b` as a `double`: IEEE division, with overflow. -/
def Double.divR (a b : Double) : Double := Double.toRange (Double.div a b)

/-- `std::fmod(x, y)` with the special values: a NaN when `x` is infinite or `y` is zero or
either is a NaN, and `x` itself when `x` is finite and `y` infinite. -/
def Double.fmod : Double → Double → Double
  | .fin x, .fin y => if y = 0 then .nan else .fin (OpenTESArena.fmod x y)
  | .fin x, .posInf => .fin x
  | .fin x, .negInf => .fin x
  | _, _ => .nan

/-- `WeatherInstance::Particle`, its members ranging over `Double`. -/
structure IEEE.Particle where
  xPercent : Double
  yPercent : Double
  deriving DecidableEq, Repr

/-- `WeatherInstance::Particle::init`. -/
def IEEE.Particle.init (xPercent yPercent : Double) : IEEE.Particle :=
  { xPercent := xPercent, yPercent := yPercent }

/-- `WeatherInstance::RainInstance`. -/
structure IEEE.RainInstance where
  particles : List IEEE.Particle
  thunderstorm : Option Thunderstorm
  deriving DecidableEq, Repr

/-- `WeatherInstance::SnowInstance`. -/
structure IEEE.SnowInstance where
  particles : List IEEE.Particle
  directions : List Bool
  lastDirectionChangeSeconds : List Double
  deriving DecidableEq, Repr

/-- The loop of `RainInstance::init` and `SnowInstance::init` that places the particles; see
`initParticles`. -/
def IEEE.initParticles {σ : Type} (E : Env σ) : Nat → σ → List IEEE.Particle × σ
  | 0, random => ([], random)
  | count + 1, random =>
    let x := E.nextReal random
    let y := E.nextReal x.2
    let rest := IEEE.initParticles E count y.2
    (IEEE.Particle.init (Double.fin x.1) (Double.fin y.1) :: rest.1, rest.2)

/-- `WeatherInstance::RainInstance::init`. -/
def IEEE.RainInstance.init {σ : Type} (E : Env σ) (isThunderstorm : Bool)
    (flashColors : List (Fin 256)) (random : σ) : IEEE.RainInstance × σ :=
  let placed := IEEE.initParticles E E.RAINDROP_TOTAL_COUNT random
  if isThunderstorm then
    let thunderstorm := Thunderstorm.init E flashColors placed.2
    ({ particles := placed.1, thunderstorm := some thunderstorm.1 }, thunderstorm.2)
  else
    ({ particles := placed.1, thunderstorm := none }, placed.2)

/-- `WeatherInstance::SnowInstance::init`. -/
def IEEE.SnowInstance.init {σ : Type} (E : Env σ) (random : σ) : IEEE.SnowInstance × σ :=
  let placed := IEEE.initParticles E E.SNOWFLAKE_TOTAL_COUNT random
  let directed := initDirections E placed.1.length placed.2
  ({ particles := placed.1
     directions := directed.1
     lastDirectionChangeSeconds := List.replicate placed.1.length (Double.fin 0) },
   directed.2)

/-- The local `deltaPercentX` of the lambda `animateRaindropRange`:
`(velocityPercentX * aspectRatioMultiplierX) * dt`, with
`aspectRatioMultiplierX = ArenaRenderUtils::ASPECT_RATIO / aspectRatio`. -/
def IEEE.RainInstance.deltaPercentX {σ : Type} (E : Env σ)
    (dt aspectRatio velocityPercentX : ℚ) : Double :=
  let aspectRatioMultiplierX := Double.divR (Double.fin E.ASPECT_RATIO) (Double.fin aspectRatio)
  Double.mulR (Double.mulR (Double.fin velocityPercentX) aspectRatioMultiplierX) (Double.fin dt)

/-- The local `deltaPercentY` of the lambdas `animateRaindropRange` and
`animateSnowflakeRange`: `velocityPercentY * dt`. -/
def IEEE.deltaPercentY (dt velocityPercentY : ℚ) : Double :=
  Double.mulR (Double.fin velocityPercentY) (Double.fin dt)

/-- The body of the loop in the lambda `animateRaindropRange`, for one particle. -/
def IEEE.animateRaindrop {σ : Type} (E : Env σ)
    (dt aspectRatio velocityPercentX velocityPercentY : ℚ)
    (particle : IEEE.Particle) (random : σ) : IEEE.Particle × σ :=
  let canBeRestarted :=
    Double.lt particle.xPercent (Double.fin 0) || Double.le (Double.fin 1) particle.yPercent
  if canBeRestarted then
    let topEdgeLength := Double.fin aspectRatio
    let rightEdgeLength := Double.fin 1
    let topEdgePercent := Double.divR topEdgeLength (Double.addR topEdgeLength rightEdgeLength)
    let edge := E.nextReal random
    if Double.le (Double.fin edge.1) topEdgePercent then
      ({ xPercent := Double.fin (E.nextReal edge.2).1, yPercent := Double.fin 0 },
       (E.nextReal edge.2).2)
    else
      ({ xPercent := Double.fin 1, yPercent := Double.fin (E.nextReal edge.2).1 },
       (E.nextReal edge.2).2)
  else
    let deltaPercentX := IEEE.RainInstance.deltaPercentX E dt aspectRatio velocityPercentX
    let deltaPercentY := IEEE.deltaPercentY dt velocityPercentY
    ({ xPercent := Double.addR particle.xPercent deltaPercentX
       yPercent := Double.addR particle.yPercent deltaPercentY },
     random)

/-- One iteration of the loop in `animateRaindropRange`: particle `i` is fetched from the
buffer by reference and overwritten. -/
def IEEE.raindropStep {σ : Type} (E : Env σ)
    (dt aspectRatio velocityPercentX velocityPercentY : ℚ)
    (i : Nat) (s : List IEEE.Particle × σ) : Except Fault (List IEEE.Particle × σ) :=
  match Buffer.get s.1 i with
  | .ok particle =>
    let moved :=
      IEEE.animateRaindrop E dt aspectRatio velocityPercentX velocityPercentY particle s.2
    .ok (List.set s.1 i moved.1, moved.2)
  | .error e => .error e

/-- The lambda `animateRaindropRange` of `RainInstance::update`. -/
def IEEE.animateRaindropRange {σ : Type} (E : Env σ) (dt aspectRatio : ℚ)
    (startIndex endIndex : Nat) (velocityPercentX velocityPercentY : ℚ)
    (s : List IEEE.Particle × σ) : Except Fault (List IEEE.Particle × σ) :=
  forRange (IEEE.raindropStep E dt aspectRatio velocityPercentX velocityPercentY)
    startIndex endIndex s

/-- The three `animateRaindropRange` calls of `RainInstance::update`, with every end index
capped at `stop`; see `RainInstance.animateUpTo`. -/
def IEEE.RainInstance.animateUpTo {σ : Type} (E : Env σ) (dt aspectRatio : ℚ) (stop : Nat)
    (s : List IEEE.Particle × σ) : Except Fault (List IEEE.Particle × σ) :=
  match IEEE.animateRaindropRange E dt aspectRatio 0
      (min (OpenTESArena.RainInstance.fastEndIndex E) stop)
      (OpenTESArena.RainInstance.fastVelocityPercentX E)
      (OpenTESArena.RainInstance.fastVelocityPercentY E) s with
  | .error e => .error e
  | .ok s1 =>
    match IEEE.animateRaindropRange E dt aspectRatio (OpenTESArena.RainInstance.fastEndIndex E)
        (min (OpenTESArena.RainInstance.mediumEndIndex E) stop)
        (OpenTESArena.RainInstance.mediumVelocityPercentX E)
        (OpenTESArena.RainInstance.mediumVelocityPercentY E) s1 with
    | .error e => .error e
    | .ok s2 =>
      IEEE.animateRaindropRange E dt aspectRatio (OpenTESArena.RainInstance.mediumEndIndex E)
        (min (OpenTESArena.RainInstance.slowEndIndex E) stop)
        (OpenTESArena.RainInstance.slowVelocityPercentX E)
        (OpenTESArena.RainInstance.slowVelocityPercentY E) s2

/-- `WeatherInstance::RainInstance::update`. The index and velocity constants are those of
`RainInstance.update`; the velocities are `constexpr` quotients of `int` constants, finite
doubles. -/
def IEEE.RainInstance.update {σ : Type} (E : Env σ) (self : IEEE.RainInstance)
    (dt aspectRatio : ℚ) (random : σ) : Except Fault (IEEE.RainInstance × σ) :=
  match IEEE.animateRaindropRange E dt aspectRatio 0 (OpenTESArena.RainInstance.fastEndIndex E)
      (OpenTESArena.RainInstance.fastVelocityPercentX E)
      (OpenTESArena.RainInstance.fastVelocityPercentY E) (self.particles, random) with
  | .error e => .error e
  | .ok s1 =>
    match IEEE.animateRaindropRange E dt aspectRatio (OpenTESArena.RainInstance.fastEndIndex E)
        (OpenTESArena.RainInstance.mediumEndIndex E)
        (OpenTESArena.RainInstance.mediumVelocityPercentX E)
        (OpenTESArena.RainInstance.mediumVelocityPercentY E) s1 with
    | .error e => .error e
    | .ok s2 =>
      match IEEE.animateRaindropRange E dt aspectRatio
          (OpenTESArena.RainInstance.mediumEndIndex E)
          (OpenTESArena.RainInstance.slowEndIndex E)
          (OpenTESArena.RainInstance.slowVelocityPercentX E)
          (OpenTESArena.RainInstance.slowVelocityPercentY E) s2 with
      | .error e => .error e
      | .ok s3 =>
        match self.thunderstorm with
        | some thunderstorm =>
          let struck := Thunderstorm.update E thunderstorm dt s3.2
          .ok ({ particles := s3.1, thunderstorm := some struck.1 }, struck.2)
        | none => .ok ({ particles := s3.1, thunderstorm := none }, s3.2)

/-- A sequence of `RainInstance::update` calls, one for each pair (`dt`, `aspectRatio`) of the
list, on the same field and generator. -/
def IEEE.RainInstance.updateMany {σ : Type} (E : Env σ) :
    List (ℚ × ℚ) → IEEE.RainInstance × σ → Except Fault (IEEE.RainInstance × σ)
  | [], s => .ok s
  | call :: calls, s =>
    match IEEE.RainInstance.update E s.1 call.1 call.2 s.2 with
    | .ok s1 => IEEE.RainInstance.updateMany E calls s1
    | .error e => .error e

/-- The local `deltaPercentX` of the lambda `animateSnowflakeRange`:
`(velocityPercentX * directionX * aspectRatioMultiplierX * velocityCorrectionX) * dt`, with
`directionX` 1.0 or -1.0 after the direction flag. -/
def IEEE.SnowInstance.deltaPercentX {σ : Type} (E : Env σ)
    (dt aspectRatio velocityPercentX : ℚ) (direction : Bool) : Double :=
  let directionX : Double := if direction then Double.fin 1 else Double.fin (-1)
  let aspectRatioMultiplierX := Double.divR (Double.fin E.ASPECT_RATIO) (Double.fin aspectRatio)
  let velocityCorrectionX : Double := Double.fin (1 / 2)
  Double.mulR
    (Double.mulR
      (Double.mulR (Double.mulR (Double.fin velocityPercentX) directionX) aspectRatioMultiplierX)
      velocityCorrectionX)
    (Double.fin dt)

/-- One iteration of the loop in the lambda `animateSnowflakeRange` of `SnowInstance::update`;
see `snowflakeStep` for the order of the buffer accesses. -/
def IEEE.snowflakeStep {σ : Type} (E : Env σ)
    (dt aspectRatio velocityPercentX velocityPercentY : ℚ)
    (i : Nat) (s : IEEE.SnowInstance × σ) : Except Fault (IEEE.SnowInstance × σ) :=
  match Buffer.get s.1.particles i with
  | .error e => .error e
  | .ok particle =>
    let canBeRestarted := Double.le (Double.fin 1) particle.yPercent
    if canBeRestarted then
      let place := E.nextReal s.2
      let direction := MakeSnowflakeDirection E place.2
      match Buffer.set s.1.directions i direction.1 with
      | .error e => .error e
      | .ok directions =>
        .ok ({ s.1 with
               particles := List.set s.1.particles i
                 { xPercent := Double.fin place.1, yPercent := Double.fin 0 }
               directions := directions },
             direction.2)
    else
      match Buffer.get s.1.lastDirectionChangeSeconds i, Buffer.get s.1.directions i with
      | .error e, _ => .error e
      | _, .error e => .error e
      | .ok seconds, .ok direction =>
        let secondsSinceDirectionChange := Double.addR seconds (Double.fin dt)
        let threshold := Double.fin E.SNOWFLAKE_MIN_SECONDS_BEFORE_DIRECTION_CHANGE
        let turned : Double × Bool × σ :=
          if Double.le threshold secondsSinceDirectionChange then
            let change := E.shouldSnowflakeChangeDirection s.2
            (Double.fmod secondsSinceDirectionChange threshold,
             (if change.1 then !direction else direction), change.2)
          else
            (secondsSinceDirectionChange, direction, s.2)
        let deltaPercentX :=
          IEEE.SnowInstance.deltaPercentX E dt aspectRatio velocityPercentX turned.2.1
        let deltaPercentY := IEEE.deltaPercentY dt velocityPercentY
        .ok ({ particles := List.set s.1.particles i
                 { xPercent := Double.addR particle.xPercent deltaPercentX
                   yPercent := Double.addR particle.yPercent deltaPercentY }
               directions := List.set s.1.directions i turned.2.1
               lastDirectionChangeSeconds := List.set s.1.lastDirectionChangeSeconds i turned.1 },
             turned.2.2)

/-- The lambda `animateSnowflakeRange` of `SnowInstance::update`. -/
def IEEE.animateSnowflakeRange {σ : Type} (E : Env σ) (dt aspectRatio : ℚ)
    (startIndex endIndex : Nat) (velocityPercentX velocityPercentY : ℚ)
    (s : IEEE.SnowInstance × σ) : Except Fault (IEEE.SnowInstance × σ) :=
  forRange (IEEE.snowflakeStep E dt aspectRatio velocityPercentX velocityPercentY)
    startIndex endIndex s

/-- The three `animateSnowflakeRange` calls of `SnowInstance::update`, with every end index
capped at `stop`; see `SnowInstance.animateUpTo`. -/
def IEEE.SnowInstance.animateUpTo {σ : Type} (E : Env σ) (dt aspectRatio : ℚ) (stop : Nat)
    (s : IEEE.SnowInstance × σ) : Except Fault (IEEE.SnowInstance × σ) :=
  match IEEE.animateSnowflakeRange E dt aspectRatio 0
      (min (OpenTESArena.SnowInstance.fastEndIndex E) stop)
      (OpenTESArena.SnowInstance.fastVelocityPercentX E)
      (OpenTESArena.SnowInstance.fastVelocityPercentY E) s with
  | .error e => .error e
  | .ok s1 =>
    match IEEE.animateSnowflakeRange E dt aspectRatio (OpenTESArena.SnowInstance.fastEndIndex E)
        (min (OpenTESArena.SnowInstance.mediumEndIndex E) stop)
        (OpenTESArena.SnowInstance.mediumVelocityPercentX E)
        (OpenTESArena.SnowInstance.mediumVelocityPercentY E) s1 with
    | .error e => .error e
    | .ok s2 =>
      IEEE.animateSnowflakeRange E dt aspectRatio (OpenTESArena.SnowInstance.mediumEndIndex E)
        (min (OpenTESArena.SnowInstance.slowEndIndex E) stop)
        (OpenTESArena.SnowInstance.slowVelocityPercentX E)
        (OpenTESArena.SnowInstance.slowVelocityPercentY E) s2

/-- `WeatherInstance::SnowInstance::update`. The index and velocity constants are those of
`SnowInstance.update`; the velocities are `constexpr` quotients of `int` constants, finite
doubles. -/
def IEEE.SnowInstance.update {σ : Type} (E : Env σ) (self : IEEE.SnowInstance)
    (dt aspectRatio : ℚ) (random : σ) : Except Fault (IEEE.SnowInstance × σ) :=
  match IEEE.animateSnowflakeRange E dt aspectRatio 0 (OpenTESArena.SnowInstance.fastEndIndex E)
      (OpenTESArena.SnowInstance.fastVelocityPercentX E)
      (OpenTESArena.SnowInstance.fastVelocityPercentY E) (self, random) with
  | .error e => .error e
  | .ok s1 =>
    match IEEE.animateSnowflakeRange E dt aspectRatio (OpenTESArena.SnowInstance.fastEndIndex E)
        (OpenTESArena.SnowInstance.mediumEndIndex E)
        (OpenTESArena.SnowInstance.mediumVelocityPercentX E)
        (OpenTESArena.SnowInstance.mediumVelocityPercentY E) s1 with
    | .error e => .error e
    | .ok s2 =>
      IEEE.animateSnowflakeRange E dt aspectRatio (OpenTESArena.SnowInstance.mediumEndIndex E)
        (OpenTESArena.SnowInstance.slowEndIndex E)
        (OpenTESArena.SnowInstance.slowVelocityPercentX E)
        (OpenTESArena.SnowInstance.slowVelocityPercentY E) s2

/-- A sequence of `SnowInstance::update` calls, one for each pair (`dt`, `aspectRatio`) of the
list, on the same field and generator. -/
def IEEE.SnowInstance.updateMany {σ : Type} (E : Env σ) :
    List (ℚ × ℚ) → IEEE.SnowInstance × σ → Except Fault (IEEE.SnowInstance × σ)
  | [], s => .ok s
  | call :: calls, s =>
    match IEEE.SnowInstance.update E s.1 call.1 call.2 s.2 with
    | .ok s1 => IEEE.SnowInstance.updateMany E calls s1
    | .error e => .error e

/-- What one iteration of the loop in `animateSnowflakeRange` does to the entries at its index
(the particle, its direction flag, its direction-change timer) and to the generator; see
`IEEE.snowflakeStep`. -/
def IEEE.animateSnowflake {σ : Type} (E : Env σ)
    (dt aspectRatio velocityPercentX velocityPercentY : ℚ)
    (cell : IEEE.Particle × Bool × Double) (random : σ) : (IEEE.Particle × Bool × Double) × σ :=
  if Double.le (Double.fin 1) cell.1.yPercent then
    let place := E.nextReal random
    let direction := MakeSnowflakeDirection E place.2
    (({ xPercent := Double.fin place.1, yPercent := Double.fin 0 }, direction.1, cell.2.2),
     direction.2)
  else
    let secondsSinceDirectionChange := Double.addR cell.2.2 (Double.fin dt)
    let threshold := Double.fin E.SNOWFLAKE_MIN_SECONDS_BEFORE_DIRECTION_CHANGE
    let turned : Double × Bool × σ :=
      if Double.le threshold secondsSinceDirectionChange then
        let change := E.shouldSnowflakeChangeDirection random
        (Double.fmod secondsSinceDirectionChange threshold,
         (if change.1 then !cell.2.1 else cell.2.1), change.2)
      else
        (secondsSinceDirectionChange, cell.2.1, random)
    let deltaPercentX :=
      IEEE.SnowInstance.deltaPercentX E dt aspectRatio velocityPercentX turned.2.1
    let deltaPercentY := IEEE.deltaPercentY dt velocityPercentY
    (({ xPercent := Double.addR cell.1.xPercent deltaPercentX
        yPercent := Double.addR cell.1.yPercent deltaPercentY }, turned.2.1, turned.1),
     turned.2.2)

/-- The entries of a snow field at index `k`: the particle, its direction flag and its
direction-change timer, when all three buffers hold the index. -/
def IEEE.SnowInstance.cell (self : IEEE.SnowInstance) (k : Nat) :
    Option (IEEE.Particle × Bool × Double) :=
  match self.particles[k]?, self.directions[k]?, self.lastDirectionChangeSeconds[k]? with
  | some particle, some direction, some seconds => some (particle, direction, seconds)
  | _, _, _ => none

/-- The value is a `double`: a finite value lies within the range. -/
def Double.isDouble : Double → Bool
  | .fin q => decide (-Double.limit < q ∧ q < Double.limit)
  | _ => true

/-- A sample configuration: 3 fast, 2 medium and 1 slow particle of each kind, a 320 x 200
reference screen at 25 frames per second, and a generator that is a counter: the reals
drawn cycle through 0, 1/4, 1/2, 3/4 and the integers drawn are the counter itself. -/
def sampleEnv : Env Nat :=
  { nextReal := fun n => (((n % 4 : Nat) : ℚ) / 4, n + 1)
    next := fun n => ((n : Int), n + 1)
    THUNDERSTORM_SKY_FLASH_SECONDS := 1 / 2
    THUNDERSTORM_BOLT_SECONDS := 1 / 4
    RAINDROP_FAST_COUNT := 3
    RAINDROP_MEDIUM_COUNT := 2
    RAINDROP_SLOW_COUNT := 1
    RAINDROP_TOTAL_COUNT := 6
    RAINDROP_FAST_PIXELS_PER_FRAME_X := -6
    RAINDROP_FAST_PIXELS_PER_FRAME_Y := 12
    RAINDROP_MEDIUM_PIXELS_PER_FRAME_X := -4
    RAINDROP_MEDIUM_PIXELS_PER_FRAME_Y := 8
    RAINDROP_SLOW_PIXELS_PER_FRAME_X := -2
    RAINDROP_SLOW_PIXELS_PER_FRAME_Y := 4
    SNOWFLAKE_FAST_COUNT := 3
    SNOWFLAKE_MEDIUM_COUNT := 2
    SNOWFLAKE_SLOW_COUNT := 1
    SNOWFLAKE_TOTAL_COUNT := 6
    SNOWFLAKE_PIXELS_PER_FRAME_X := 2
    SNOWFLAKE_FAST_PIXELS_PER_FRAME_Y := 4
    SNOWFLAKE_MEDIUM_PIXELS_PER_FRAME_Y := 3
    SNOWFLAKE_SLOW_PIXELS_PER_FRAME_Y := 2
    SNOWFLAKE_MIN_SECONDS_BEFORE_DIRECTION_CHANGE := 1 / 4
    shouldSnowflakeChangeDirection := fun n => (decide (n % 2 = 0), n + 1)
    SCREEN_WIDTH := 320
    SCREEN_HEIGHT := 200
    FRAMES_PER_SECOND := 25
    ASPECT_RATIO := 8 / 5
    TwoPi := 710 / 113 }

/-- A rain field of six particles for `sampleEnv`; the particles at indices 1 and 4 have
left the screen (to the left, and through the bottom). -/
def sampleRain : RainInstance :=
  { particles :=
      [⟨1 / 2, 1 / 2⟩, ⟨-1 / 10, 1 / 2⟩, ⟨1 / 4, 3 / 4⟩, ⟨0, 0⟩, ⟨1 / 2, 1⟩, ⟨3 / 4, 1 / 4⟩]
    thunderstorm := none }

/-- A snow field of six particles for `sampleEnv`; the particle at index 2 has left the
screen through the bottom. -/
def sampleSnow : SnowInstance :=
  { particles :=
      [⟨1 / 2, 1 / 2⟩, ⟨-1 / 10, 1 / 2⟩, ⟨1 / 4, 5 / 4⟩, ⟨0, 0⟩, ⟨1 / 2, 1 / 8⟩, ⟨3 / 4, 1 / 4⟩]
    directions := [true, false, true, false, true, false]
    lastDirectionChangeSeconds := [0, 1 / 8, 0, 1 / 10, 1 / 5, 0] }

/-- The configuration `sampleEnv` with a direction-change threshold of two seconds. -/
def calmEnv : Env Nat :=
  { sampleEnv with SNOWFLAKE_MIN_SECONDS_BEFORE_DIRECTION_CHANGE := 2 }

/-- A thunderstorm that is not active. -/
def sampleThunderstorm : Thunderstorm :=
  { flashColors := [1, 2, 3]
    secondsSincePrevLightning := Double.posInf
    secondsUntilNextLightning := 3
    lightningBoltAngle := 0
    active := false }

/-- The rain field `sampleRain` with its positions as doubles. -/
def IEEE.sampleRain : IEEE.RainInstance :=
  { particles :=
      [⟨Double.fin (1 / 2), Double.fin (1 / 2)⟩, ⟨Double.fin (-1 / 10), Double.fin (1 / 2)⟩,
       ⟨Double.fin (1 / 4), Double.fin (3 / 4)⟩, ⟨Double.fin 0, Double.fin 0⟩,
       ⟨Double.fin (1 / 2), Double.fin 1⟩, ⟨Double.fin (3 / 4), Double.fin (1 / 4)⟩]
    thunderstorm := none }

/-- The snow field `sampleSnow` with its positions and timers as doubles. -/
def IEEE.sampleSnow : IEEE.SnowInstance :=
  { particles :=
      [⟨Double.fin (1 / 2), Double.fin (1 / 2)⟩, ⟨Double.fin (-1 / 10), Double.fin (1 / 2)⟩,
       ⟨Double.fin (1 / 4), Double.fin (5 / 4)⟩, ⟨Double.fin 0, Double.fin 0⟩,
       ⟨Double.fin (1 / 2), Double.fin (1 / 8)⟩, ⟨Double.fin (3 / 4), Double.fin (1 / 4)⟩]
    directions := [true, false, true, false, true, false]
    lastDirectionChangeSeconds :=
      [Double.fin 0, Double.fin (1 / 8), Double.fin 0, Double.fin (1 / 10), Double.fin (1 / 5),
       Double.fin 0] }

/-- The snow field `IEEE.sampleSnow` with the timer of the particle at index 0 at one second,
above the direction-change threshold of `sampleEnv`. -/
def IEEE.lateSnow : IEEE.SnowInstance :=
  { IEEE.sampleSnow with
    lastDirectionChangeSeconds :=
      [Double.fin 1, Double.fin (1 / 8), Double.fin 0, Double.fin (1 / 10), Double.fin (1 / 5),
       Double.fin 0] }

/-! ## Loops -/

theorem forCount_add {S : Type} (body : Nat → S → Except Fault S) :
    ∀ (m n i : Nat) (s : S),
      forCount body (m + n) i s = (forCount body m i s).bind (forCount body n (i + m)) := by
  intro m
  induction m with
  | zero => intro n i s; simp [forCount, Except.bind]
  | succ m ih =>
    intro n i s
    have hmn : m + 1 + n = (m + n) + 1 := by omega
    rw [hmn]
    simp only [forCount]
    cases hb : body i s with
    | error e => simp [Except.bind]
    | ok s1 =>
      simp only []
      rw [ih n (i + 1) s1]
      have hi : i + 1 + m = i + (m + 1) := by omega
      rw [hi]

theorem forRange_empty {S : Type} (body : Nat → S → Except Fault S) (a b : Nat) (s : S)
    (hba : b ≤ a) : forRange body a b s = .ok s := by
  have h0 : b - a = 0 := by omega
  simp [forRange, h0, forCount]

theorem forRange_split {S : Type} (body : Nat → S → Except Fault S) (a b c : Nat) (s : S)
    (hab : a ≤ b) (hbc : b ≤ c) :
    forRange body a c s = (forRange body a b s).bind (forRange body b c) := by
  have h1 : c - a = (b - a) + (c - b) := by omega
  have h2 : a + (b - a) = b := by omega
  unfold forRange
  rw [h1, forCount_add, h2]

theorem forRange_succ {S : Type} (body : Nat → S → Except Fault S) (a b : Nat) (s : S)
    (hab : a ≤ b) : forRange body a (b + 1) s = (forRange body a b s).bind (body b) := by
  rw [forRange_split body a b (b + 1) s hab (by omega)]
  congr 1
  funext s1
  have h1 : b + 1 - b = 1 := by omega
  simp only [forRange, h1, forCount]
  cases body b s1 <;> rfl

theorem forCount_congr {S : Type} (f g : Nat → S → Except Fault S) :
    ∀ (n i : Nat) (s : S), (∀ j, i ≤ j → j < i + n → f j = g j) →
      forCount f n i s = forCount g n i s := by
  intro n
  induction n with
  | zero => intro i s _; rfl
  | succ n ih =>
    intro i s h
    simp only [forCount]
    rw [h i (le_refl i) (by omega)]
    cases g i s with
    | error e => rfl
    | ok s1 => exact ih (i + 1) s1 (fun j h1 h2 => h j (by omega) (by omega))

theorem forRange_congr {S : Type} (f g : Nat → S → Except Fault S) (a b : Nat) (s : S)
    (h : ∀ j, a ≤ j → j < b → f j = g j) : forRange f a b s = forRange g a b s := by
  unfold forRange
  exact forCount_congr f g (b - a) a s (fun j h1 h2 => h j h1 (by omega))

/-- Loop rule: a property that holds on entry and is carried by every iteration (which must
return) holds on exit, and the loop returns. -/
theorem forCount_invariant {S : Type} (body : Nat → S → Except Fault S) (P : Nat → S → Prop) :
    ∀ (n i : Nat) (s : S), P i s →
      (∀ j t, i ≤ j → j < i + n → P j t → ∃ t1, body j t = .ok t1 ∧ P (j + 1) t1) →
      ∃ s1, forCount body n i s = .ok s1 ∧ P (i + n) s1 := by
  intro n
  induction n with
  | zero => intro i s h0 _; exact ⟨s, rfl, h0⟩
  | succ n ih =>
    intro i s h0 hstep
    obtain ⟨t1, hb, hP⟩ := hstep i s (le_refl i) (by omega) h0
    obtain ⟨s1, hs1, hP1⟩ := ih (i + 1) t1 hP (fun j t h1 h2 h3 => hstep j t (by omega) (by omega) h3)
    refine ⟨s1, ?_, ?_⟩
    · simp only [forCount, hb]; exact hs1
    · have e : i + (n + 1) = i + 1 + n := by omega
      rw [e]; exact hP1

theorem forRange_invariant {S : Type} (body : Nat → S → Except Fault S) (P : Nat → S → Prop)
    (a b : Nat) (s : S) (hab : a ≤ b) (h0 : P a s)
    (hstep : ∀ j t, a ≤ j → j < b → P j t → ∃ t1, body j t = .ok t1 ∧ P (j + 1) t1) :
    ∃ s1, forRange body a b s = .ok s1 ∧ P b s1 := by
  obtain ⟨s1, h1, h2⟩ := forCount_invariant body P (b - a) a s h0
    (fun j t h1 h2 h3 => hstep j t h1 (by omega) h3)
  have e : a + (b - a) = b := by omega
  rw [e] at h2
  exact ⟨s1, h1, h2⟩

theorem forRange_reindex {S : Type} (f g : Nat → S → Except Fault S) (a a1 b : Nat) (s : S)
    (h : (b ≤ a ∧ b ≤ a1) ∨ (a = a1 ∧ ∀ j, a ≤ j → j < b → f j = g j)) :
    forRange f a b s = forRange g a1 b s := by
  rcases h with ⟨h1, h2⟩ | ⟨h1, h2⟩
  · rw [forRange_empty f a b s h1, forRange_empty g a1 b s h2]
  · subst h1
    exact forRange_congr f g a b s h2

/-- Three consecutive loops over `[0, a)`, `[a, b)`, `[b, c)`, each stopped at `stop`, are one
loop over `[0, min c stop)` whose body at each index is the body of the loop that owns it. -/
theorem threeRanges_eq {S : Type} (f1 f2 f3 h : Nat → S → Except Fault S) (a b c stop : Nat)
    (hab : a ≤ b) (hbc : b ≤ c) (h1 : ∀ j, j < a → f1 j = h j)
    (h2 : ∀ j, a ≤ j → j < b → f2 j = h j) (h3 : ∀ j, b ≤ j → j < c → f3 j = h j) (s : S) :
    (forRange f1 0 (min a stop) s).bind
        (fun s1 => (forRange f2 a (min b stop) s1).bind (forRange f3 b (min c stop)))
      = forRange h 0 (min c stop) s := by
  rw [forRange_split h 0 (min a stop) (min c stop) s (by omega)
        (by simp only [le_min_iff, min_le_iff]; omega)]
  rw [forRange_congr f1 h 0 (min a stop) s
      (fun j _ hj => h1 j (by simp only [lt_min_iff] at hj; omega))]
  cases forRange h 0 (min a stop) s with
  | error e => rfl
  | ok s1 =>
    simp only [Except.bind]
    rw [forRange_split h (min a stop) (min b stop) (min c stop) s1
        (by simp only [le_min_iff, min_le_iff]; omega)
        (by simp only [le_min_iff, min_le_iff]; omega)]
    rw [forRange_reindex f2 h a (min a stop) (min b stop) s1
        (by
          by_cases hs : stop ≤ a
          · left
            simp only [le_min_iff, min_le_iff]; omega
          · right
            refine ⟨by simp only [min_def]; split <;> omega, ?_⟩
            intro j hj1 hj2
            exact h2 j hj1 (by simp only [lt_min_iff] at hj2; omega))]
    cases forRange h (min a stop) (min b stop) s1 with
    | error e => rfl
    | ok s2 =>
      simp only [Except.bind]
      exact forRange_reindex f3 h b (min b stop) (min c stop) s2
        (by
          by_cases hs : stop ≤ b
          · left
            simp only [le_min_iff, min_le_iff]; omega
          · right
            refine ⟨by simp only [min_def]; split <;> omega, ?_⟩
            intro j hj1 hj2
            exact h3 j hj1 (by simp only [lt_min_iff] at hj2; omega))

/-! ## Rain -/

/-- The iteration of the raindrop loops for index `i`, with the velocities of its tier. -/
theorem raindropStep_eq {σ : Type} (E : Env σ) (dt aspectRatio vx vy : ℚ) (i : Nat)
    (s : List Particle × σ) (p : Particle) (hp : s.1[i]? = some p) :
    raindropStep E dt aspectRatio vx vy i s
      = .ok (List.set s.1 i (animateRaindrop E dt aspectRatio vx vy p s.2).1,
             (animateRaindrop E dt aspectRatio vx vy p s.2).2) := by
  simp [raindropStep, Buffer.get, hp]

theorem rain_animateUpTo_eq {σ : Type} (E : Env σ) (dt aspectRatio : ℚ) (stop : Nat)
    (s : List Particle × σ) :
    RainInstance.animateUpTo E dt aspectRatio stop s
      = forRange (fun i => raindropStep E dt aspectRatio (RainInstance.velocityPercentX E i)
          (RainInstance.velocityPercentY E i) i) 0 (min (RainInstance.slowEndIndex E) stop) s := by
  unfold RainInstance.animateUpTo animateRaindropRange
  rw [← threeRanges_eq
    (raindropStep E dt aspectRatio (RainInstance.fastVelocityPercentX E)
      (RainInstance.fastVelocityPercentY E))
    (raindropStep E dt aspectRatio (RainInstance.mediumVelocityPercentX E)
      (RainInstance.mediumVelocityPercentY E))
    (raindropStep E dt aspectRatio (RainInstance.slowVelocityPercentX E)
      (RainInstance.slowVelocityPercentY E))
    (fun i => raindropStep E dt aspectRatio (RainInstance.velocityPercentX E i)
      (RainInstance.velocityPercentY E i) i)
    (RainInstance.fastEndIndex E) (RainInstance.mediumEndIndex E)
    (RainInstance.slowEndIndex E) stop ?_ ?_ ?_ ?_ ?_ s]
  · cases forRange (raindropStep E dt aspectRatio (RainInstance.fastVelocityPercentX E)
        (RainInstance.fastVelocityPercentY E)) 0 (min (RainInstance.fastEndIndex E) stop) s with
    | error e => rfl
    | ok s1 =>
      simp only [Except.bind]
      cases forRange (raindropStep E dt aspectRatio (RainInstance.mediumVelocityPercentX E)
        (RainInstance.mediumVelocityPercentY E)) (RainInstance.fastEndIndex E)
        (min (RainInstance.mediumEndIndex E) stop) s1 <;> rfl
  · simp [RainInstance.mediumEndIndex]
  · simp [RainInstance.slowEndIndex]
  · intro j hj
    simp [RainInstance.velocityPercentX, RainInstance.velocityPercentY, hj]
  · intro j hj1 hj2
    simp [RainInstance.velocityPercentX, RainInstance.velocityPercentY, not_lt.mpr hj1, hj2]
  · intro j hj1 _
    have hj3 : ¬ j < RainInstance.fastEndIndex E := by
      simp only [RainInstance.mediumEndIndex] at hj1; omega
    simp [RainInstance.velocityPercentX, RainInstance.velocityPercentY, not_lt.mpr hj1, hj3]

/-- A loop over `[0, n)` whose iteration `i` rewrites entry `i` of the buffer from its old
value and the generator: the loop returns, and entry `i` of the result is the rewriting of
the original entry `i` with the generator left by the iterations before `i`. -/
theorem particleLoop_at {σ : Type} (anim : Nat → Particle → σ → Particle × σ)
    (body : Nat → List Particle × σ → Except Fault (List Particle × σ))
    (hbody : ∀ i s p, s.1[i]? = some p →
      body i s = .ok (List.set s.1 i (anim i p s.2).1, (anim i p s.2).2))
    (ps : List Particle) (g : σ) (n i : Nat) (hi : i < n) (hn : n ≤ ps.length)
    (p : Particle) (hp : ps[i]? = some p) :
    ∃ si sf, forRange body 0 i (ps, g) = .ok si
      ∧ forRange body 0 (i + 1) (ps, g) = .ok (List.set si.1 i (anim i p si.2).1, (anim i p si.2).2)
      ∧ forRange body 0 n (ps, g) = .ok sf
      ∧ sf.1[i]? = some (anim i p si.2).1
      ∧ sf.1.length = ps.length := by
  obtain ⟨si, hsi, hlen, hrest⟩ := forRange_invariant body
    (fun j t => t.1.length = ps.length ∧ ∀ k, j ≤ k → t.1[k]? = ps[k]?) 0 i (ps, g)
    (Nat.zero_le i) ⟨rfl, fun _ _ => rfl⟩
    (by
      intro j t _ hj ⟨h1, h2⟩
      have hjt : j < t.1.length := by omega
      refine ⟨_, hbody j t t.1[j] (List.getElem?_eq_getElem hjt), ?_, ?_⟩
      · simp [h1]
      · intro k hk
        have hne : j ≠ k := by omega
        simp only [List.getElem?_set_ne hne]
        exact h2 k (by omega))
  have hsip : si.1[i]? = some p := by rw [hrest i (le_refl i)]; exact hp
  have hstep : forRange body 0 (i + 1) (ps, g)
      = .ok (List.set si.1 i (anim i p si.2).1, (anim i p si.2).2) := by
    rw [forRange_succ body 0 i (ps, g) (Nat.zero_le i), hsi]
    simp only [Except.bind]
    exact hbody i si p hsip
  obtain ⟨sf, hsf, hlenf, hval⟩ := forRange_invariant body
    (fun j t => t.1.length = ps.length ∧ (i < j → t.1[i]? = some (anim i p si.2).1)) (i + 1) n
    (List.set si.1 i (anim i p si.2).1, (anim i p si.2).2) (by omega)
    ⟨by simp [hlen], fun _ => by
      have hil : i < si.1.length := by omega
      simp [List.getElem?_set_self, hil]⟩
    (by
      intro j t hj1 hj2 ⟨h1, h2⟩
      have hjt : j < t.1.length := by omega
      refine ⟨_, hbody j t t.1[j] (List.getElem?_eq_getElem hjt), ?_, ?_⟩
      · simp [h1]
      · intro _
        have hne : j ≠ i := by omega
        simp only [List.getElem?_set_ne hne]
        exact h2 (by omega))
  refine ⟨si, sf, hsi, hstep, ?_, hval (by omega), hlenf⟩
  rw [forRange_split body 0 (i + 1) n (ps, g) (Nat.zero_le _) (by omega), hstep]
  simp only [Except.bind]
  exact hsf

theorem rain_update_eq {σ : Type} (E : Env σ) (self : RainInstance)
    (dt aspectRatio : ℚ) (random : σ) :
    RainInstance.update E self dt aspectRatio random
      = match RainInstance.animateUpTo E dt aspectRatio (RainInstance.slowEndIndex E)
          (self.particles, random) with
        | .error e => .error e
        | .ok s3 =>
          match self.thunderstorm with
          | some thunderstorm =>
            .ok ({ particles := s3.1
                   thunderstorm := some (Thunderstorm.update E thunderstorm dt s3.2).1 },
                 (Thunderstorm.update E thunderstorm dt s3.2).2)
          | none => .ok ({ particles := s3.1, thunderstorm := none }, s3.2) := by
  have hfs : RainInstance.fastEndIndex E ≤ RainInstance.slowEndIndex E := by
    simp only [RainInstance.slowEndIndex, RainInstance.mediumEndIndex]; omega
  have hms : RainInstance.mediumEndIndex E ≤ RainInstance.slowEndIndex E := by
    simp only [RainInstance.slowEndIndex]; omega
  unfold RainInstance.update RainInstance.animateUpTo
  simp only [min_eq_left hfs, min_eq_left hms, min_self]
  cases animateRaindropRange E dt aspectRatio 0 (RainInstance.fastEndIndex E)
      (RainInstance.fastVelocityPercentX E) (RainInstance.fastVelocityPercentY E)
      (self.particles, random) with
  | error e => rfl
  | ok s1 =>
    simp only []
    cases animateRaindropRange E dt aspectRatio (RainInstance.fastEndIndex E)
        (RainInstance.mediumEndIndex E) (RainInstance.mediumVelocityPercentX E)
        (RainInstance.mediumVelocityPercentY E) s1 with
    | error e => rfl
    | ok s2 => rfl

/-- What one call of `RainInstance::update` does to the particle at index `i`: the call
returns, and the particle becomes `animateRaindrop` of its old value, with the velocities of
its tier and the generator left by the particles before it. -/
theorem RainInstance.update_particle {σ : Type} (E : Env σ) (self : RainInstance)
    (dt aspectRatio : ℚ) (random : σ) (i : Nat) (p : Particle)
    (hi : i < RainInstance.slowEndIndex E)
    (hlen : RainInstance.slowEndIndex E ≤ self.particles.length)
    (hp : self.particles[i]? = some p) :
    ∃ si out,
      RainInstance.animateUpTo E dt aspectRatio i (self.particles, random) = .ok si
      ∧ RainInstance.animateUpTo E dt aspectRatio (i + 1) (self.particles, random)
          = .ok (List.set si.1 i
              (animateRaindrop E dt aspectRatio (RainInstance.velocityPercentX E i)
                (RainInstance.velocityPercentY E i) p si.2).1,
              (animateRaindrop E dt aspectRatio (RainInstance.velocityPercentX E i)
                (RainInstance.velocityPercentY E i) p si.2).2)
      ∧ RainInstance.update E self dt aspectRatio random = .ok out
      ∧ out.1.particles[i]? = some
          (animateRaindrop E dt aspectRatio (RainInstance.velocityPercentX E i)
            (RainInstance.velocityPercentY E i) p si.2).1
      ∧ out.1.particles.length = self.particles.length := by
  obtain ⟨si, sf, h1, h2, h3, h4, h5⟩ := particleLoop_at
    (fun i => animateRaindrop E dt aspectRatio (RainInstance.velocityPercentX E i)
      (RainInstance.velocityPercentY E i))
    (fun i => raindropStep E dt aspectRatio (RainInstance.velocityPercentX E i)
      (RainInstance.velocityPercentY E i) i)
    (fun i s p hp => raindropStep_eq E dt aspectRatio _ _ i s p hp)
    self.particles random (RainInstance.slowEndIndex E) i hi hlen p hp
  have hupd := rain_update_eq E self dt aspectRatio random
  rw [rain_animateUpTo_eq, min_self, h3] at hupd
  refine ⟨si, (match self.thunderstorm with
      | some thunderstorm =>
        ({ particles := sf.1
           thunderstorm := some (Thunderstorm.update E thunderstorm dt sf.2).1 },
         (Thunderstorm.update E thunderstorm dt sf.2).2)
      | none => ({ particles := sf.1, thunderstorm := none }, sf.2)), ?_, ?_, ?_, ?_, ?_⟩
  · rw [rain_animateUpTo_eq, min_eq_right (by omega)]; exact h1
  · rw [rain_animateUpTo_eq, min_eq_right (by omega)]; exact h2
  · rw [hupd]; cases self.thunderstorm <;> rfl
  · cases self.thunderstorm <;> exact h4
  · cases self.thunderstorm <;> exact h5

/-- C1: for `aspectRatio > 0`, `RainInstance::update` returns, and it respawns the particle at
index `i` exactly when `xPercent < 0` or `yPercent >= 1` held before the call. With `si` the
state of the loops on reaching index `i` and `si1` the state after it: in that case the
particle becomes `(r2, 0)` if `r1 <= aspectRatio / (aspectRatio + 1)` and `(1, r2)` otherwise,
where `r1`, `r2` are the next two reals of the generator, which is advanced past both, so
afterwards `yPercent == 0` or `xPercent == 1`; in the other case the particle is advanced by
its velocity and the generator is not touched. -/
theorem C1_rain_respawn {σ : Type} (E : Env σ) (self : RainInstance) (dt aspectRatio : ℚ)
    (random : σ) (i : Nat) (p : Particle) (_har : 0 < aspectRatio)
    (hi : i < RainInstance.slowEndIndex E)
    (hlen : RainInstance.slowEndIndex E ≤ self.particles.length)
    (hp : self.particles[i]? = some p) :
    ∃ si si1 out,
      RainInstance.animateUpTo E dt aspectRatio i (self.particles, random) = .ok si
      ∧ RainInstance.animateUpTo E dt aspectRatio (i + 1) (self.particles, random) = .ok si1
      ∧ RainInstance.update E self dt aspectRatio random = .ok out
      ∧ ((p.xPercent < 0 ∨ p.yPercent ≥ 1) →
          out.1.particles[i]? = some
            (if (E.nextReal si.2).1 ≤ aspectRatio / (aspectRatio + 1)
              then { xPercent := (E.nextReal (E.nextReal si.2).2).1, yPercent := 0 }
              else { xPercent := 1, yPercent := (E.nextReal (E.nextReal si.2).2).1 })
          ∧ si1.2 = (E.nextReal (E.nextReal si.2).2).2
          ∧ ∃ q, out.1.particles[i]? = some q ∧ (q.yPercent = 0 ∨ q.xPercent = 1))
      ∧ (¬ (p.xPercent < 0 ∨ p.yPercent ≥ 1) →
          out.1.particles[i]? = some
            { xPercent := p.xPercent
                + RainInstance.velocityPercentX E i * ( E.ASPECT_RATIO / aspectRatio) * dt
              yPercent := p.yPercent + RainInstance.velocityPercentY E i * dt }
          ∧ si1.2 = si.2) := by
  obtain ⟨si, out, h1, h2, h3, h4, _⟩ :=
    RainInstance.update_particle E self dt aspectRatio random i p hi hlen hp
  refine ⟨si, _, out, h1, h2, h3, ?_, ?_⟩
  · intro hc
    have hc1 : (decide (p.xPercent < 0) || decide (p.yPercent ≥ 1)) = true := by
      simpa using hc
    rw [h4]
    simp only [animateRaindrop, hc1, if_true]
    by_cases hr : (E.nextReal si.2).1 ≤ aspectRatio / (aspectRatio + 1)
    · simp [hr]
    · simp [hr]
  · intro hc
    have hc1 : (decide (p.xPercent < 0) || decide (p.yPercent ≥ 1)) = false := by
      simpa using hc
    rw [h4]
    simp [animateRaindrop, hc1]

/-- In `sampleRain` with aspect ratio 8/5 the particle at index 1 has `xPercent < 0`; the
update returns and leaves it on the top or the right edge. -/
theorem C1_rain_respawn_witness :
    (0 : ℚ) < 8 / 5 ∧ 1 < RainInstance.slowEndIndex sampleEnv
    ∧ sampleRain.particles[1]? = some ⟨-1 / 10, 1 / 2⟩
    ∧ ∃ out, RainInstance.update sampleEnv sampleRain 1 (8 / 5) 0 = .ok out
        ∧ ∃ q, out.1.particles[1]? = some q ∧ (q.yPercent = 0 ∨ q.xPercent = 1) := by
  obtain ⟨_, _, out, _, _, h3, h4, _⟩ :=
    C1_rain_respawn sampleEnv sampleRain 1 (8 / 5) 0 1 ⟨-1 / 10, 1 / 2⟩
      (by norm_num) (by decide) (by decide) rfl
  exact ⟨by norm_num, by decide, rfl, out, h3, (h4 (Or.inl (by norm_num))).2.2⟩

/-- C2: for `aspectRatio > 0`, a particle at index `i` with `xPercent >= 0` and `yPercent < 1`
is advanced by `RainInstance::update` (which returns) to
`xPercent + velocityPercentX * (ASPECT_RATIO / aspectRatio) * dt` and
`yPercent + velocityPercentY * dt`, the velocities being those of the index range (fast,
medium, slow) that holds `i`; nothing is wrapped. With `dt = 1` the new `yPercent` is the old
one plus the vertical velocity, which is larger when that velocity is positive. -/
theorem C2_rain_advance {σ : Type} (E : Env σ) (self : RainInstance) (dt aspectRatio : ℚ)
    (random : σ) (i : Nat) (p : Particle) (_har : 0 < aspectRatio)
    (hi : i < RainInstance.slowEndIndex E)
    (hlen : RainInstance.slowEndIndex E ≤ self.particles.length)
    (hp : self.particles[i]? = some p) (hx : 0 ≤ p.xPercent) (hy : p.yPercent < 1) :
    ∃ out q,
      RainInstance.update E self dt aspectRatio random = .ok out
      ∧ out.1.particles[i]? = some q
      ∧ q.xPercent = p.xPercent
          + RainInstance.velocityPercentX E i * ( E.ASPECT_RATIO / aspectRatio) * dt
      ∧ q.yPercent = p.yPercent + RainInstance.velocityPercentY E i * dt
      ∧ (i < RainInstance.fastEndIndex E →
          RainInstance.velocityPercentX E i = RainInstance.fastVelocityPercentX E
          ∧ RainInstance.velocityPercentY E i = RainInstance.fastVelocityPercentY E)
      ∧ (RainInstance.fastEndIndex E ≤ i → i < RainInstance.mediumEndIndex E →
          RainInstance.velocityPercentX E i = RainInstance.mediumVelocityPercentX E
          ∧ RainInstance.velocityPercentY E i = RainInstance.mediumVelocityPercentY E)
      ∧ (RainInstance.mediumEndIndex E ≤ i →
          RainInstance.velocityPercentX E i = RainInstance.slowVelocityPercentX E
          ∧ RainInstance.velocityPercentY E i = RainInstance.slowVelocityPercentY E)
      ∧ (dt = 1 → q.yPercent = p.yPercent + RainInstance.velocityPercentY E i
          ∧ (0 < RainInstance.velocityPercentY E i → p.yPercent < q.yPercent)) := by
  obtain ⟨si, out, _, _, h3, h4, _⟩ :=
    RainInstance.update_particle E self dt aspectRatio random i p hi hlen hp
  have hc1 : (decide (p.xPercent < 0) || decide (p.yPercent ≥ 1)) = false := by
    simp [not_lt.mpr hx, hy]
  have hfm : RainInstance.fastEndIndex E ≤ RainInstance.mediumEndIndex E := by
    simp [RainInstance.mediumEndIndex]
  refine ⟨out, _, h3, h4, ?_, ?_, ?_, ?_, ?_, ?_⟩
  · simp [animateRaindrop, hc1]
  · simp [animateRaindrop, hc1]
  · intro h
    simp [RainInstance.velocityPercentX, RainInstance.velocityPercentY, h]
  · intro h1 h2
    simp [RainInstance.velocityPercentX, RainInstance.velocityPercentY, not_lt.mpr h1, h2]
  · intro h
    have h1 : ¬ i < RainInstance.fastEndIndex E := by omega
    simp [RainInstance.velocityPercentX, RainInstance.velocityPercentY, not_lt.mpr h, h1]
  · intro hdt
    subst hdt
    simp [animateRaindrop, hc1]

/-- In `sampleRain` with `dt = 1` and aspect ratio 8/5 the medium particle at index 3 is on
screen; after the update its `yPercent` has grown by the medium vertical velocity, 1. -/
theorem C2_rain_advance_witness :
    ∃ out q, RainInstance.update sampleEnv sampleRain 1 (8 / 5) 0 = .ok out
      ∧ out.1.particles[3]? = some q
      ∧ q.yPercent = 0 + RainInstance.mediumVelocityPercentY sampleEnv
      ∧ RainInstance.mediumVelocityPercentY sampleEnv = 1 := by
  obtain ⟨out, q, h1, h2, _, h4, _, h6, _, _⟩ :=
    C2_rain_advance sampleEnv sampleRain 1 (8 / 5) 0 3 ⟨0, 0⟩
      (by norm_num) (by decide) (by decide) rfl (by norm_num) (by norm_num)
  refine ⟨out, q, h1, h2, ?_, by norm_num [RainInstance.mediumVelocityPercentY, sampleEnv]⟩
  rw [h4, (h6 (by decide) (by decide)).2]
  simp

/-! ## Snow -/

/-- A loop over `[0, n)` on a state seen as indexed entries plus a generator, whose iteration
`i` rewrites entry `i` from its old value and the generator and leaves the other entries
alone: the loop returns, and entry `i` of the result is the rewriting of the original entry
`i` with the generator left by the iterations before `i`. -/
theorem cellLoop_at {S C σ : Type} (cell : S → Nat → Option C) (rng : S → σ)
    (anim : Nat → C → σ → C × σ) (body : Nat → S → Except Fault S)
    (hbody : ∀ i s c, cell s i = some c →
      ∃ s1, body i s = .ok s1 ∧ rng s1 = (anim i c (rng s)).2
        ∧ cell s1 i = some (anim i c (rng s)).1 ∧ ∀ k, k ≠ i → cell s1 k = cell s k)
    (s0 : S) (n i : Nat) (hi : i < n) (hn : ∀ k, k < n → (cell s0 k).isSome = true)
    (c : C) (hc : cell s0 i = some c) :
    ∃ si si1 sf, forRange body 0 i s0 = .ok si
      ∧ forRange body 0 (i + 1) s0 = .ok si1
      ∧ rng si1 = (anim i c (rng si)).2
      ∧ forRange body 0 n s0 = .ok sf
      ∧ cell sf i = some (anim i c (rng si)).1 := by
  obtain ⟨si, hsi, hrest⟩ := forRange_invariant body
    (fun j t => ∀ k, j ≤ k → cell t k = cell s0 k) 0 i s0 (Nat.zero_le i) (fun _ _ => rfl)
    (by
      intro j t _ hj h2
      obtain ⟨c1, hc1⟩ := Option.isSome_iff_exists.mp (hn j (by omega))
      obtain ⟨t1, ht1, _, _, hframe⟩ := hbody j t c1 (by rw [h2 j (le_refl j)]; exact hc1)
      refine ⟨t1, ht1, ?_⟩
      intro k hk
      rw [hframe k (by omega)]
      exact h2 k (by omega))
  obtain ⟨si1, hb, hrng, hcell, hframe⟩ := hbody i si c (by rw [hrest i (le_refl i)]; exact hc)
  have hstep : forRange body 0 (i + 1) s0 = .ok si1 := by
    rw [forRange_succ body 0 i s0 (Nat.zero_le i), hsi]
    simp only [Except.bind]
    exact hb
  obtain ⟨sf, hsf, _, hval⟩ := forRange_invariant body
    (fun j t => (∀ k, j ≤ k → cell t k = cell s0 k) ∧ cell t i = some (anim i c (rng si)).1)
    (i + 1) n si1 (by omega)
    ⟨fun k hk => by rw [hframe k (by omega)]; exact hrest k (by omega), hcell⟩
    (by
      intro j t hj1 hj2 ⟨h1, h2⟩
      obtain ⟨c1, hc1⟩ := Option.isSome_iff_exists.mp (hn j hj2)
      obtain ⟨t1, ht1, _, _, hfr⟩ := hbody j t c1 (by rw [h1 j (le_refl j)]; exact hc1)
      refine ⟨t1, ht1, ?_, ?_⟩
      · intro k hk
        rw [hfr k (by omega)]
        exact h1 k (by omega)
      · rw [hfr i (by omega)]
        exact h2)
  refine ⟨si, si1, sf, hsi, hstep, hrng, ?_, hval⟩
  rw [forRange_split body 0 (i + 1) n s0 (Nat.zero_le _) (by omega), hstep]
  simp only [Except.bind]
  exact hsf

theorem SnowInstance.cell_eq_some (self : SnowInstance) (k : Nat) (c : Particle × Bool × ℚ) :
    SnowInstance.cell self k = some c ↔
      self.particles[k]? = some c.1 ∧ self.directions[k]? = some c.2.1
        ∧ self.lastDirectionChangeSeconds[k]? = some c.2.2 := by
  obtain ⟨p, d, t⟩ := c
  unfold SnowInstance.cell
  cases h1 : self.particles[k]? <;> cases h2 : self.directions[k]?
    <;> cases h3 : self.lastDirectionChangeSeconds[k]? <;> simp

/-- The iteration of the snowflake loops for index `i` returns when the three buffers hold
the index, and is `animateSnowflake` on the entries at `i`. -/
theorem snowflakeStep_cell {σ : Type} (E : Env σ) (dt aspectRatio vx vy : ℚ) (i : Nat)
    (s : SnowInstance × σ) (c : Particle × Bool × ℚ) (hc : SnowInstance.cell s.1 i = some c) :
    ∃ s1, snowflakeStep E dt aspectRatio vx vy i s = .ok s1
      ∧ s1.2 = (animateSnowflake E dt aspectRatio vx vy c s.2).2
      ∧ SnowInstance.cell s1.1 i = some (animateSnowflake E dt aspectRatio vx vy c s.2).1
      ∧ ∀ k, k ≠ i → SnowInstance.cell s1.1 k = SnowInstance.cell s.1 k := by
  obtain ⟨p, d, t⟩ := c
  obtain ⟨hp, hd, ht⟩ := (SnowInstance.cell_eq_some s.1 i (p, d, t)).mp hc
  have hpl : i < s.1.particles.length := (List.getElem?_eq_some.mp hp).1
  have hdl : i < s.1.directions.length := (List.getElem?_eq_some.mp hd).1
  have htl : i < s.1.lastDirectionChangeSeconds.length := (List.getElem?_eq_some.mp ht).1
  by_cases hy : p.yPercent ≥ 1
  · refine ⟨_, by simp [snowflakeStep, Buffer.get, Buffer.set, hp, hy, hdl]; rfl, ?_, ?_, ?_⟩
    · simp [animateSnowflake, hy]
    · rw [SnowInstance.cell_eq_some]
      simp [animateSnowflake, hy, hpl, hdl, ht]
    · intro k hk
      have hne : i ≠ k := fun h => hk h.symm
      simp [SnowInstance.cell, List.getElem?_set_ne hne]
  · refine ⟨_, by simp [snowflakeStep, Buffer.get, hp, hd, ht, hy]; rfl, ?_, ?_, ?_⟩
    · simp [animateSnowflake, hy]
    · rw [SnowInstance.cell_eq_some]
      simp [animateSnowflake, hy, hpl, hdl, htl]
    · intro k hk
      have hne : i ≠ k := fun h => hk h.symm
      simp [SnowInstance.cell, List.getElem?_set_ne hne]

theorem snow_animateUpTo_eq {σ : Type} (E : Env σ) (dt aspectRatio : ℚ) (stop : Nat)
    (s : SnowInstance × σ) :
    SnowInstance.animateUpTo E dt aspectRatio stop s
      = forRange (fun i => snowflakeStep E dt aspectRatio (SnowInstance.velocityPercentX E i)
          (SnowInstance.velocityPercentY E i) i) 0 (min (SnowInstance.slowEndIndex E) stop) s := by
  unfold SnowInstance.animateUpTo animateSnowflakeRange
  rw [← threeRanges_eq
    (snowflakeStep E dt aspectRatio (SnowInstance.fastVelocityPercentX E)
      (SnowInstance.fastVelocityPercentY E))
    (snowflakeStep E dt aspectRatio (SnowInstance.mediumVelocityPercentX E)
      (SnowInstance.mediumVelocityPercentY E))
    (snowflakeStep E dt aspectRatio (SnowInstance.slowVelocityPercentX E)
      (SnowInstance.slowVelocityPercentY E))
    (fun i => snowflakeStep E dt aspectRatio (SnowInstance.velocityPercentX E i)
      (SnowInstance.velocityPercentY E i) i)
    (SnowInstance.fastEndIndex E) (SnowInstance.mediumEndIndex E)
    (SnowInstance.slowEndIndex E) stop ?_ ?_ ?_ ?_ ?_ s]
  · cases forRange (snowflakeStep E dt aspectRatio (SnowInstance.fastVelocityPercentX E)
        (SnowInstance.fastVelocityPercentY E)) 0 (min (SnowInstance.fastEndIndex E) stop) s with
    | error e => rfl
    | ok s1 =>
      simp only [Except.bind]
      cases forRange (snowflakeStep E dt aspectRatio (SnowInstance.mediumVelocityPercentX E)
        (SnowInstance.mediumVelocityPercentY E)) (SnowInstance.fastEndIndex E)
        (min (SnowInstance.mediumEndIndex E) stop) s1 <;> rfl
  · simp [SnowInstance.mediumEndIndex]
  · simp [SnowInstance.slowEndIndex]
  · intro j hj
    simp [SnowInstance.velocityPercentX, SnowInstance.velocityPercentY, hj]
  · intro j hj1 hj2
    simp [SnowInstance.velocityPercentX, SnowInstance.velocityPercentY, not_lt.mpr hj1, hj2]
  · intro j hj1 _
    have hj3 : ¬ j < SnowInstance.fastEndIndex E := by
      simp only [SnowInstance.mediumEndIndex] at hj1; omega
    simp [SnowInstance.velocityPercentX, SnowInstance.velocityPercentY, not_lt.mpr hj1, hj3]

theorem snow_update_eq {σ : Type} (E : Env σ) (self : SnowInstance)
    (dt aspectRatio : ℚ) (random : σ) :
    SnowInstance.update E self dt aspectRatio random
      = SnowInstance.animateUpTo E dt aspectRatio (SnowInstance.slowEndIndex E) (self, random) := by
  have hfs : SnowInstance.fastEndIndex E ≤ SnowInstance.slowEndIndex E := by
    simp only [SnowInstance.slowEndIndex, SnowInstance.mediumEndIndex]; omega
  have hms : SnowInstance.mediumEndIndex E ≤ SnowInstance.slowEndIndex E := by
    simp only [SnowInstance.slowEndIndex]; omega
  unfold SnowInstance.update SnowInstance.animateUpTo
  simp only [min_eq_left hfs, min_eq_left hms, min_self]

/-- What one call of `SnowInstance::update` does to the entries at index `i`: the call
returns, and the particle, its direction flag and its timer become `animateSnowflake` of
their old values, with the velocities of the tier and the generator left by the particles
before it. -/
theorem SnowInstance.update_cell {σ : Type} (E : Env σ) (self : SnowInstance)
    (dt aspectRatio : ℚ) (random : σ) (i : Nat) (c : Particle × Bool × ℚ)
    (hi : i < SnowInstance.slowEndIndex E)
    (hlen : ∀ k, k < SnowInstance.slowEndIndex E → (SnowInstance.cell self k).isSome = true)
    (hc : SnowInstance.cell self i = some c) :
    ∃ si si1 out,
      SnowInstance.animateUpTo E dt aspectRatio i (self, random) = .ok si
      ∧ SnowInstance.animateUpTo E dt aspectRatio (i + 1) (self, random) = .ok si1
      ∧ si1.2 = (animateSnowflake E dt aspectRatio (SnowInstance.velocityPercentX E i)
            (SnowInstance.velocityPercentY E i) c si.2).2
      ∧ SnowInstance.update E self dt aspectRatio random = .ok out
      ∧ SnowInstance.cell out.1 i = some
          (animateSnowflake E dt aspectRatio (SnowInstance.velocityPercentX E i)
            (SnowInstance.velocityPercentY E i) c si.2).1 := by
  obtain ⟨si, si1, sf, h1, h2, h3, h4, h5⟩ := cellLoop_at
    (fun (s : SnowInstance × σ) k => SnowInstance.cell s.1 k) Prod.snd
    (fun i => animateSnowflake E dt aspectRatio (SnowInstance.velocityPercentX E i)
      (SnowInstance.velocityPercentY E i))
    (fun i => snowflakeStep E dt aspectRatio (SnowInstance.velocityPercentX E i)
      (SnowInstance.velocityPercentY E i) i)
    (fun i s c hc => snowflakeStep_cell E dt aspectRatio _ _ i s c hc)
    (self, random) (SnowInstance.slowEndIndex E) i hi hlen c hc
  refine ⟨si, si1, sf, ?_, ?_, h3, ?_, h5⟩
  · rw [snow_animateUpTo_eq, min_eq_right (by omega)]; exact h1
  · rw [snow_animateUpTo_eq, min_eq_right (by omega)]; exact h2
  · rw [snow_update_eq, snow_animateUpTo_eq, min_self]; exact h4

theorem SnowInstance.cell_isSome (self : SnowInstance) (k : Nat)
    (h1 : k < self.particles.length) (h2 : k < self.directions.length)
    (h3 : k < self.lastDirectionChangeSeconds.length) :
    (SnowInstance.cell self k).isSome = true := by
  simp [SnowInstance.cell, List.getElem?_eq_getElem h1, List.getElem?_eq_getElem h2,
    List.getElem?_eq_getElem h3]

theorem snow_animateUpTo_zero {σ : Type} (E : Env σ) (dt aspectRatio : ℚ)
    (s : SnowInstance × σ) : SnowInstance.animateUpTo E dt aspectRatio 0 s = .ok s := by
  rw [snow_animateUpTo_eq]
  exact forRange_empty _ _ _ _ (by simp)

theorem rain_animateUpTo_zero {σ : Type} (E : Env σ) (dt aspectRatio : ℚ)
    (s : List Particle × σ) : RainInstance.animateUpTo E dt aspectRatio 0 s = .ok s := by
  rw [rain_animateUpTo_eq]
  exact forRange_empty _ _ _ _ (by simp)

/-- `SnowInstance.update_cell` for a field whose three buffers hold every index the loops
visit, read buffer by buffer. -/
theorem SnowInstance.update_at {σ : Type} (E : Env σ) (self : SnowInstance)
    (dt aspectRatio : ℚ) (random : σ) (i : Nat) (p : Particle) (d : Bool) (t : ℚ)
    (hi : i < SnowInstance.slowEndIndex E)
    (hl1 : SnowInstance.slowEndIndex E ≤ self.particles.length)
    (hl2 : SnowInstance.slowEndIndex E ≤ self.directions.length)
    (hl3 : SnowInstance.slowEndIndex E ≤ self.lastDirectionChangeSeconds.length)
    (hp : self.particles[i]? = some p) (hd : self.directions[i]? = some d)
    (ht : self.lastDirectionChangeSeconds[i]? = some t) :
    ∃ si si1 out,
      SnowInstance.animateUpTo E dt aspectRatio i (self, random) = .ok si
      ∧ SnowInstance.animateUpTo E dt aspectRatio (i + 1) (self, random) = .ok si1
      ∧ si1.2 = (animateSnowflake E dt aspectRatio (SnowInstance.velocityPercentX E i)
            (SnowInstance.velocityPercentY E i) (p, d, t) si.2).2
      ∧ SnowInstance.update E self dt aspectRatio random = .ok out
      ∧ out.1.particles[i]? = some
          (animateSnowflake E dt aspectRatio (SnowInstance.velocityPercentX E i)
            (SnowInstance.velocityPercentY E i) (p, d, t) si.2).1.1
      ∧ out.1.directions[i]? = some
          (animateSnowflake E dt aspectRatio (SnowInstance.velocityPercentX E i)
            (SnowInstance.velocityPercentY E i) (p, d, t) si.2).1.2.1
      ∧ out.1.lastDirectionChangeSeconds[i]? = some
          (animateSnowflake E dt aspectRatio (SnowInstance.velocityPercentX E i)
            (SnowInstance.velocityPercentY E i) (p, d, t) si.2).1.2.2 := by
  obtain ⟨si, si1, out, h1, h2, h3, h4, h5⟩ :=
    SnowInstance.update_cell E self dt aspectRatio random i (p, d, t) hi
      (fun k hk => SnowInstance.cell_isSome self k (by omega) (by omega) (by omega))
      ((SnowInstance.cell_eq_some self i (p, d, t)).mpr ⟨hp, hd, ht⟩)
  obtain ⟨h6, h7, h8⟩ := (SnowInstance.cell_eq_some out.1 i _).mp h5
  exact ⟨si, si1, out, h1, h2, h3, h4, h6, h7, h8⟩

/-- C3: `SnowInstance::update` returns, and with `si` the state of the loops on reaching
index `i`: a particle with `yPercent >= 1` comes out with `yPercent == 0`, `xPercent` the
next real of the generator and the direction flag `(random.next() % 2) != 0` from the draw
after it, whatever the flag was; a particle with `yPercent < 1` is not respawned, whatever
its `xPercent`: it is moved by its velocity, along the direction flag it comes out with. -/
theorem C3_snow_respawn {σ : Type} (E : Env σ) (self : SnowInstance)
    (dt aspectRatio : ℚ) (random : σ) (i : Nat) (p : Particle) (d : Bool) (t : ℚ)
    (hi : i < SnowInstance.slowEndIndex E)
    (hl1 : SnowInstance.slowEndIndex E ≤ self.particles.length)
    (hl2 : SnowInstance.slowEndIndex E ≤ self.directions.length)
    (hl3 : SnowInstance.slowEndIndex E ≤ self.lastDirectionChangeSeconds.length)
    (hp : self.particles[i]? = some p) (hd : self.directions[i]? = some d)
    (ht : self.lastDirectionChangeSeconds[i]? = some t) :
    ∃ si si1 out,
      SnowInstance.animateUpTo E dt aspectRatio i (self, random) = .ok si
      ∧ SnowInstance.animateUpTo E dt aspectRatio (i + 1) (self, random) = .ok si1
      ∧ SnowInstance.update E self dt aspectRatio random = .ok out
      ∧ (p.yPercent ≥ 1 →
          out.1.particles[i]? = some { xPercent := (E.nextReal si.2).1, yPercent := 0 }
          ∧ out.1.directions[i]?
              = some (decide (Int.tmod (E.next (E.nextReal si.2).2).1 2 ≠ 0))
          ∧ si1.2 = (E.next (E.nextReal si.2).2).2)
      ∧ (p.yPercent < 1 →
          ∃ q d1, out.1.particles[i]? = some q ∧ out.1.directions[i]? = some d1
            ∧ q.xPercent = p.xPercent
                + (SnowInstance.velocityPercentX E i * (if d1 then 1 else -1)
                    * ( E.ASPECT_RATIO / aspectRatio) * (1 / 2)) * dt
            ∧ q.yPercent = p.yPercent + SnowInstance.velocityPercentY E i * dt) := by
  obtain ⟨si, si1, out, h1, h2, h3, h4, h5, h6, _⟩ :=
    SnowInstance.update_at E self dt aspectRatio random i p d t hi hl1 hl2 hl3 hp hd ht
  refine ⟨si, si1, out, h1, h2, h4, ?_, ?_⟩
  · intro hy
    rw [h5, h6, h3]
    simp [animateSnowflake, hy, MakeSnowflakeDirection]
  · intro hy
    refine ⟨_, _, h5, h6, ?_, ?_⟩
    · simp [animateSnowflake, not_le.mpr hy]
    · simp [animateSnowflake, not_le.mpr hy]

/-- In `sampleSnow` the particle at index 2 has `yPercent >= 1`; the update returns and
leaves it at `yPercent == 0`. -/
theorem C3_snow_respawn_witness :
    sampleSnow.particles[2]? = some ⟨1 / 4, 5 / 4⟩
    ∧ ∃ out q, SnowInstance.update sampleEnv sampleSnow 1 (8 / 5) 0 = .ok out
        ∧ out.1.particles[2]? = some q ∧ q.yPercent = 0 := by
  obtain ⟨_, _, out, _, _, h3, h4, _⟩ :=
    C3_snow_respawn sampleEnv sampleSnow 1 (8 / 5) 0 2 ⟨1 / 4, 5 / 4⟩ true 0
      (by decide) (by decide) (by decide) (by decide) rfl rfl rfl
  exact ⟨rfl, out, _, h3, (h4 (by norm_num)).1, rfl⟩

/-- C4, as stated, fails: in `sampleSnow` the particle at index 0 is not respawned
(`yPercent = 1/2`) and its direction flag is `true` before the update; with
`dt = 1`, the aspect ratio equal to the reference one and the generator at 0, the timer
reaches the threshold, the policy flips the flag, and `xPercent` changes by
`-0.5 * velocityPercentX`, not by `+0.5 * velocityPercentX`. -/
theorem C4_snow_displacement_counterexample :
    sampleSnow.particles[0]? = some ⟨1 / 2, 1 / 2⟩
    ∧ sampleSnow.directions[0]? = some true
    ∧ sampleEnv.ASPECT_RATIO = 8 / 5
    ∧ ∃ out q, SnowInstance.update sampleEnv sampleSnow 1 (8 / 5) 0 = .ok out
        ∧ out.1.particles[0]? = some q
        ∧ q.xPercent = 1 / 2 - (1 / 2) * SnowInstance.fastVelocityPercentX sampleEnv
        ∧ q.xPercent ≠ 1 / 2 + (1 / 2) * SnowInstance.fastVelocityPercentX sampleEnv := by
  obtain ⟨si, _, out, h1, _, _, h4, h5, _, _⟩ :=
    SnowInstance.update_at sampleEnv sampleSnow 1 (8 / 5) 0 0 ⟨1 / 2, 1 / 2⟩ true 0
      (by decide) (by decide) (by decide) (by decide) rfl rfl rfl
  rw [snow_animateUpTo_zero] at h1
  have hsi : si = (sampleSnow, 0) := by injection h1 with h; exact h.symm
  subst hsi
  refine ⟨rfl, rfl, rfl, out, _, h4, h5, ?_, ?_⟩
  · norm_num [animateSnowflake, SnowInstance.velocityPercentX, SnowInstance.fastEndIndex,
      SnowInstance.fastVelocityPercentX, sampleEnv, fmod]
  · norm_num [animateSnowflake, SnowInstance.velocityPercentX, SnowInstance.fastEndIndex,
      SnowInstance.fastVelocityPercentX, sampleEnv, fmod]

/-- C4 (amended): for a particle that is not respawned (`yPercent < 1`), with `aspectRatio`
equal to the reference aspect ratio (positive) and `dt = 1`, `SnowInstance::update` returns
and changes `xPercent` by exactly `+0.5 * velocityPercentX` when the direction flag the
particle has after the direction-change step of that update (the flag it comes out with) is
`true`, and by `-0.5 * velocityPercentX` when it is `false`; that flag is the one from before
the update when the timer plus `dt` stays below the threshold. -/
theorem C4_snow_displacement {σ : Type} (E : Env σ) (self : SnowInstance)
    (aspectRatio : ℚ) (random : σ) (i : Nat) (p : Particle) (d : Bool) (t : ℚ)
    (har : 0 < aspectRatio) (href : aspectRatio = E.ASPECT_RATIO)
    (hi : i < SnowInstance.slowEndIndex E)
    (hl1 : SnowInstance.slowEndIndex E ≤ self.particles.length)
    (hl2 : SnowInstance.slowEndIndex E ≤ self.directions.length)
    (hl3 : SnowInstance.slowEndIndex E ≤ self.lastDirectionChangeSeconds.length)
    (hp : self.particles[i]? = some p) (hd : self.directions[i]? = some d)
    (ht : self.lastDirectionChangeSeconds[i]? = some t) (hy : p.yPercent < 1) :
    ∃ out q d1,
      SnowInstance.update E self 1 aspectRatio random = .ok out
      ∧ out.1.particles[i]? = some q ∧ out.1.directions[i]? = some d1
      ∧ (d1 = true → q.xPercent = p.xPercent + (1 / 2) * SnowInstance.velocityPercentX E i)
      ∧ (d1 = false → q.xPercent = p.xPercent - (1 / 2) * SnowInstance.velocityPercentX E i)
      ∧ (t + 1 < E.SNOWFLAKE_MIN_SECONDS_BEFORE_DIRECTION_CHANGE → d1 = d) := by
  obtain ⟨si, _, out, _, _, _, h4, h5, h6, _⟩ :=
    SnowInstance.update_at E self 1 aspectRatio random i p d t hi hl1 hl2 hl3 hp hd ht
  have hne : E.ASPECT_RATIO ≠ 0 := by rw [← href]; exact ne_of_gt har
  refine ⟨out, _, _, h4, h5, h6, ?_, ?_, ?_⟩
  · intro hd1
    simp only [animateSnowflake, not_le.mpr hy, ge_iff_le, if_false] at hd1 ⊢
    rw [hd1, href, div_self hne]
    simp only [if_true]
    ring
  · intro hd1
    simp only [animateSnowflake, not_le.mpr hy, ge_iff_le, if_false] at hd1 ⊢
    rw [hd1, href, div_self hne]
    simp only [Bool.false_eq_true, if_false]
    ring
  · intro hlt
    simp [animateSnowflake, not_le.mpr hy, not_le.mpr hlt]

/-- In `sampleSnow` under `calmEnv` the particle at index 0 moves right and its timer stays
below the threshold; with `dt = 1` and the reference aspect ratio its `xPercent` grows by
half the horizontal velocity. -/
theorem C4_snow_displacement_witness :
    ∃ out q, SnowInstance.update calmEnv sampleSnow 1 (8 / 5) 0 = .ok out
      ∧ out.1.particles[0]? = some q
      ∧ q.xPercent = 1 / 2 + (1 / 2) * SnowInstance.velocityPercentX calmEnv 0 := by
  obtain ⟨out, q, d1, h1, h2, _, h4, _, h6⟩ :=
    C4_snow_displacement calmEnv sampleSnow (8 / 5) 0 0 ⟨1 / 2, 1 / 2⟩ true 0
      (by norm_num) rfl (by decide) (by decide) (by decide) (by decide) rfl rfl rfl
      (by norm_num)
  exact ⟨out, q, h1, h2, h4 (h6 (by norm_num [calmEnv]))⟩

/-! ## Thunderstorm -/

/-- C5: with `active == false`, `Thunderstorm::update` returns the thunderstorm and the
generator as they were, for every `dt`: `secondsSincePrevLightning`,
`secondsUntilNextLightning` and `lightningBoltAngle` are unchanged and nothing is drawn; so
they are unchanged after any sequence of update calls. -/
theorem C5_thunderstorm_inactive {σ : Type} (E : Env σ) (self : Thunderstorm) (random : σ)
    (hactive : self.active = false) :
    (∀ dt : ℚ,
      (Thunderstorm.update E self dt random).1.secondsSincePrevLightning
          = self.secondsSincePrevLightning
      ∧ (Thunderstorm.update E self dt random).1.secondsUntilNextLightning
          = self.secondsUntilNextLightning
      ∧ (Thunderstorm.update E self dt random).1.lightningBoltAngle = self.lightningBoltAngle
      ∧ (Thunderstorm.update E self dt random).2 = random)
    ∧ ∀ dts : List ℚ, Thunderstorm.updateMany E dts (self, random) = (self, random) := by
  have h1 : ∀ dt : ℚ, Thunderstorm.update E self dt random = (self, random) := by
    intro dt
    simp [Thunderstorm.update, hactive]
  refine ⟨fun dt => by rw [h1 dt]; exact ⟨rfl, rfl, rfl, rfl⟩, ?_⟩
  intro dts
  induction dts with
  | nil => rfl
  | cons dt dts ih => simp only [Thunderstorm.updateMany, h1 dt]; exact ih

/-- The inactive `sampleThunderstorm` is unchanged by three updates of 1, 100 and 1/2
seconds. -/
theorem C5_thunderstorm_inactive_witness :
    Thunderstorm.updateMany sampleEnv [1, 100, 1 / 2] (sampleThunderstorm, 7)
      = (sampleThunderstorm, 7) :=
  (C5_thunderstorm_inactive sampleEnv sampleThunderstorm 7 rfl).2 [1, 100, 1 / 2]

/-- C6: with `active == true` and `secondsUntilNextLightning - dt <= 0`, right after
`Thunderstorm::update` `secondsSincePrevLightning` is 0, `secondsUntilNextLightning` is
`THUNDERSTORM_SKY_FLASH_SECONDS + 5 * r1` with `r1` the next real of the generator,
`lightningBoltAngle` is `r2 * TwoPi` with `r2` the real drawn after it, and the generator
has advanced past both; the new `secondsUntilNextLightning` is positive when
`THUNDERSTORM_SKY_FLASH_SECONDS` is and `r1` lies in `[0, 1)`. -/
theorem C6_thunderstorm_strike {σ : Type} (E : Env σ) (self : Thunderstorm) (dt : ℚ)
    (random : σ) (hactive : self.active = true)
    (hdue : self.secondsUntilNextLightning - dt ≤ 0) :
    (Thunderstorm.update E self dt random).1.secondsSincePrevLightning = Double.fin 0
    ∧ (Thunderstorm.update E self dt random).1.secondsUntilNextLightning
        = E.THUNDERSTORM_SKY_FLASH_SECONDS + 5 * (E.nextReal random).1
    ∧ (Thunderstorm.update E self dt random).1.lightningBoltAngle
        = (E.nextReal (E.nextReal random).2).1 * E.TwoPi
    ∧ (Thunderstorm.update E self dt random).2 = (E.nextReal (E.nextReal random).2).2
    ∧ (0 < E.THUNDERSTORM_SKY_FLASH_SECONDS →
        0 ≤ (E.nextReal random).1 → (E.nextReal random).1 < 1 →
        0 < (Thunderstorm.update E self dt random).1.secondsUntilNextLightning) := by
  have h : Thunderstorm.update E self dt random
      = ({ self with
           secondsSincePrevLightning := Double.fin 0
           secondsUntilNextLightning := (MakeSecondsUntilNextLightning E random).1
           lightningBoltAngle :=
             (MakeLightningBoltAngle E (MakeSecondsUntilNextLightning E random).2).1 },
         (MakeLightningBoltAngle E (MakeSecondsUntilNextLightning E random).2).2) := by
    simp [Thunderstorm.update, hactive, hdue]
  rw [h]
  refine ⟨rfl, ?_, rfl, rfl, ?_⟩
  · simp only [MakeSecondsUntilNextLightning]; ring
  · intro h1 h2 _
    simp only [MakeSecondsUntilNextLightning]
    positivity

/-- An active thunderstorm, one second before the next lightning, updated by two seconds
with the generator at 1: the lightning strikes, and the next one is `1/2 + 5 * (1/4)`
seconds away. -/
theorem C6_thunderstorm_strike_witness :
    (Thunderstorm.update sampleEnv
        { sampleThunderstorm with active := true, secondsUntilNextLightning := 1 } 2
        1).1.secondsSincePrevLightning = Double.fin 0
    ∧ (Thunderstorm.update sampleEnv
        { sampleThunderstorm with active := true, secondsUntilNextLightning := 1 } 2
        1).1.secondsUntilNextLightning = 7 / 4 := by
  obtain ⟨h1, h2, _⟩ := C6_thunderstorm_strike sampleEnv
    { sampleThunderstorm with active := true, secondsUntilNextLightning := 1 } 2 1 rfl
    (by norm_num)
  refine ⟨h1, ?_⟩
  rw [h2]
  norm_num [sampleEnv]

/-! ## Initialisation -/

theorem initParticles_length {σ : Type} (E : Env σ) :
    ∀ (count : Nat) (random : σ), (initParticles E count random).1.length = count := by
  intro count
  induction count with
  | zero => intro random; rfl
  | succ n ih => intro random; simp [initParticles, ih]

theorem initParticles_bounds {σ : Type} (E : Env σ)
    (hgen : ∀ g, 0 ≤ (E.nextReal g).1 ∧ (E.nextReal g).1 < 1) :
    ∀ (count : Nat) (random : σ) (p : Particle), p ∈ (initParticles E count random).1 →
      0 ≤ p.xPercent ∧ p.xPercent < 1 ∧ 0 ≤ p.yPercent ∧ p.yPercent < 1 := by
  intro count
  induction count with
  | zero => intro random p hp; simp [initParticles] at hp
  | succ n ih =>
    intro random p hp
    simp only [initParticles, List.mem_cons] at hp
    rcases hp with hp | hp
    · subst hp
      exact ⟨(hgen _).1, (hgen _).2, (hgen _).1, (hgen _).2⟩
    · exact ih _ p hp

/-- C7: when `nextReal` returns values in `[0, 1)`, the field made by `RainInstance::init`
holds exactly `RAINDROP_TOTAL_COUNT` particles and the one made by `SnowInstance::init`
exactly `SNOWFLAKE_TOTAL_COUNT`, and every particle has `0 <= xPercent < 1` and
`0 <= yPercent < 1`. -/
theorem C7_init_positions {σ : Type} (E : Env σ)
    (hgen : ∀ g, 0 ≤ (E.nextReal g).1 ∧ (E.nextReal g).1 < 1) :
    (∀ (isThunderstorm : Bool) (flashColors : List (Fin 256)) (random : σ),
      (RainInstance.init E isThunderstorm flashColors random).1.particles.length
          = E.RAINDROP_TOTAL_COUNT
      ∧ ∀ p ∈ (RainInstance.init E isThunderstorm flashColors random).1.particles,
          0 ≤ p.xPercent ∧ p.xPercent < 1 ∧ 0 ≤ p.yPercent ∧ p.yPercent < 1)
    ∧ (∀ random : σ,
      (SnowInstance.init E random).1.particles.length = E.SNOWFLAKE_TOTAL_COUNT
      ∧ ∀ p ∈ (SnowInstance.init E random).1.particles,
          0 ≤ p.xPercent ∧ p.xPercent < 1 ∧ 0 ≤ p.yPercent ∧ p.yPercent < 1) := by
  refine ⟨?_, ?_⟩
  · intro isThunderstorm flashColors random
    have hp : (RainInstance.init E isThunderstorm flashColors random).1.particles
        = (initParticles E E.RAINDROP_TOTAL_COUNT random).1 := by
      cases isThunderstorm <;> simp [RainInstance.init]
    rw [hp]
    exact ⟨initParticles_length E _ _, initParticles_bounds E hgen _ _⟩
  · intro random
    have hp : (SnowInstance.init E random).1.particles
        = (initParticles E E.SNOWFLAKE_TOTAL_COUNT random).1 := rfl
    rw [hp]
    exact ⟨initParticles_length E _ _, initParticles_bounds E hgen _ _⟩

/-- The generator of `sampleEnv` returns reals in `[0, 1)`; the rain field it initialises
as a thunderstorm, and the snow field, hold six particles each. -/
theorem C7_init_positions_witness :
    (RainInstance.init sampleEnv true [1, 2, 3] 0).1.particles.length = 6
    ∧ (SnowInstance.init sampleEnv 5).1.particles.length = 6 := by
  have h := C7_init_positions sampleEnv (by
    intro g
    have h4 : ((g % 4 : Nat) : ℚ) < 4 := by
      exact_mod_cast Nat.mod_lt g (by norm_num)
    constructor
    · simp only [sampleEnv]; positivity
    · simp only [sampleEnv]; linarith)
  exact ⟨(h.1 true [1, 2, 3] 0).1, (h.2 5).1⟩

/-! ## WeatherInstance -/

/-- C9: `WeatherInstance::init` sets the instance type from the type of the weather
definition. `Clear` and `Overcast` give `None` (the payloads and the generator are left
alone); `Rain` gives `Rain`, the rain payload being the result of `RainInstance::init` with
the `thunderstorm` flag of the rain definition, so that it holds a thunderstorm exactly when
that flag is set; `Snow` gives `Snow`, the snow payload being the result of
`SnowInstance::init`. In each case `init` returns and `getType` gives that type. -/
theorem C9_init_type {σ : Type} (E : Env σ) (self : WeatherInstance)
    (weatherDef : WeatherDefinition) (thunderstormColors : List (Fin 256)) (random : σ) :
    (weatherDef.type = WeatherDefinitionType.Clear
        ∨ weatherDef.type = WeatherDefinitionType.Overcast →
      ∃ out, WeatherInstance.init E self weatherDef thunderstormColors random = .ok out
        ∧ WeatherInstance.getType out.1 = WeatherInstanceType.None
        ∧ out.1.rain = self.rain ∧ out.1.snow = self.snow ∧ out.2 = random)
    ∧ (weatherDef.type = WeatherDefinitionType.Rain →
      ∃ out, WeatherInstance.init E self weatherDef thunderstormColors random = .ok out
        ∧ WeatherInstance.getType out.1 = WeatherInstanceType.Rain
        ∧ out.1.rain
            = (RainInstance.init E weatherDef.rain.thunderstorm thunderstormColors random).1
        ∧ out.2
            = (RainInstance.init E weatherDef.rain.thunderstorm thunderstormColors random).2
        ∧ out.1.rain.thunderstorm.isSome = weatherDef.rain.thunderstorm)
    ∧ (weatherDef.type = WeatherDefinitionType.Snow →
      ∃ out, WeatherInstance.init E self weatherDef thunderstormColors random = .ok out
        ∧ WeatherInstance.getType out.1 = WeatherInstanceType.Snow
        ∧ out.1.snow = (SnowInstance.init E random).1
        ∧ out.2 = (SnowInstance.init E random).2) := by
  refine ⟨?_, ?_, ?_⟩
  · intro h
    have hinit : WeatherInstance.init E self weatherDef thunderstormColors random
        = .ok ({ self with type := WeatherInstanceType.None }, random) := by
      simp [WeatherInstance.init, h]
    exact ⟨_, hinit, rfl, rfl, rfl, rfl⟩
  · intro h
    have hinit : WeatherInstance.init E self weatherDef thunderstormColors random
        = .ok ({ self with
                 type := WeatherInstanceType.Rain
                 rain := (RainInstance.init E weatherDef.rain.thunderstorm
                   thunderstormColors random).1 },
               (RainInstance.init E weatherDef.rain.thunderstorm
                   thunderstormColors random).2) := by
      simp [WeatherInstance.init, h]
    refine ⟨_, hinit, rfl, rfl, rfl, ?_⟩
    cases hth : weatherDef.rain.thunderstorm <;> simp [RainInstance.init]
  · intro h
    have hinit : WeatherInstance.init E self weatherDef thunderstormColors random
        = .ok ({ self with
                 type := WeatherInstanceType.Snow
                 snow := (SnowInstance.init E random).1 },
               (SnowInstance.init E random).2) := by
      simp [WeatherInstance.init, h]
    exact ⟨_, hinit, rfl, rfl, rfl⟩

/-- A new instance initialised under `sampleEnv` with a thunderstorm rain definition has type
`Rain` and holds a thunderstorm. -/
theorem C9_init_type_witness :
    ∃ out, WeatherInstance.init sampleEnv WeatherInstance.new
        { type := WeatherDefinitionType.Rain, rain := { thunderstorm := true } } [1, 2, 3] 0
          = .ok out
      ∧ WeatherInstance.getType out.1 = WeatherInstanceType.Rain
      ∧ out.1.rain.thunderstorm.isSome = true := by
  obtain ⟨out, h1, h2, _, _, h5⟩ := (C9_init_type sampleEnv WeatherInstance.new
    { type := WeatherDefinitionType.Rain, rain := { thunderstorm := true } } [1, 2, 3] 0).2.1 rfl
  exact ⟨out, h1, h2, h5⟩

/-- C10: `WeatherInstance::getRain` returns (the rain payload) if and only if the instance
type is `Rain`, and `WeatherInstance::getSnow` returns (the snow payload) if and only if it
is `Snow`; on every other type the accessor fails its assertion, in particular on type
`None` and on an instance that was constructed and never initialised. -/
theorem C10_accessors (self : WeatherInstance) :
    ((∃ rain, WeatherInstance.getRain self = .ok rain) ↔ self.type = WeatherInstanceType.Rain)
    ∧ (self.type = WeatherInstanceType.Rain → WeatherInstance.getRain self = .ok self.rain)
    ∧ (self.type ≠ WeatherInstanceType.Rain →
        WeatherInstance.getRain self = .error Fault.assertionFailed)
    ∧ ((∃ snow, WeatherInstance.getSnow self = .ok snow) ↔ self.type = WeatherInstanceType.Snow)
    ∧ (self.type = WeatherInstanceType.Snow → WeatherInstance.getSnow self = .ok self.snow)
    ∧ (self.type ≠ WeatherInstanceType.Snow →
        WeatherInstance.getSnow self = .error Fault.assertionFailed)
    ∧ (self.type = WeatherInstanceType.None →
        WeatherInstance.getRain self = .error Fault.assertionFailed
        ∧ WeatherInstance.getSnow self = .error Fault.assertionFailed)
    ∧ WeatherInstance.getRain WeatherInstance.new = .error Fault.assertionFailed
    ∧ WeatherInstance.getSnow WeatherInstance.new = .error Fault.assertionFailed := by
  refine ⟨?_, ?_, ?_, ?_, ?_, ?_, ?_, ?_, ?_⟩
  · by_cases h : self.type = WeatherInstanceType.Rain <;> simp [WeatherInstance.getRain, h]
  · intro h; simp [WeatherInstance.getRain, h]
  · intro h; simp [WeatherInstance.getRain, h]
  · by_cases h : self.type = WeatherInstanceType.Snow <;> simp [WeatherInstance.getSnow, h]
  · intro h; simp [WeatherInstance.getSnow, h]
  · intro h; simp [WeatherInstance.getSnow, h]
  · intro h; simp [WeatherInstance.getRain, WeatherInstance.getSnow, h]
  · simp [WeatherInstance.getRain, WeatherInstance.new]
  · simp [WeatherInstance.getSnow, WeatherInstance.new]

/-- On an instance of type `Snow`, `getSnow` returns the snow payload and `getRain` fails its
assertion. -/
theorem C10_accessors_witness :
    WeatherInstance.getSnow { WeatherInstance.new with type := WeatherInstanceType.Snow }
        = .ok WeatherInstance.new.snow
    ∧ WeatherInstance.getRain { WeatherInstance.new with type := WeatherInstanceType.Snow }
        = .error Fault.assertionFailed :=
  ⟨(C10_accessors { WeatherInstance.new with type := WeatherInstanceType.Snow }).2.2.2.2.1 rfl,
   (C10_accessors { WeatherInstance.new with type := WeatherInstanceType.Snow }).2.2.1
     (by decide)⟩

/-! ## Thunderstorm queries, initialisation and countdown -/

/-- C11: for a finite `secondsSincePrevLightning` `s` (and a non-zero
`THUNDERSTORM_SKY_FLASH_SECONDS`, the divisor), `Thunderstorm::getFlashPercent` returns
`clamp(1 - s / THUNDERSTORM_SKY_FLASH_SECONDS, 0, 1)`, a finite value in `[0, 1]`, and
`Thunderstorm::isLightningBoltVisible` returns true exactly when
`s <= THUNDERSTORM_BOLT_SECONDS`. -/
theorem C11_flash_queries {σ : Type} (E : Env σ) (self : Thunderstorm) (s : ℚ)
    (hs : self.secondsSincePrevLightning = Double.fin s)
    (hsky : E.THUNDERSTORM_SKY_FLASH_SECONDS ≠ 0) :
    Thunderstorm.getFlashPercent E self
        = Double.fin (if 1 - s / E.THUNDERSTORM_SKY_FLASH_SECONDS < 0 then 0
            else if 1 < 1 - s / E.THUNDERSTORM_SKY_FLASH_SECONDS then 1
            else 1 - s / E.THUNDERSTORM_SKY_FLASH_SECONDS)
    ∧ (∃ v, Thunderstorm.getFlashPercent E self = Double.fin v ∧ 0 ≤ v ∧ v ≤ 1
        ∧ v = max 0 (min 1 (1 - s / E.THUNDERSTORM_SKY_FLASH_SECONDS)))
    ∧ (Thunderstorm.isLightningBoltVisible E self = true ↔ s ≤ E.THUNDERSTORM_BOLT_SECONDS) := by
  have h : Thunderstorm.getFlashPercent E self
      = Double.fin (if 1 - s / E.THUNDERSTORM_SKY_FLASH_SECONDS < 0 then 0
          else if 1 < 1 - s / E.THUNDERSTORM_SKY_FLASH_SECONDS then 1
          else 1 - s / E.THUNDERSTORM_SKY_FLASH_SECONDS) := by
    simp only [Thunderstorm.getFlashPercent, hs, Double.div, hsky, if_false, Double.sub,
      Double.clamp, Double.lt]
    by_cases h1 : 1 - s / E.THUNDERSTORM_SKY_FLASH_SECONDS < 0
    · simp [h1]
    · by_cases h2 : 1 < 1 - s / E.THUNDERSTORM_SKY_FLASH_SECONDS
      · simp [h1, h2]
      · simp [h1, h2]
  refine ⟨h, ⟨_, h, ?_, ?_, ?_⟩, ?_⟩
  · split_ifs <;> linarith
  · split_ifs <;> linarith
  · by_cases h1 : 1 - s / E.THUNDERSTORM_SKY_FLASH_SECONDS < 0
    · simp [h1, max_eq_left, min_eq_right, le_of_lt h1, (le_of_lt h1).trans zero_le_one]
    · by_cases h2 : 1 < 1 - s / E.THUNDERSTORM_SKY_FLASH_SECONDS
      · simp [h1, h2, min_eq_left (le_of_lt h2)]
      · simp [h1, h2, min_eq_right (not_lt.mp h2), max_eq_right (not_lt.mp h1)]
  · simp [Thunderstorm.isLightningBoltVisible, hs, Double.le]

/-- A quarter of a second after a lightning, under `sampleEnv` (sky flash of 1/2 s, bolt of
1/4 s): the flash is at one half and the bolt is visible. -/
theorem C11_flash_queries_witness :
    Thunderstorm.getFlashPercent sampleEnv
        { sampleThunderstorm with secondsSincePrevLightning := Double.fin (1 / 4) }
      = Double.fin (1 / 2)
    ∧ Thunderstorm.isLightningBoltVisible sampleEnv
        { sampleThunderstorm with secondsSincePrevLightning := Double.fin (1 / 4) } = true := by
  obtain ⟨h1, _, h3⟩ := C11_flash_queries sampleEnv
    { sampleThunderstorm with secondsSincePrevLightning := Double.fin (1 / 4) } (1 / 4) rfl
    (by norm_num [sampleEnv])
  refine ⟨?_, h3.mpr (by norm_num [sampleEnv])⟩
  rw [h1]
  norm_num [sampleEnv]

/-- C12: `Thunderstorm::init` stores the given flash colours and sets
`secondsSincePrevLightning` to +infinity, `secondsUntilNextLightning` to
`THUNDERSTORM_SKY_FLASH_SECONDS + 5 * r` with `r` the next real of the generator,
`lightningBoltAngle` to 0 and `active` to false; the generator is advanced by that one draw.
With `r` in `[0, 1)` the new `secondsUntilNextLightning` lies in
`[THUNDERSTORM_SKY_FLASH_SECONDS, THUNDERSTORM_SKY_FLASH_SECONDS + 5)`. -/
theorem C12_thunderstorm_init {σ : Type} (E : Env σ) (flashColors : List (Fin 256))
    (random : σ) :
    (Thunderstorm.init E flashColors random).1
        = { flashColors := flashColors
            secondsSincePrevLightning := Double.posInf
            secondsUntilNextLightning :=
              E.THUNDERSTORM_SKY_FLASH_SECONDS + 5 * (E.nextReal random).1
            lightningBoltAngle := 0
            active := false }
    ∧ (Thunderstorm.init E flashColors random).2 = (E.nextReal random).2
    ∧ (0 ≤ (E.nextReal random).1 → (E.nextReal random).1 < 1 →
        E.THUNDERSTORM_SKY_FLASH_SECONDS
            ≤ (Thunderstorm.init E flashColors random).1.secondsUntilNextLightning
        ∧ (Thunderstorm.init E flashColors random).1.secondsUntilNextLightning
            < E.THUNDERSTORM_SKY_FLASH_SECONDS + 5) := by
  refine ⟨?_, rfl, ?_⟩
  · simp only [Thunderstorm.init, MakeSecondsUntilNextLightning, mul_comm]
  · intro h1 h2
    simp only [Thunderstorm.init, MakeSecondsUntilNextLightning]
    constructor <;> linarith

/-- Under `sampleEnv` with the generator at 1 (next real 1/4), the thunderstorm made by
`init` is 7/4 seconds before its first lightning, which lies in `[1/2, 1/2 + 5)`. -/
theorem C12_thunderstorm_init_witness :
    (Thunderstorm.init sampleEnv [1, 2, 3] 1).1.secondsUntilNextLightning = 7 / 4
    ∧ sampleEnv.THUNDERSTORM_SKY_FLASH_SECONDS
        ≤ (Thunderstorm.init sampleEnv [1, 2, 3] 1).1.secondsUntilNextLightning
    ∧ (Thunderstorm.init sampleEnv [1, 2, 3] 1).1.secondsUntilNextLightning
        < sampleEnv.THUNDERSTORM_SKY_FLASH_SECONDS + 5 := by
  obtain ⟨h1, _, h3⟩ := C12_thunderstorm_init sampleEnv [1, 2, 3] 1
  obtain ⟨h4, h5⟩ := h3 (by norm_num [sampleEnv]) (by norm_num [sampleEnv])
  refine ⟨?_, h4, h5⟩
  rw [h1]
  norm_num [sampleEnv]

/-- C20: with `active == true` and `secondsUntilNextLightning - dt > 0`,
`Thunderstorm::update` adds `dt` to `secondsSincePrevLightning` (IEEE addition: a finite
value `s` becomes `s + dt`, +infinity stays +infinity), subtracts `dt` from
`secondsUntilNextLightning`, leaves `lightningBoltAngle`, `active` and the flash colours as
they were, and draws nothing from the generator. -/
theorem C20_thunderstorm_countdown {σ : Type} (E : Env σ) (self : Thunderstorm) (dt : ℚ)
    (random : σ) (hactive : self.active = true)
    (hnot : 0 < self.secondsUntilNextLightning - dt) :
    (Thunderstorm.update E self dt random).1.secondsSincePrevLightning
        = Double.add self.secondsSincePrevLightning (Double.fin dt)
    ∧ (∀ s : ℚ, self.secondsSincePrevLightning = Double.fin s →
        (Thunderstorm.update E self dt random).1.secondsSincePrevLightning = Double.fin (s + dt))
    ∧ (self.secondsSincePrevLightning = Double.posInf →
        (Thunderstorm.update E self dt random).1.secondsSincePrevLightning = Double.posInf)
    ∧ (Thunderstorm.update E self dt random).1.secondsUntilNextLightning
        = self.secondsUntilNextLightning - dt
    ∧ (Thunderstorm.update E self dt random).1.lightningBoltAngle = self.lightningBoltAngle
    ∧ (Thunderstorm.update E self dt random).1.active = self.active
    ∧ (Thunderstorm.update E self dt random).1.flashColors = self.flashColors
    ∧ (Thunderstorm.update E self dt random).2 = random := by
  have h : Thunderstorm.update E self dt random
      = ({ self with
           secondsSincePrevLightning := Double.add self.secondsSincePrevLightning (Double.fin dt)
           secondsUntilNextLightning := self.secondsUntilNextLightning - dt },
         random) := by
    simp [Thunderstorm.update, hactive, not_le.mpr hnot]
  rw [h]
  refine ⟨rfl, ?_, ?_, rfl, rfl, rfl, rfl, rfl⟩
  · intro s hs
    simp [hs, Double.add]
  · intro hs
    simp [hs, Double.add]

/-- An active thunderstorm, three seconds before the next lightning and one second after the
previous one, updated by two seconds: one second is left and three have passed. -/
theorem C20_thunderstorm_countdown_witness :
    (Thunderstorm.update sampleEnv
        { sampleThunderstorm with active := true, secondsSincePrevLightning := Double.fin 1 }
        2 0).1.secondsUntilNextLightning = 1
    ∧ (Thunderstorm.update sampleEnv
        { sampleThunderstorm with active := true, secondsSincePrevLightning := Double.fin 1 }
        2 0).1.secondsSincePrevLightning = Double.fin 3 := by
  obtain ⟨_, h2, _, h4, _⟩ := C20_thunderstorm_countdown sampleEnv
    { sampleThunderstorm with active := true, secondsSincePrevLightning := Double.fin 1 }
    2 0 rfl (by norm_num [sampleThunderstorm])
  refine ⟨?_, ?_⟩
  · rw [h4]; norm_num [sampleThunderstorm]
  · rw [h2 1 rfl]; norm_num

/-! ## WeatherInstance: update, failures, re-initialisation -/

/-- C13: `WeatherInstance::update` on type `None` returns the instance and the generator as
they were, for every `dt` and `aspectRatio`; on type `Rain` it is `RainInstance::update` on
the rain payload (its result replaces the rain payload, its failure is the failure of the
call); on type `Snow` it is `SnowInstance::update` on the snow payload. The type tag and the
other payload are not written. -/
theorem C13_update_dispatch {σ : Type} (E : Env σ) (self : WeatherInstance)
    (dt aspectRatio : ℚ) (random : σ) :
    (self.type = WeatherInstanceType.None →
      WeatherInstance.update E self dt aspectRatio random = .ok (self, random))
    ∧ (self.type = WeatherInstanceType.Rain →
      (∀ r, RainInstance.update E self.rain dt aspectRatio random = .ok r →
        WeatherInstance.update E self dt aspectRatio random
          = .ok ({ type := self.type, rain := r.1, snow := self.snow }, r.2))
      ∧ (∀ e, RainInstance.update E self.rain dt aspectRatio random = .error e →
        WeatherInstance.update E self dt aspectRatio random = .error e))
    ∧ (self.type = WeatherInstanceType.Snow →
      (∀ r, SnowInstance.update E self.snow dt aspectRatio random = .ok r →
        WeatherInstance.update E self dt aspectRatio random
          = .ok ({ type := self.type, rain := self.rain, snow := r.1 }, r.2))
      ∧ (∀ e, SnowInstance.update E self.snow dt aspectRatio random = .error e →
        WeatherInstance.update E self dt aspectRatio random = .error e)) := by
  refine ⟨?_, ?_, ?_⟩
  · intro h
    simp [WeatherInstance.update, h]
  · intro h
    constructor
    · intro r hr
      simp [WeatherInstance.update, h, hr]
    · intro e he
      simp [WeatherInstance.update, h, he]
  · intro h
    constructor
    · intro r hr
      simp [WeatherInstance.update, h, hr]
    · intro e he
      simp [WeatherInstance.update, h, he]

/-- An instance of type `None` is returned unchanged by an update of 1 second, and so is the
generator. -/
theorem C13_update_dispatch_witness :
    WeatherInstance.update sampleEnv
        { WeatherInstance.new with type := WeatherInstanceType.None } 1 (8 / 5) 3
      = .ok ({ WeatherInstance.new with type := WeatherInstanceType.None }, 3) :=
  (C13_update_dispatch sampleEnv
    { WeatherInstance.new with type := WeatherInstanceType.None } 1 (8 / 5) 3).1 rfl

/-- C14: `WeatherInstance::update` halts as not implemented on every instance whose type is
none of `None`, `Rain`, `Snow`, in particular on an instance that was constructed and never
initialised; `WeatherInstance::init` halts as not implemented on a weather definition whose
type is none of `Clear`, `Overcast`, `Rain`, `Snow`, and has then written nothing to the
instance, whose type is as before. When `init` returns, the instance is as `initWrites`
describes it. -/
theorem C14_not_implemented {σ : Type} (E : Env σ) (self : WeatherInstance)
    (weatherDef : WeatherDefinition) (thunderstormColors : List (Fin 256))
    (dt aspectRatio : ℚ) (random : σ) :
    (self.type ≠ WeatherInstanceType.None → self.type ≠ WeatherInstanceType.Rain →
      self.type ≠ WeatherInstanceType.Snow →
      WeatherInstance.update E self dt aspectRatio random = .error Fault.notImplemented)
    ∧ WeatherInstance.update E WeatherInstance.new dt aspectRatio random
        = .error Fault.notImplemented
    ∧ (weatherDef.type ≠ WeatherDefinitionType.Clear →
      weatherDef.type ≠ WeatherDefinitionType.Overcast →
      weatherDef.type ≠ WeatherDefinitionType.Rain →
      weatherDef.type ≠ WeatherDefinitionType.Snow →
      WeatherInstance.init E self weatherDef thunderstormColors random
          = .error Fault.notImplemented
      ∧ WeatherInstance.initWrites E self weatherDef thunderstormColors random = self
      ∧ (WeatherInstance.initWrites E self weatherDef thunderstormColors random).type
          = self.type)
    ∧ (∀ out, WeatherInstance.init E self weatherDef thunderstormColors random = .ok out →
        out.1 = WeatherInstance.initWrites E self weatherDef thunderstormColors random) := by
  refine ⟨?_, ?_, ?_, ?_⟩
  · intro h1 h2 h3
    simp [WeatherInstance.update, h1, h2, h3]
  · simp [WeatherInstance.update, WeatherInstance.new]
  · intro h1 h2 h3 h4
    have hw : WeatherInstance.initWrites E self weatherDef thunderstormColors random = self := by
      simp [WeatherInstance.initWrites, h1, h2, h3, h4]
    refine ⟨by simp [WeatherInstance.init, h1, h2, h3, h4], hw, by rw [hw]⟩
  · intro out hout
    unfold WeatherInstance.init at hout
    unfold WeatherInstance.initWrites
    simp only at hout ⊢
    split_ifs at hout ⊢ <;> (injection hout with h; rw [← h])

/-- A definition with a type outside the four weather types makes `init` halt, and a new
instance makes `update` halt. -/
theorem C14_not_implemented_witness :
    WeatherInstance.init sampleEnv WeatherInstance.new
        { type := WeatherDefinitionType.Other 7, rain := { thunderstorm := false } } [] 0
      = .error Fault.notImplemented
    ∧ WeatherInstance.update sampleEnv WeatherInstance.new 1 (8 / 5) 0
      = .error Fault.notImplemented := by
  have h := C14_not_implemented sampleEnv WeatherInstance.new
    { type := WeatherDefinitionType.Other 7, rain := { thunderstorm := false } } [] 1 (8 / 5) 0
  exact ⟨(h.2.2.1 (by decide) (by decide) (by decide) (by decide)).1, h.2.1⟩

/-- C15: `WeatherInstance::init` with the same weather definition, flash colours and
generator gives, from any two prior instances, the same outcome: either both calls halt as
not implemented, or both return, with the same type, the same generator, and the same answer
of `getRain` and of `getSnow` (the payload of the active variant, or the assertion failure).
Nothing of the prior instance shows through `getType`, `getRain`, `getSnow`. -/
theorem C15_init_forgets {σ : Type} (E : Env σ) (self1 self2 : WeatherInstance)
    (weatherDef : WeatherDefinition) (thunderstormColors : List (Fin 256)) (random : σ) :
    (WeatherInstance.init E self1 weatherDef thunderstormColors random
        = .error Fault.notImplemented
      ∧ WeatherInstance.init E self2 weatherDef thunderstormColors random
        = .error Fault.notImplemented)
    ∨ ∃ out1 out2,
        WeatherInstance.init E self1 weatherDef thunderstormColors random = .ok out1
        ∧ WeatherInstance.init E self2 weatherDef thunderstormColors random = .ok out2
        ∧ WeatherInstance.getType out1.1 = WeatherInstance.getType out2.1
        ∧ WeatherInstance.getRain out1.1 = WeatherInstance.getRain out2.1
        ∧ WeatherInstance.getSnow out1.1 = WeatherInstance.getSnow out2.1
        ∧ out1.2 = out2.2 := by
  by_cases h1 : weatherDef.type = WeatherDefinitionType.Clear
      ∨ weatherDef.type = WeatherDefinitionType.Overcast
  · right
    exact ⟨({ self1 with type := WeatherInstanceType.None }, random),
      ({ self2 with type := WeatherInstanceType.None }, random),
      by simp [WeatherInstance.init, h1], by simp [WeatherInstance.init, h1],
      rfl, by simp [WeatherInstance.getRain], by simp [WeatherInstance.getSnow], rfl⟩
  · by_cases h2 : weatherDef.type = WeatherDefinitionType.Rain
    · right
      exact ⟨({ self1 with
                type := WeatherInstanceType.Rain
                rain := (RainInstance.init E weatherDef.rain.thunderstorm
                  thunderstormColors random).1 },
              (RainInstance.init E weatherDef.rain.thunderstorm thunderstormColors random).2),
        ({ self2 with
            type := WeatherInstanceType.Rain
            rain := (RainInstance.init E weatherDef.rain.thunderstorm
              thunderstormColors random).1 },
          (RainInstance.init E weatherDef.rain.thunderstorm thunderstormColors random).2),
        by simp [WeatherInstance.init, h2], by simp [WeatherInstance.init, h2],
        rfl, by simp [WeatherInstance.getRain], by simp [WeatherInstance.getSnow], rfl⟩
    · by_cases h3 : weatherDef.type = WeatherDefinitionType.Snow
      · right
        exact ⟨({ self1 with
                  type := WeatherInstanceType.Snow
                  snow := (SnowInstance.init E random).1 }, (SnowInstance.init E random).2),
          ({ self2 with
              type := WeatherInstanceType.Snow
              snow := (SnowInstance.init E random).1 }, (SnowInstance.init E random).2),
          by simp [WeatherInstance.init, h3], by simp [WeatherInstance.init, h3],
          rfl, by simp [WeatherInstance.getRain], by simp [WeatherInstance.getSnow], rfl⟩
      · left
        exact ⟨by simp [WeatherInstance.init, h1, h2, h3],
          by simp [WeatherInstance.init, h1, h2, h3]⟩

/-! ## Order of the random draws -/

theorem animateRaindrop_snd {σ : Type} (E : Env σ) (dt aspectRatio vx vy : ℚ) (p : Particle)
    (g : σ) :
    (animateRaindrop E dt aspectRatio vx vy p g).2
      = if RainInstance.canBeRestarted p = true then E.afterTwoReals g else g := by
  unfold animateRaindrop RainInstance.canBeRestarted Env.afterTwoReals
  by_cases hc : (decide (p.xPercent < 0) || decide (p.yPercent ≥ 1)) = true
  · simp only [hc, if_true]
    split_ifs <;> rfl
  · simp only [hc, if_false]
    simp

theorem Thunderstorm.update_snd {σ : Type} (E : Env σ) (self : Thunderstorm) (dt : ℚ) (g : σ) :
    (Thunderstorm.update E self dt g).2
      = if self.active = true ∧ self.secondsUntilNextLightning - dt ≤ 0
        then E.afterTwoReals g else g := by
  unfold Thunderstorm.update Env.afterTwoReals
  by_cases ha : self.active = true
  · by_cases hd : self.secondsUntilNextLightning - dt ≤ 0
    · simp [ha, hd, MakeLightningBoltAngle, MakeSecondsUntilNextLightning]
    · simp [ha, hd]
  · simp [ha]

theorem afterTwoReals_iterate {σ : Type} (E : Env σ) (g : σ) :
    ∀ j : Nat, (E.afterTwoReals)^[j] g = (fun r => (E.nextReal r).2)^[2 * j] g := by
  intro j
  induction j with
  | zero => rfl
  | succ j ih =>
    have h2 : 2 * (j + 1) = (2 * j).succ.succ := by omega
    rw [Function.iterate_succ_apply', h2, Function.iterate_succ_apply',
      Function.iterate_succ_apply', ← ih]
    rfl

/-- The generator the raindrop loop has on reaching index `i`: two reals have been drawn for
each particle before `i` that could be restarted, and nothing else. -/
theorem rain_generator_at {σ : Type} (E : Env σ) (dt aspectRatio : ℚ) (ps : List Particle)
    (g : σ) :
    ∀ i, i ≤ ps.length →
      ∃ si, forRange (fun i => raindropStep E dt aspectRatio (RainInstance.velocityPercentX E i)
          (RainInstance.velocityPercentY E i) i) 0 i (ps, g) = .ok si
        ∧ si.2 = (E.afterTwoReals)^[List.countP RainInstance.canBeRestarted (List.take i ps)] g := by
  intro i
  induction i with
  | zero => intro _; exact ⟨(ps, g), forRange_empty _ _ _ _ (le_refl 0), rfl⟩
  | succ i ih =>
    intro hi
    obtain ⟨si0, h0, hg0⟩ := ih (by omega)
    have hp : ps[i]? = some ps[i] := List.getElem?_eq_getElem (by omega)
    obtain ⟨si, _, h1, h2, _, _, _⟩ := particleLoop_at
      (fun i => animateRaindrop E dt aspectRatio (RainInstance.velocityPercentX E i)
        (RainInstance.velocityPercentY E i))
      (fun i => raindropStep E dt aspectRatio (RainInstance.velocityPercentX E i)
        (RainInstance.velocityPercentY E i) i)
      (fun i s p hp => raindropStep_eq E dt aspectRatio _ _ i s p hp)
      ps g (i + 1) i (by omega) hi ps[i] hp
    have hsi : si = si0 := by
      rw [h0] at h1
      injection h1 with h
      exact h.symm
    subst hsi
    refine ⟨_, h2, ?_⟩
    simp only [animateRaindrop_snd, hg0, List.take_succ, hp, Option.toList,
      List.countP_append, List.countP_singleton]
    by_cases hc : RainInstance.canBeRestarted ps[i] = true
    · simp only [hc, if_true]
      rw [Function.iterate_succ_apply']
    · simp only [hc]
      simp

/-- C17: `RainInstance::update` (on a field holding every index the loops visit) draws from
the generator in a fixed order. On reaching index `i` the generator has been advanced by two
`nextReal` draws for each particle before `i` that could be restarted, and by nothing else;
a particle that can be restarted, the `j`-th such one by index, takes its edge choice and its
coordinate from the two draws that follow draw `2 * j`. The thunderstorm is updated after all
particles, and the call ends with two more draws exactly when a thunderstorm is present,
active and its timer expires, and with none otherwise. -/
theorem C17_rain_draw_order {σ : Type} (E : Env σ) (self : RainInstance) (dt aspectRatio : ℚ)
    (random : σ) (hlen : RainInstance.slowEndIndex E ≤ self.particles.length) :
    (∀ i, i ≤ RainInstance.slowEndIndex E →
      ∃ si, RainInstance.animateUpTo E dt aspectRatio i (self.particles, random) = .ok si
        ∧ si.2 = (E.afterTwoReals)^[List.countP RainInstance.canBeRestarted
            (List.take i self.particles)] random)
    ∧ (∀ j, (E.afterTwoReals)^[j] random = (fun r => (E.nextReal r).2)^[2 * j] random)
    ∧ (∀ i p, i < RainInstance.slowEndIndex E → self.particles[i]? = some p →
      ∃ out g, RainInstance.update E self dt aspectRatio random = .ok out
        ∧ g = (E.afterTwoReals)^[List.countP RainInstance.canBeRestarted
            (List.take i self.particles)] random
        ∧ (RainInstance.canBeRestarted p = true →
            out.1.particles[i]? = some
              (if (E.nextReal g).1 ≤ aspectRatio / (aspectRatio + 1)
                then { xPercent := (E.nextReal (E.nextReal g).2).1, yPercent := 0 }
                else { xPercent := 1, yPercent := (E.nextReal (E.nextReal g).2).1 }))
        ∧ (RainInstance.canBeRestarted p = false →
            out.1.particles[i]? = some
              { xPercent := p.xPercent
                  + RainInstance.velocityPercentX E i * ( E.ASPECT_RATIO / aspectRatio) * dt
                yPercent := p.yPercent + RainInstance.velocityPercentY E i * dt }))
    ∧ ∃ out gEnd, RainInstance.update E self dt aspectRatio random = .ok out
        ∧ gEnd = (E.afterTwoReals)^[List.countP RainInstance.canBeRestarted
            (List.take (RainInstance.slowEndIndex E) self.particles)] random
        ∧ (self.thunderstorm = none → out.2 = gEnd)
        ∧ (∀ t, self.thunderstorm = some t →
            out.1.thunderstorm = some (Thunderstorm.update E t dt gEnd).1
            ∧ out.2 = if t.active = true ∧ t.secondsUntilNextLightning - dt ≤ 0
                then E.afterTwoReals gEnd else gEnd) := by
  have hgen : ∀ i, i ≤ RainInstance.slowEndIndex E →
      ∃ si, RainInstance.animateUpTo E dt aspectRatio i (self.particles, random) = .ok si
        ∧ si.2 = (E.afterTwoReals)^[List.countP RainInstance.canBeRestarted
            (List.take i self.particles)] random := by
    intro i hi
    rw [rain_animateUpTo_eq, min_eq_right hi]
    exact rain_generator_at E dt aspectRatio self.particles random i (by omega)
  refine ⟨hgen, afterTwoReals_iterate E random, ?_, ?_⟩
  · intro i p hi hp
    obtain ⟨si, out, h1, _, h3, h4, _⟩ :=
      RainInstance.update_particle E self dt aspectRatio random i p hi hlen hp
    obtain ⟨si0, h0, hg0⟩ := hgen i (by omega)
    have hsi : si = si0 := by
      rw [h0] at h1
      injection h1 with h
      exact h.symm
    subst hsi
    refine ⟨out, _, h3, rfl, ?_, ?_⟩
    · intro hc
      rw [h4, hg0]
      unfold RainInstance.canBeRestarted at hc
      simp only [animateRaindrop, hc, if_true]
      split_ifs <;> rfl
    · intro hc
      rw [h4]
      unfold RainInstance.canBeRestarted at hc
      simp [animateRaindrop, hc]
  · obtain ⟨sEnd, hEnd, hgEnd⟩ := hgen (RainInstance.slowEndIndex E) (le_refl _)
    have hupd := rain_update_eq E self dt aspectRatio random
    rw [hEnd] at hupd
    cases hth : self.thunderstorm with
    | none =>
      rw [hth] at hupd
      exact ⟨_, _, hupd, rfl, fun _ => hgEnd, fun t ht => by simp at ht⟩
    | some t0 =>
      rw [hth] at hupd
      refine ⟨_, _, hupd, rfl, fun h => by simp at h, ?_⟩
      intro t ht
      have htt : t0 = t := by injection ht
      subst htt
      refine ⟨by simp only [hgEnd], ?_⟩
      simp only [Thunderstorm.update_snd, hgEnd]

/-- In `sampleRain` two particles can be restarted (indices 1 and 4); an update that starts
with the generator at 0 ends with it at 4, two draws for each of them. -/
theorem C17_rain_draw_order_witness :
    ∃ out, RainInstance.update sampleEnv sampleRain 1 (8 / 5) 0 = .ok out ∧ out.2 = 4 := by
  obtain ⟨out, gEnd, h1, h2, h3, _⟩ :=
    (C17_rain_draw_order sampleEnv sampleRain 1 (8 / 5) 0 (by decide)).2.2.2
  refine ⟨out, h1, ?_⟩
  rw [h3 rfl, h2]
  have hc : List.countP RainInstance.canBeRestarted
      (List.take (RainInstance.slowEndIndex sampleEnv) sampleRain.particles) = 2 := by
    have h6 : RainInstance.slowEndIndex sampleEnv = 6 := by decide
    rw [h6]
    norm_num [sampleRain, RainInstance.canBeRestarted, List.countP_cons]
  rw [hc]
  simp [Env.afterTwoReals, sampleEnv]

/-! ## The remainder taken by `std::fmod` -/

theorem fmod_of_nonneg (x y : ℚ) (hy : 0 < y) (hx : 0 ≤ x) :
    ∃ n : ℕ, x = n * y + fmod x y ∧ 0 ≤ fmod x y ∧ fmod x y < y := by
  have hq : 0 ≤ x / y := div_nonneg hx (le_of_lt hy)
  have hf : fmod x y = x - (Int.floor (x / y) : ℚ) * y := by
    simp [fmod, hq]
  have h0 : 0 ≤ Int.floor (x / y) := Int.floor_nonneg.mpr hq
  have h1 : (Int.floor (x / y) : ℚ) ≤ x / y := Int.floor_le _
  have h2 : x / y < (Int.floor (x / y) : ℚ) + 1 := Int.lt_floor_add_one _
  have h3 : (Int.floor (x / y) : ℚ) * y ≤ x := by
    have := mul_le_mul_of_nonneg_right h1 (le_of_lt hy)
    rwa [div_mul_cancel₀ x (ne_of_gt hy)] at this
  have h4 : x < ((Int.floor (x / y) : ℚ) + 1) * y := by
    have := mul_lt_mul_of_pos_right h2 hy
    rwa [div_mul_cancel₀ x (ne_of_gt hy)] at this
  refine ⟨(Int.floor (x / y)).toNat, ?_, ?_, ?_⟩
  · have hn : ((Int.floor (x / y)).toNat : ℤ) = Int.floor (x / y) := Int.toNat_of_nonneg h0
    have hn2 : (((Int.floor (x / y)).toNat : ℕ) : ℚ) = (Int.floor (x / y) : ℚ) := by
      exact_mod_cast hn
    rw [hn2, hf]; ring
  · rw [hf]; linarith
  · rw [hf]; linarith

/-! ## Tiers -/

/-- C18: tier membership is positional. The three calls of `RainInstance::update` cover the
contiguous, disjoint index ranges `[0, FAST)`, `[FAST, FAST + MEDIUM)` and
`[FAST + MEDIUM, FAST + MEDIUM + SLOW)`, and amount to one pass over `[0, FAST + MEDIUM + SLOW)`
in which index `i` is handled with the velocities of the range that holds it; when the field
holds `FAST + MEDIUM + SLOW` particles the call returns and each particle comes out as one
application of the loop body to the particle that was there before the call. The same holds
for `SnowInstance::update`. -/
theorem C18_tier_positional {σ : Type} (E : Env σ) (dt aspectRatio : ℚ) (random : σ) :
    (RainInstance.fastEndIndex E = E.RAINDROP_FAST_COUNT
      ∧ RainInstance.mediumEndIndex E = E.RAINDROP_FAST_COUNT + E.RAINDROP_MEDIUM_COUNT
      ∧ RainInstance.slowEndIndex E
          = E.RAINDROP_FAST_COUNT + E.RAINDROP_MEDIUM_COUNT + E.RAINDROP_SLOW_COUNT)
    ∧ (∀ i,
      (i < E.RAINDROP_FAST_COUNT →
        RainInstance.velocityPercentX E i = RainInstance.fastVelocityPercentX E
        ∧ RainInstance.velocityPercentY E i = RainInstance.fastVelocityPercentY E)
      ∧ (E.RAINDROP_FAST_COUNT ≤ i → i < E.RAINDROP_FAST_COUNT + E.RAINDROP_MEDIUM_COUNT →
        RainInstance.velocityPercentX E i = RainInstance.mediumVelocityPercentX E
        ∧ RainInstance.velocityPercentY E i = RainInstance.mediumVelocityPercentY E)
      ∧ (E.RAINDROP_FAST_COUNT + E.RAINDROP_MEDIUM_COUNT ≤ i →
        RainInstance.velocityPercentX E i = RainInstance.slowVelocityPercentX E
        ∧ RainInstance.velocityPercentY E i = RainInstance.slowVelocityPercentY E))
    ∧ (∀ self : RainInstance,
      RainInstance.update E self dt aspectRatio random
        = (forRange (fun i => raindropStep E dt aspectRatio (RainInstance.velocityPercentX E i)
              (RainInstance.velocityPercentY E i) i) 0
            (E.RAINDROP_FAST_COUNT + E.RAINDROP_MEDIUM_COUNT + E.RAINDROP_SLOW_COUNT)
            (self.particles, random)).bind
          (fun s3 => .ok
            ({ particles := s3.1
               thunderstorm :=
                 self.thunderstorm.map (fun t => (Thunderstorm.update E t dt s3.2).1) },
             match self.thunderstorm with
             | some t => (Thunderstorm.update E t dt s3.2).2
             | none => s3.2)))
    ∧ (∀ (self : RainInstance) (i : Nat) (p : Particle),
      self.particles.length
          = E.RAINDROP_FAST_COUNT + E.RAINDROP_MEDIUM_COUNT + E.RAINDROP_SLOW_COUNT →
      i < self.particles.length → self.particles[i]? = some p →
      ∃ si out,
        RainInstance.animateUpTo E dt aspectRatio i (self.particles, random) = .ok si
        ∧ RainInstance.update E self dt aspectRatio random = .ok out
        ∧ out.1.particles[i]? = some
            (animateRaindrop E dt aspectRatio (RainInstance.velocityPercentX E i)
              (RainInstance.velocityPercentY E i) p si.2).1)
    ∧ (SnowInstance.fastEndIndex E = E.SNOWFLAKE_FAST_COUNT
      ∧ SnowInstance.mediumEndIndex E = E.SNOWFLAKE_FAST_COUNT + E.SNOWFLAKE_MEDIUM_COUNT
      ∧ SnowInstance.slowEndIndex E
          = E.SNOWFLAKE_FAST_COUNT + E.SNOWFLAKE_MEDIUM_COUNT + E.SNOWFLAKE_SLOW_COUNT)
    ∧ (∀ i,
      (i < E.SNOWFLAKE_FAST_COUNT →
        SnowInstance.velocityPercentX E i = SnowInstance.fastVelocityPercentX E
        ∧ SnowInstance.velocityPercentY E i = SnowInstance.fastVelocityPercentY E)
      ∧ (E.SNOWFLAKE_FAST_COUNT ≤ i → i < E.SNOWFLAKE_FAST_COUNT + E.SNOWFLAKE_MEDIUM_COUNT →
        SnowInstance.velocityPercentX E i = SnowInstance.mediumVelocityPercentX E
        ∧ SnowInstance.velocityPercentY E i = SnowInstance.mediumVelocityPercentY E)
      ∧ (E.SNOWFLAKE_FAST_COUNT + E.SNOWFLAKE_MEDIUM_COUNT ≤ i →
        SnowInstance.velocityPercentX E i = SnowInstance.slowVelocityPercentX E
        ∧ SnowInstance.velocityPercentY E i = SnowInstance.slowVelocityPercentY E))
    ∧ (∀ self : SnowInstance,
      SnowInstance.update E self dt aspectRatio random
        = forRange (fun i => snowflakeStep E dt aspectRatio (SnowInstance.velocityPercentX E i)
              (SnowInstance.velocityPercentY E i) i) 0
            (E.SNOWFLAKE_FAST_COUNT + E.SNOWFLAKE_MEDIUM_COUNT + E.SNOWFLAKE_SLOW_COUNT)
            (self, random))
    ∧ (∀ (self : SnowInstance) (i : Nat) (p : Particle) (d : Bool) (t : ℚ),
      self.particles.length
          = E.SNOWFLAKE_FAST_COUNT + E.SNOWFLAKE_MEDIUM_COUNT + E.SNOWFLAKE_SLOW_COUNT →
      self.directions.length = self.particles.length →
      self.lastDirectionChangeSeconds.length = self.particles.length →
      i < self.particles.length →
      self.particles[i]? = some p → self.directions[i]? = some d →
      self.lastDirectionChangeSeconds[i]? = some t →
      ∃ si out,
        SnowInstance.animateUpTo E dt aspectRatio i (self, random) = .ok si
        ∧ SnowInstance.update E self dt aspectRatio random = .ok out
        ∧ SnowInstance.cell out.1 i = some
            (animateSnowflake E dt aspectRatio (SnowInstance.velocityPercentX E i)
              (SnowInstance.velocityPercentY E i) (p, d, t) si.2).1) := by
  have hr : RainInstance.slowEndIndex E
      = E.RAINDROP_FAST_COUNT + E.RAINDROP_MEDIUM_COUNT + E.RAINDROP_SLOW_COUNT := rfl
  have hs : SnowInstance.slowEndIndex E
      = E.SNOWFLAKE_FAST_COUNT + E.SNOWFLAKE_MEDIUM_COUNT + E.SNOWFLAKE_SLOW_COUNT := rfl
  refine ⟨⟨rfl, rfl, rfl⟩, ?_, ?_, ?_, ⟨rfl, rfl, rfl⟩, ?_, ?_, ?_⟩
  · intro i
    refine ⟨?_, ?_, ?_⟩
    · intro h
      simp [RainInstance.velocityPercentX, RainInstance.velocityPercentY,
        RainInstance.fastEndIndex, h]
    · intro h1 h2
      simp [RainInstance.velocityPercentX, RainInstance.velocityPercentY,
        RainInstance.fastEndIndex, RainInstance.mediumEndIndex, not_lt.mpr h1, h2]
    · intro h
      have h1 : ¬ i < E.RAINDROP_FAST_COUNT := by omega
      simp [RainInstance.velocityPercentX, RainInstance.velocityPercentY,
        RainInstance.fastEndIndex, RainInstance.mediumEndIndex, not_lt.mpr h, h1]
  · intro self
    rw [rain_update_eq, rain_animateUpTo_eq, min_self, hr]
    cases forRange (fun i => raindropStep E dt aspectRatio (RainInstance.velocityPercentX E i)
        (RainInstance.velocityPercentY E i) i) 0
        (E.RAINDROP_FAST_COUNT + E.RAINDROP_MEDIUM_COUNT + E.RAINDROP_SLOW_COUNT)
        (self.particles, random) with
    | error e => rfl
    | ok s3 => cases self.thunderstorm <;> rfl
  · intro self i p hlen hi hp
    obtain ⟨si, out, h1, _, h3, h4, _⟩ :=
      RainInstance.update_particle E self dt aspectRatio random i p (by omega) (by omega) hp
    exact ⟨si, out, h1, h3, h4⟩
  · intro i
    refine ⟨?_, ?_, ?_⟩
    · intro h
      simp [SnowInstance.velocityPercentX, SnowInstance.velocityPercentY,
        SnowInstance.fastEndIndex, h]
    · intro h1 h2
      simp [SnowInstance.velocityPercentX, SnowInstance.velocityPercentY,
        SnowInstance.fastEndIndex, SnowInstance.mediumEndIndex, not_lt.mpr h1, h2]
    · intro h
      have h1 : ¬ i < E.SNOWFLAKE_FAST_COUNT := by omega
      simp [SnowInstance.velocityPercentX, SnowInstance.velocityPercentY,
        SnowInstance.fastEndIndex, SnowInstance.mediumEndIndex, not_lt.mpr h, h1]
  · intro self
    rw [snow_update_eq, snow_animateUpTo_eq, min_self, hs]
  · intro self i p d t hlen hl2 hl3 hi hp hd ht
    obtain ⟨si, _, out, h1, _, _, h4, h5⟩ :=
      SnowInstance.update_cell E self dt aspectRatio random i (p, d, t) (by omega)
        (fun k hk => SnowInstance.cell_isSome self k (by omega) (by omega) (by omega))
        ((SnowInstance.cell_eq_some self i (p, d, t)).mpr ⟨hp, hd, ht⟩)
    exact ⟨si, out, h1, h4, h5⟩

/-- Under `sampleEnv` (3 fast, 2 medium, 1 slow) index 4 of the six-particle `sampleRain` is
a medium one: it is handled with the medium velocities, and the update returns. -/
theorem C18_tier_positional_witness :
    RainInstance.velocityPercentY sampleEnv 4 = RainInstance.mediumVelocityPercentY sampleEnv
    ∧ ∃ si out,
        RainInstance.animateUpTo sampleEnv 1 (8 / 5) 4 (sampleRain.particles, 0) = .ok si
        ∧ RainInstance.update sampleEnv sampleRain 1 (8 / 5) 0 = .ok out
        ∧ out.1.particles[4]? = some
            (animateRaindrop sampleEnv 1 (8 / 5) (RainInstance.velocityPercentX sampleEnv 4)
              (RainInstance.velocityPercentY sampleEnv 4) ⟨1 / 2, 1⟩ si.2).1 := by
  have h := C18_tier_positional sampleEnv 1 (8 / 5) 0
  exact ⟨((h.2.1 4).2.1 (by decide) (by decide)).2,
    h.2.2.2.1 sampleRain 4 ⟨1 / 2, 1⟩ (by decide) (by decide) rfl⟩

/-! ## Snow: direction changes -/

/-- C19: for a snow particle that is not respawned (`yPercent < 1`), `SnowInstance::update`
(which returns) first adds `dt` to the particle's direction-change timer. If the sum is
below `SNOWFLAKE_MIN_SECONDS_BEFORE_DIRECTION_CHANGE` it is the new timer, the direction flag
stays and nothing is drawn. Otherwise the new timer is `fmod` of the sum by the threshold
(for a positive threshold and a sum that is not negative: the sum minus a whole number of
thresholds, in `[0, threshold)`), the generator is handed to
`shouldSnowflakeChangeDirection`, and the flag is negated exactly when that returns true.
The displacement of the same update follows the flag the particle comes out with. -/
theorem C19_snow_direction_change {σ : Type} (E : Env σ) (self : SnowInstance)
    (dt aspectRatio : ℚ) (random : σ) (i : Nat) (p : Particle) (d : Bool) (t : ℚ)
    (hi : i < SnowInstance.slowEndIndex E)
    (hl1 : SnowInstance.slowEndIndex E ≤ self.particles.length)
    (hl2 : SnowInstance.slowEndIndex E ≤ self.directions.length)
    (hl3 : SnowInstance.slowEndIndex E ≤ self.lastDirectionChangeSeconds.length)
    (hp : self.particles[i]? = some p) (hd : self.directions[i]? = some d)
    (ht : self.lastDirectionChangeSeconds[i]? = some t) (hy : p.yPercent < 1) :
    ∃ si si1 out q d1 t1,
      SnowInstance.animateUpTo E dt aspectRatio i (self, random) = .ok si
      ∧ SnowInstance.animateUpTo E dt aspectRatio (i + 1) (self, random) = .ok si1
      ∧ SnowInstance.update E self dt aspectRatio random = .ok out
      ∧ out.1.particles[i]? = some q ∧ out.1.directions[i]? = some d1
      ∧ out.1.lastDirectionChangeSeconds[i]? = some t1
      ∧ (t + dt < E.SNOWFLAKE_MIN_SECONDS_BEFORE_DIRECTION_CHANGE →
          t1 = t + dt ∧ d1 = d ∧ si1.2 = si.2)
      ∧ (E.SNOWFLAKE_MIN_SECONDS_BEFORE_DIRECTION_CHANGE ≤ t + dt →
          t1 = fmod (t + dt) E.SNOWFLAKE_MIN_SECONDS_BEFORE_DIRECTION_CHANGE
          ∧ d1 = (if (E.shouldSnowflakeChangeDirection si.2).1 = true then !d else d)
          ∧ si1.2 = (E.shouldSnowflakeChangeDirection si.2).2)
      ∧ (0 < E.SNOWFLAKE_MIN_SECONDS_BEFORE_DIRECTION_CHANGE → 0 ≤ t + dt →
          ∃ n : ℕ, t + dt = n * E.SNOWFLAKE_MIN_SECONDS_BEFORE_DIRECTION_CHANGE
              + fmod (t + dt) E.SNOWFLAKE_MIN_SECONDS_BEFORE_DIRECTION_CHANGE
            ∧ 0 ≤ fmod (t + dt) E.SNOWFLAKE_MIN_SECONDS_BEFORE_DIRECTION_CHANGE
            ∧ fmod (t + dt) E.SNOWFLAKE_MIN_SECONDS_BEFORE_DIRECTION_CHANGE
                < E.SNOWFLAKE_MIN_SECONDS_BEFORE_DIRECTION_CHANGE)
      ∧ q.xPercent = p.xPercent
          + (SnowInstance.velocityPercentX E i * (if d1 = true then 1 else -1)
              * ( E.ASPECT_RATIO / aspectRatio) * (1 / 2)) * dt
      ∧ q.yPercent = p.yPercent + SnowInstance.velocityPercentY E i * dt := by
  obtain ⟨si, si1, out, h1, h2, h3, h4, h5, h6, h7⟩ :=
    SnowInstance.update_at E self dt aspectRatio random i p d t hi hl1 hl2 hl3 hp hd ht
  refine ⟨si, si1, out, _, _, _, h1, h2, h4, h5, h6, h7, ?_, ?_, ?_, ?_, ?_⟩
  · intro hlt
    rw [h3]
    simp [animateSnowflake, not_le.mpr hy, not_le.mpr hlt]
  · intro hge
    rw [h3]
    simp [animateSnowflake, not_le.mpr hy, hge]
  · intro hpos hnn
    exact fmod_of_nonneg _ _ hpos hnn
  · simp [animateSnowflake, not_le.mpr hy]
  · simp [animateSnowflake, not_le.mpr hy]

/-- In `sampleSnow` under `sampleEnv` (threshold 1/4 s) the particle at index 0 moves right
with its timer at 0; an update of 1 second with the generator at 0 takes the timer to
`fmod(1, 1/4) = 0` and, the policy saying so, turns the particle to the left. -/
theorem C19_snow_direction_change_witness :
    ∃ out, SnowInstance.update sampleEnv sampleSnow 1 (8 / 5) 0 = .ok out
      ∧ out.1.directions[0]? = some false
      ∧ out.1.lastDirectionChangeSeconds[0]? = some 0 := by
  obtain ⟨si, _, out, _, d1, t1, h1, _, h3, _, h5, h6, _, h8, _⟩ :=
    C19_snow_direction_change sampleEnv sampleSnow 1 (8 / 5) 0 0 ⟨1 / 2, 1 / 2⟩ true 0
      (by decide) (by decide) (by decide) (by decide) rfl rfl rfl (by norm_num)
  rw [snow_animateUpTo_zero] at h1
  have hsi : si = (sampleSnow, 0) := by injection h1 with h; exact h.symm
  subst hsi
  obtain ⟨ht1, hd1, _⟩ := h8 (by norm_num [sampleEnv])
  refine ⟨out, h3, ?_, ?_⟩
  · rw [h5, hd1]; simp [sampleEnv]
  · rw [h6, ht1]; norm_num [sampleEnv, fmod]

/-! ## Wilderness dungeon seeds -/

theorem land_low16 (x y : Nat) :
    Int.land (((y : Int) <<< (6 : Int)) + (x : Int)) 0xFFFF
      = (((64 * y + x) % 65536 : Nat) : Int) := by
  have h1 : ((y : Int) <<< (6 : Int)) = ((64 * y : Nat) : Int) := by
    have := Int.shiftLeft_eq_mul_pow (y : Int) 6
    simp only [Nat.cast_ofNat] at this
    rw [this]; push_cast; ring
  rw [h1]
  have h2 : (((64 * y : Nat) : Int) + (x : Int)) = ((64 * y + x : Nat) : Int) := by
    push_cast; ring
  rw [h2]
  have h3 : (0xFFFF : Int) = ((2 ^ 16 - 1 : Nat) : Int) := by norm_num
  rw [h3]
  show ((((64 * y + x) &&& (2 ^ 16 - 1) : Nat)) : Int) = _
  rw [Nat.and_pow_two_sub_one_eq_mod]

theorem land_low32 (n : Nat) (h : n < 2 ^ 32) : Nat.land n 0xFFFFFFFF = n := by
  have h1 : (0xFFFFFFFF : Nat) = 2 ^ 32 - 1 := by norm_num
  rw [h1]
  show n &&& (2 ^ 32 - 1) = n
  rw [Nat.and_pow_two_sub_one_eq_mod]
  exact Nat.mod_eq_of_lt h

/-- The value of `getWildDungeonSeed` on coordinates that are not negative. -/
theorem getWildDungeonSeed_eq (self : CityDefinition) (x y : Nat) :
    CityDefinition.getWildDungeonSeed self (x : Int) (y : Int)
      = (self.provinceSeed + (64 * y + x) % 65536) % 2 ^ 32 := by
  unfold CityDefinition.getWildDungeonSeed
  rw [land_low16, Int.toNat_ofNat]
  exact land_low32 _ (Nat.mod_lt _ (by norm_num))

/-- C24: `getWildDungeonSeed` is a function of the province seed and the block coordinates:
for `wildBlockX >= 0` and `wildBlockY >= 0` with `64 * wildBlockY + wildBlockX` in the range
of `int`, it returns `(provinceSeed + ((64 * wildBlockY + wildBlockX) mod 65536)) mod 2^32`,
so two blocks whose `64 * wildBlockY + wildBlockX` agree modulo 65536 get the same seed. -/
theorem C24_wild_dungeon_seed (self : CityDefinition) (wildBlockX wildBlockY : Int)
    (hx : 0 ≤ wildBlockX) (hy : 0 ≤ wildBlockY)
    (_hint : 64 * wildBlockY + wildBlockX < 2 ^ 31) :
    (CityDefinition.getWildDungeonSeed self wildBlockX wildBlockY : Int)
        = ((self.provinceSeed : Int) + (64 * wildBlockY + wildBlockX) % 65536) % 2 ^ 32
    ∧ ∀ (wildBlockX2 wildBlockY2 : Int), 0 ≤ wildBlockX2 → 0 ≤ wildBlockY2 →
        64 * wildBlockY2 + wildBlockX2 < 2 ^ 31 →
        (64 * wildBlockY2 + wildBlockX2) % 65536 = (64 * wildBlockY + wildBlockX) % 65536 →
        CityDefinition.getWildDungeonSeed self wildBlockX2 wildBlockY2
          = CityDefinition.getWildDungeonSeed self wildBlockX wildBlockY := by
  have key : ∀ (a b : Int), 0 ≤ a → 0 ≤ b →
      (CityDefinition.getWildDungeonSeed self a b : Int)
        = ((self.provinceSeed : Int) + (64 * b + a) % 65536) % 2 ^ 32 := by
    intro a b ha hb
    lift a to ℕ using ha
    lift b to ℕ using hb
    rw [getWildDungeonSeed_eq]
    push_cast
    rfl
  refine ⟨key _ _ hx hy, ?_⟩
  intro x2 y2 hx2 hy2 _ hmod
  have h1 := key _ _ hx hy
  have h2 := key _ _ hx2 hy2
  rw [hmod, ← h1] at h2
  exact_mod_cast h2

/-- With province seed 4294967295 the block (3, 2) has `64 * 2 + 3 = 131`, and the sum wraps
to 130. -/
theorem C24_wild_dungeon_seed_witness :
    (CityDefinition.getWildDungeonSeed { provinceSeed := 4294967295 } 3 2 : Int) = 130 := by
  rw [(C24_wild_dungeon_seed { provinceSeed := 4294967295 } 3 2 (by norm_num) (by norm_num)
    (by norm_num)).1]
  norm_num

/-- C29: for a fixed province seed, `getWildDungeonSeed` is injective on the blocks with
`0 <= wildBlockX < 64` and `0 <= wildBlockY < 1024`: two such blocks with the same seed are
the same block. Blocks whose `64 * wildBlockY + wildBlockX` differ by a multiple of 65536
(here: `wildBlockY` moved by a multiple of 1024) get the same seed. -/
theorem C29_wild_dungeon_seed_injective (self : CityDefinition)
    (x1 y1 x2 y2 : Int) (hx1 : 0 ≤ x1 ∧ x1 < 64) (hy1 : 0 ≤ y1 ∧ y1 < 1024)
    (hx2 : 0 ≤ x2 ∧ x2 < 64) (hy2 : 0 ≤ y2 ∧ y2 < 1024) :
    (CityDefinition.getWildDungeonSeed self x1 y1 = CityDefinition.getWildDungeonSeed self x2 y2 →
      x1 = x2 ∧ y1 = y2)
    ∧ ∀ k : Nat, CityDefinition.getWildDungeonSeed self x1 (y1 + 1024 * (k : Int))
        = CityDefinition.getWildDungeonSeed self x1 y1 := by
  obtain ⟨hx1a, hx1b⟩ := hx1
  obtain ⟨hy1a, hy1b⟩ := hy1
  obtain ⟨hx2a, hx2b⟩ := hx2
  obtain ⟨hy2a, hy2b⟩ := hy2
  lift x1 to ℕ using hx1a
  lift y1 to ℕ using hy1a
  lift x2 to ℕ using hx2a
  lift y2 to ℕ using hy2a
  have hx1c : x1 < 64 := by exact_mod_cast hx1b
  have hy1c : y1 < 1024 := by exact_mod_cast hy1b
  have hx2c : x2 < 64 := by exact_mod_cast hx2b
  have hy2c : y2 < 1024 := by exact_mod_cast hy2b
  constructor
  · intro h
    rw [getWildDungeonSeed_eq, getWildDungeonSeed_eq] at h
    norm_num at h
    have h3 : x1 = x2 ∧ y1 = y2 := by omega
    exact ⟨by exact_mod_cast h3.1, by exact_mod_cast h3.2⟩
  · intro k
    have hk : (y1 : Int) + 1024 * (k : Int) = ((y1 + 1024 * k : Nat) : Int) := by push_cast; ring
    rw [hk, getWildDungeonSeed_eq, getWildDungeonSeed_eq]
    have h4 : (64 * (y1 + 1024 * k) + x1) % 65536 = (64 * y1 + x1) % 65536 := by omega
    rw [h4]

/-- With province seed 7, the blocks (1, 0) and (0, 1) get different seeds. -/
theorem C29_wild_dungeon_seed_injective_witness :
    CityDefinition.getWildDungeonSeed { provinceSeed := 7 } 1 0
      ≠ CityDefinition.getWildDungeonSeed { provinceSeed := 7 } 0 1 := by
  intro h
  have h2 := (C29_wild_dungeon_seed_injective { provinceSeed := 7 } 1 0 0 1
    (by norm_num) (by norm_num) (by norm_num) (by norm_num)).1 h
  exact absurd h2.1 (by norm_num)

/-! ## Province map text position -/

/-- C30, as stated, fails: on the 320 x 200 screen of `sampleEnv`, `textWidth = -2147483648`
satisfies `textWidth <= SCREEN_WIDTH - 4`, but `SCREEN_WIDTH - textWidth - 2` overflows `int`
and wraps to -2147483330, and for `textX = 50` the function returns `x = -2147483330`, which
is below 2. -/
theorem C30_text_clamped_position_counterexample :
    (-2147483648 : Int) ≤ sampleEnv.SCREEN_WIDTH - 4
    ∧ (10 : Int) ≤ sampleEnv.SCREEN_HEIGHT - 4
    ∧ (ProvinceMapUiView.getLocationTextClampedPosition sampleEnv 50 60 (-2147483648) 10).x
        = -2147483330
    ∧ ¬ (2 ≤ (ProvinceMapUiView.getLocationTextClampedPosition sampleEnv 50 60
          (-2147483648) 10).x) := by
  have hx : (ProvinceMapUiView.getLocationTextClampedPosition sampleEnv 50 60
      (-2147483648) 10).x = -2147483330 := by
    simp only [ProvinceMapUiView.getLocationTextClampedPosition, sampleEnv, wrapInt32, clampInt]
    norm_num
  refine ⟨by norm_num [sampleEnv], by norm_num [sampleEnv], hx, ?_⟩
  rw [hx]
  norm_num

/-- C30 (amended): for `textWidth <= SCREEN_WIDTH - 4` and `textHeight <= SCREEN_HEIGHT - 4`
such that `SCREEN_WIDTH - textWidth` and `SCREEN_HEIGHT - textHeight` do not overflow `int`
(they are below `2^31`, as for every size that is not negative),
`getLocationTextClampedPosition` returns `(x, y)` with
`2 <= x <= SCREEN_WIDTH - textWidth - 2` and `2 <= y <= SCREEN_HEIGHT - textHeight - 2`,
for all `textX` and `textY`; it returns `(textX, textY)` when they lie in those ranges; and
applying it to its own result gives that result again. -/
theorem C30_text_clamped_position {σ : Type} (E : Env σ) (textX textY textWidth textHeight : Int)
    (hw : textWidth ≤ E.SCREEN_WIDTH - 4) (hh : textHeight ≤ E.SCREEN_HEIGHT - 4)
    (hwo : E.SCREEN_WIDTH - textWidth < 2147483648)
    (hho : E.SCREEN_HEIGHT - textHeight < 2147483648) :
    (2 ≤ (ProvinceMapUiView.getLocationTextClampedPosition E textX textY textWidth textHeight).x
      ∧ (ProvinceMapUiView.getLocationTextClampedPosition E textX textY textWidth textHeight).x
          ≤ E.SCREEN_WIDTH - textWidth - 2
      ∧ 2 ≤ (ProvinceMapUiView.getLocationTextClampedPosition E textX textY textWidth textHeight).y
      ∧ (ProvinceMapUiView.getLocationTextClampedPosition E textX textY textWidth textHeight).y
          ≤ E.SCREEN_HEIGHT - textHeight - 2)
    ∧ (2 ≤ textX → textX ≤ E.SCREEN_WIDTH - textWidth - 2 →
        2 ≤ textY → textY ≤ E.SCREEN_HEIGHT - textHeight - 2 →
        ProvinceMapUiView.getLocationTextClampedPosition E textX textY textWidth textHeight
          = { x := textX, y := textY })
    ∧ ProvinceMapUiView.getLocationTextClampedPosition E
        (ProvinceMapUiView.getLocationTextClampedPosition E textX textY textWidth textHeight).x
        (ProvinceMapUiView.getLocationTextClampedPosition E textX textY textWidth textHeight).y
        textWidth textHeight
      = ProvinceMapUiView.getLocationTextClampedPosition E textX textY textWidth textHeight := by
  have hc : ∀ v lo hi : Int, lo ≤ hi → lo ≤ clampInt v lo hi ∧ clampInt v lo hi ≤ hi := by
    intro v lo hi h
    unfold clampInt
    split_ifs <;> omega
  have hid : ∀ v lo hi : Int, lo ≤ v → v ≤ hi → clampInt v lo hi = v := by
    intro v lo hi h1 h2
    unfold clampInt
    split_ifs <;> omega
  have hwrap : ∀ d : Int, 4 ≤ d → d < 2147483648 → wrapInt32 (wrapInt32 d - 2) = d - 2 := by
    intro d h1 h2
    unfold wrapInt32
    omega
  have hwx := hwrap (E.SCREEN_WIDTH - textWidth) (by omega) hwo
  have hwy := hwrap (E.SCREEN_HEIGHT - textHeight) (by omega) hho
  have hx := hc textX 2 (E.SCREEN_WIDTH - textWidth - 2) (by omega)
  have hy := hc textY 2 (E.SCREEN_HEIGHT - textHeight - 2) (by omega)
  simp only [ProvinceMapUiView.getLocationTextClampedPosition, hwx, hwy]
  refine ⟨⟨hx.1, hx.2, hy.1, hy.2⟩, ?_, ?_⟩
  · intro h1 h2 h3 h4
    simp only [hid _ _ _ h1 h2, hid _ _ _ h3 h4]
  · simp only [hid _ _ _ hx.1 hx.2, hid _ _ _ hy.1 hy.2]

/-- On the 320 x 200 screen of `sampleEnv` a text of 100 x 10 placed at (50, 60) stays where
it is. -/
theorem C30_text_clamped_position_witness :
    ProvinceMapUiView.getLocationTextClampedPosition sampleEnv 50 60 100 10
      = { x := 50, y := 60 } :=
  (C30_text_clamped_position sampleEnv 50 60 100 10
    (by norm_num [sampleEnv]) (by norm_num [sampleEnv]) (by norm_num [sampleEnv])
    (by norm_num [sampleEnv])).2.1
    (by norm_num) (by norm_num [sampleEnv]) (by norm_num) (by norm_num [sampleEnv])

/-! ## Thunderstorm: the first lightning and the timers -/

theorem Thunderstorm.update_inactive {σ : Type} (E : Env σ) (self : Thunderstorm) (dt : ℚ)
    (g : σ) (hactive : self.active = false) : Thunderstorm.update E self dt g = (self, g) := by
  simp [Thunderstorm.update, hactive]

theorem Thunderstorm.updateMany_inactive {σ : Type} (E : Env σ) (self : Thunderstorm) (g : σ)
    (hactive : self.active = false) :
    ∀ dts : List ℚ, Thunderstorm.updateMany E dts (self, g) = (self, g) := by
  intro dts
  induction dts with
  | nil => rfl
  | cons dt dts ih =>
    simp only [Thunderstorm.updateMany, Thunderstorm.update_inactive E self dt g hactive]
    exact ih

/-- C21: for a positive `THUNDERSTORM_SKY_FLASH_SECONDS`, right after `Thunderstorm::init`
(`secondsSincePrevLightning` is +infinity) `getFlashPercent` returns 0 and
`isLightningBoltVisible` returns false, and so they do after any sequence of updates in
which nothing else writes the `active` flag, which `init` has set to false. -/
theorem C21_no_lightning_at_start {σ : Type} (E : Env σ) (flashColors : List (Fin 256))
    (random : σ) (hsky : 0 < E.THUNDERSTORM_SKY_FLASH_SECONDS) :
    Thunderstorm.getFlashPercent E (Thunderstorm.init E flashColors random).1 = Double.fin 0
    ∧ Thunderstorm.isLightningBoltVisible E (Thunderstorm.init E flashColors random).1 = false
    ∧ ∀ dts : List ℚ,
        Thunderstorm.getFlashPercent E
            (Thunderstorm.updateMany E dts (Thunderstorm.init E flashColors random)).1
          = Double.fin 0
        ∧ Thunderstorm.isLightningBoltVisible E
            (Thunderstorm.updateMany E dts (Thunderstorm.init E flashColors random)).1
          = false := by
  have h1 : Thunderstorm.getFlashPercent E (Thunderstorm.init E flashColors random).1
      = Double.fin 0 := by
    simp [Thunderstorm.getFlashPercent, Thunderstorm.init, Double.div, le_of_lt hsky,
      Double.sub, Double.clamp, Double.lt]
  have h2 : Thunderstorm.isLightningBoltVisible E (Thunderstorm.init E flashColors random).1
      = false := by
    simp [Thunderstorm.isLightningBoltVisible, Thunderstorm.init, Double.le]
  refine ⟨h1, h2, ?_⟩
  intro dts
  have h3 : Thunderstorm.updateMany E dts (Thunderstorm.init E flashColors random)
      = Thunderstorm.init E flashColors random :=
    Thunderstorm.updateMany_inactive E _ _ rfl dts
  rw [h3]
  exact ⟨h1, h2⟩

/-- Under `sampleEnv` a thunderstorm that has just been initialised and then updated twice
shows no flash. -/
theorem C21_no_lightning_at_start_witness :
    Thunderstorm.getFlashPercent sampleEnv
        (Thunderstorm.updateMany sampleEnv [1, 2] (Thunderstorm.init sampleEnv [1, 2, 3] 0)).1
      = Double.fin 0 :=
  ((C21_no_lightning_at_start sampleEnv [1, 2, 3] 0 (by norm_num [sampleEnv])).2.2 [1, 2]).1

/-- The timers of a thunderstorm after an update, whatever the `active` flag: if
`secondsUntilNextLightning` was in `(0, SKY + 5)` and `secondsSincePrevLightning` was not
negative, they still are. -/
theorem Thunderstorm.update_timers {σ : Type} (E : Env σ) (self : Thunderstorm) (dt : ℚ) (g : σ)
    (hsky : 0 < E.THUNDERSTORM_SKY_FLASH_SECONDS)
    (hgen : ∀ r, 0 ≤ (E.nextReal r).1 ∧ (E.nextReal r).1 < 1) (hdt : 0 ≤ dt)
    (h1 : 0 < self.secondsUntilNextLightning)
    (h2 : self.secondsUntilNextLightning < E.THUNDERSTORM_SKY_FLASH_SECONDS + 5)
    (h3 : Double.le (Double.fin 0) self.secondsSincePrevLightning = true) :
    0 < (Thunderstorm.update E self dt g).1.secondsUntilNextLightning
    ∧ (Thunderstorm.update E self dt g).1.secondsUntilNextLightning
        < E.THUNDERSTORM_SKY_FLASH_SECONDS + 5
    ∧ Double.le (Double.fin 0) (Thunderstorm.update E self dt g).1.secondsSincePrevLightning
        = true := by
  by_cases ha : self.active = true
  · by_cases hd : self.secondsUntilNextLightning - dt ≤ 0
    · have hr := hgen g
      simp only [Thunderstorm.update, ha, hd, if_true, MakeSecondsUntilNextLightning]
      refine ⟨by linarith, by linarith, ?_⟩
      simp [Double.le]
    · simp only [Thunderstorm.update, ha, hd, if_true, if_false]
      refine ⟨by linarith, by linarith, ?_⟩
      cases hs : self.secondsSincePrevLightning with
      | fin s =>
        rw [hs] at h3
        simp only [Double.le, decide_eq_true_eq] at h3
        simp only [Double.add, Double.le, decide_eq_true_eq]
        linarith
      | posInf => simp [Double.add, Double.le]
      | negInf => rw [hs] at h3; simp [Double.le] at h3
      | nan => rw [hs] at h3; simp [Double.le] at h3
  · simp only [Thunderstorm.update, ha]
    exact ⟨h1, h2, h3⟩

/-- C25: for a positive `THUNDERSTORM_SKY_FLASH_SECONDS` and a generator whose `nextReal` lies
in `[0, 1)`, after `Thunderstorm::init` and any sequence of `update` calls with `dt >= 0`,
the `active` flag being set to any value before each call,
`0 < secondsUntilNextLightning < THUNDERSTORM_SKY_FLASH_SECONDS + 5` and
`secondsSincePrevLightning >= 0`. -/
theorem C25_thunderstorm_timers {σ : Type} (E : Env σ) (flashColors : List (Fin 256))
    (random : σ) (calls : List (Bool × ℚ))
    (hsky : 0 < E.THUNDERSTORM_SKY_FLASH_SECONDS)
    (hgen : ∀ r, 0 ≤ (E.nextReal r).1 ∧ (E.nextReal r).1 < 1)
    (hdt : ∀ call ∈ calls, 0 ≤ call.2) :
    0 < (Thunderstorm.updateManyWithActive E calls
          (Thunderstorm.init E flashColors random)).1.secondsUntilNextLightning
    ∧ (Thunderstorm.updateManyWithActive E calls
          (Thunderstorm.init E flashColors random)).1.secondsUntilNextLightning
        < E.THUNDERSTORM_SKY_FLASH_SECONDS + 5
    ∧ Double.le (Double.fin 0) (Thunderstorm.updateManyWithActive E calls
          (Thunderstorm.init E flashColors random)).1.secondsSincePrevLightning = true := by
  have hstep : ∀ (calls : List (Bool × ℚ)) (s : Thunderstorm × σ),
      (∀ call ∈ calls, 0 ≤ call.2) →
      0 < s.1.secondsUntilNextLightning →
      s.1.secondsUntilNextLightning < E.THUNDERSTORM_SKY_FLASH_SECONDS + 5 →
      Double.le (Double.fin 0) s.1.secondsSincePrevLightning = true →
      0 < (Thunderstorm.updateManyWithActive E calls s).1.secondsUntilNextLightning
      ∧ (Thunderstorm.updateManyWithActive E calls s).1.secondsUntilNextLightning
          < E.THUNDERSTORM_SKY_FLASH_SECONDS + 5
      ∧ Double.le (Double.fin 0)
          (Thunderstorm.updateManyWithActive E calls s).1.secondsSincePrevLightning = true := by
    intro calls
    induction calls with
    | nil => intro s _ h1 h2 h3; exact ⟨h1, h2, h3⟩
    | cons call calls ih =>
      intro s hd h1 h2 h3
      simp only [Thunderstorm.updateManyWithActive]
      obtain ⟨k1, k2, k3⟩ := Thunderstorm.update_timers E { s.1 with active := call.1 } call.2
        s.2 hsky hgen (hd call (List.mem_cons_self _ _)) h1 h2 h3
      exact ih _ (fun c hc => hd c (List.mem_cons_of_mem _ hc)) k1 k2 k3
  have hr := hgen random
  refine hstep calls _ hdt ?_ ?_ ?_
  · simp only [Thunderstorm.init, MakeSecondsUntilNextLightning]; linarith
  · simp only [Thunderstorm.init, MakeSecondsUntilNextLightning]; linarith
  · simp [Thunderstorm.init, Double.le]

theorem sampleEnv_nextReal_range :
    ∀ r, 0 ≤ (sampleEnv.nextReal r).1 ∧ (sampleEnv.nextReal r).1 < 1 := by
  intro g
  have h4 : ((g % 4 : Nat) : ℚ) < 4 := by
    exact_mod_cast Nat.mod_lt g (by norm_num)
  constructor
  · simp only [sampleEnv]; positivity
  · simp only [sampleEnv]; linarith

/-- Under `sampleEnv`, after `init` and three updates with the flag set to true, false and
true, the next lightning is still ahead. -/
theorem C25_thunderstorm_timers_witness :
    0 < (Thunderstorm.updateManyWithActive sampleEnv [(true, 1), (false, 2), (true, 3)]
          (Thunderstorm.init sampleEnv [1, 2, 3] 0)).1.secondsUntilNextLightning :=
  (C25_thunderstorm_timers sampleEnv [1, 2, 3] 0 [(true, 1), (false, 2), (true, 3)]
    (by norm_num [sampleEnv]) sampleEnv_nextReal_range
    (by intro call hc; simp at hc; rcases hc with h | h | h <;> (rw [h]; norm_num))).1

/-! ## Loops that may halt: what a returning run preserves -/

theorem forCount_preserves {S : Type} (body : Nat → S → Except Fault S) (P : S → Prop)
    (hbody : ∀ j t t1, body j t = .ok t1 → P t → P t1) :
    ∀ (n i : Nat) (s s1 : S), forCount body n i s = .ok s1 → P s → P s1 := by
  intro n
  induction n with
  | zero =>
    intro i s s1 h hP
    simp only [forCount] at h
    injection h with h
    rw [← h]; exact hP
  | succ n ih =>
    intro i s s1 h hP
    simp only [forCount] at h
    cases hb : body i s with
    | error e => rw [hb] at h; simp at h
    | ok t1 =>
      rw [hb] at h
      exact ih (i + 1) t1 s1 h (hbody i s t1 hb hP)

theorem forRange_preserves {S : Type} (body : Nat → S → Except Fault S) (P : S → Prop)
    (hbody : ∀ j t t1, body j t = .ok t1 → P t → P t1) (a b : Nat) (s s1 : S)
    (h : forRange body a b s = .ok s1) (hP : P s) : P s1 :=
  forCount_preserves body P hbody (b - a) a s s1 h hP

/-! ## Rain: what every update keeps -/

theorem raindropStep_length {σ : Type} (E : Env σ) (dt aspectRatio vx vy : ℚ) (i : Nat)
    (s s1 : List Particle × σ) (h : raindropStep E dt aspectRatio vx vy i s = .ok s1) :
    s1.1.length = s.1.length := by
  unfold raindropStep at h
  cases hg : Buffer.get s.1 i with
  | error e => rw [hg] at h; simp at h
  | ok p =>
    rw [hg] at h
    simp only at h
    injection h with h
    rw [← h]
    simp

/-- A returning `RainInstance::update`, by cases on the thunderstorm: the particles are those
left by the three loops, and the thunderstorm, when there is one, is updated with the
generator the loops leave. -/
theorem rain_update_cases {σ : Type} (E : Env σ) (self : RainInstance) (dt aspectRatio : ℚ)
    (random : σ) (out : RainInstance × σ)
    (h : RainInstance.update E self dt aspectRatio random = .ok out) :
    ∃ s3, forRange (fun i => raindropStep E dt aspectRatio (RainInstance.velocityPercentX E i)
          (RainInstance.velocityPercentY E i) i) 0 (RainInstance.slowEndIndex E)
          (self.particles, random) = .ok s3
      ∧ out.1.particles = s3.1
      ∧ (self.thunderstorm = none → out.1.thunderstorm = none ∧ out.2 = s3.2)
      ∧ (∀ t, self.thunderstorm = some t →
          out.1.thunderstorm = some (Thunderstorm.update E t dt s3.2).1
          ∧ out.2 = (Thunderstorm.update E t dt s3.2).2) := by
  rw [rain_update_eq, rain_animateUpTo_eq, min_self] at h
  cases hf : forRange (fun i => raindropStep E dt aspectRatio (RainInstance.velocityPercentX E i)
      (RainInstance.velocityPercentY E i) i) 0 (RainInstance.slowEndIndex E)
      (self.particles, random) with
  | error e => rw [hf] at h; simp at h
  | ok s3 =>
    rw [hf] at h
    refine ⟨s3, rfl, ?_, ?_, ?_⟩
    · cases hth : self.thunderstorm with
      | none => rw [hth] at h; simp only at h; injection h with h; rw [← h]
      | some t => rw [hth] at h; simp only at h; injection h with h; rw [← h]
    · intro hth
      rw [hth] at h
      simp only at h
      injection h with h
      rw [← h]
      exact ⟨rfl, rfl⟩
    · intro t hth
      rw [hth] at h
      simp only at h
      injection h with h
      rw [← h]
      exact ⟨rfl, rfl⟩

theorem rain_update_length {σ : Type} (E : Env σ) (self : RainInstance) (dt aspectRatio : ℚ)
    (random : σ) (out : RainInstance × σ)
    (h : RainInstance.update E self dt aspectRatio random = .ok out) :
    out.1.particles.length = self.particles.length := by
  obtain ⟨s3, h1, h2, _, _⟩ := rain_update_cases E self dt aspectRatio random out h
  rw [h2]
  exact forRange_preserves _ (fun t => t.1.length = self.particles.length)
    (fun j t t1 hb hP => (raindropStep_length E dt aspectRatio _ _ j t t1 hb).trans hP)
    _ _ _ _ h1 rfl

theorem rain_update_returns {σ : Type} (E : Env σ) (self : RainInstance) (dt aspectRatio : ℚ)
    (random : σ) (hlen : RainInstance.slowEndIndex E ≤ self.particles.length) :
    ∃ out, RainInstance.update E self dt aspectRatio random = .ok out := by
  obtain ⟨s3, h1, _⟩ :=
    rain_generator_at E dt aspectRatio self.particles random (RainInstance.slowEndIndex E) hlen
  rw [rain_update_eq, rain_animateUpTo_eq, min_self, h1]
  cases self.thunderstorm <;> exact ⟨_, rfl⟩

/-- C22: a rain field made by `RainInstance::init` holds a thunderstorm exactly when
`isThunderstorm` is true, and `WeatherInstance::init` with a rain definition without
thunderstorm leaves none, whatever the rain payload held before. A returning
`RainInstance::update` has a thunderstorm exactly when there was one. On a field without
thunderstorm that holds every index the loops visit, `update` returns, still without
thunderstorm, and the generator has been advanced by two `nextReal` draws for each particle
that could be restarted and by nothing else. -/
theorem C22_thunderstorm_presence {σ : Type} (E : Env σ) (dt aspectRatio : ℚ) (random : σ) :
    (∀ (isThunderstorm : Bool) (flashColors : List (Fin 256)),
      (RainInstance.init E isThunderstorm flashColors random).1.thunderstorm.isSome
        = isThunderstorm)
    ∧ (∀ (prior : WeatherInstance) (weatherDef : WeatherDefinition)
        (flashColors : List (Fin 256)),
      weatherDef.type = WeatherDefinitionType.Rain → weatherDef.rain.thunderstorm = false →
      ∃ out, WeatherInstance.init E prior weatherDef flashColors random = .ok out
        ∧ out.1.rain.thunderstorm = none)
    ∧ (∀ (self : RainInstance) (out : RainInstance × σ),
      RainInstance.update E self dt aspectRatio random = .ok out →
      out.1.thunderstorm.isSome = self.thunderstorm.isSome)
    ∧ (∀ self : RainInstance, self.thunderstorm = none →
      RainInstance.slowEndIndex E ≤ self.particles.length →
      ∃ out, RainInstance.update E self dt aspectRatio random = .ok out
        ∧ out.1.thunderstorm = none
        ∧ out.2 = (E.afterTwoReals)^[List.countP RainInstance.canBeRestarted
            (List.take (RainInstance.slowEndIndex E) self.particles)] random) := by
  refine ⟨?_, ?_, ?_, ?_⟩
  · intro isThunderstorm flashColors
    cases isThunderstorm <;> simp [RainInstance.init]
  · intro prior weatherDef flashColors h1 h2
    have hinit : WeatherInstance.init E prior weatherDef flashColors random
        = .ok ({ prior with
                 type := WeatherInstanceType.Rain
                 rain := (RainInstance.init E weatherDef.rain.thunderstorm flashColors random).1 },
               (RainInstance.init E weatherDef.rain.thunderstorm flashColors random).2) := by
      simp [WeatherInstance.init, h1]
    refine ⟨_, hinit, ?_⟩
    simp [h2, RainInstance.init]
  · intro self out h
    obtain ⟨s3, _, _, h3, h4⟩ := rain_update_cases E self dt aspectRatio random out h
    cases hth : self.thunderstorm with
    | none => rw [(h3 hth).1]
    | some t => rw [(h4 t hth).1]; rfl
  · intro self hth hlen
    obtain ⟨out, hout⟩ := rain_update_returns E self dt aspectRatio random hlen
    obtain ⟨s3, h1, _, h3, _⟩ := rain_update_cases E self dt aspectRatio random out hout
    obtain ⟨s4, h5, h6⟩ :=
      rain_generator_at E dt aspectRatio self.particles random (RainInstance.slowEndIndex E) hlen
    have hs : s3 = s4 := by
      rw [h1] at h5
      injection h5
    refine ⟨out, hout, (h3 hth).1, ?_⟩
    rw [(h3 hth).2, hs, h6]

/-- The rain field `sampleRain` has no thunderstorm; an update returns without one. -/
theorem C22_thunderstorm_presence_witness :
    ∃ out, RainInstance.update sampleEnv sampleRain 1 (8 / 5) 0 = .ok out
      ∧ out.1.thunderstorm = none := by
  obtain ⟨out, h1, h2, _⟩ :=
    (C22_thunderstorm_presence sampleEnv 1 (8 / 5) 0).2.2.2 sampleRain rfl (by decide)
  exact ⟨out, h1, h2⟩

theorem weather_update_rain {σ : Type} (E : Env σ) (w : WeatherInstance) (dt aspectRatio : ℚ)
    (g : σ) (out : WeatherInstance × σ) (htype : w.type = WeatherInstanceType.Rain)
    (h : WeatherInstance.update E w dt aspectRatio g = .ok out) :
    ∃ r, RainInstance.update E w.rain dt aspectRatio g = .ok r
      ∧ out.1.type = w.type ∧ out.1.rain = r.1 ∧ out.1.snow = w.snow ∧ out.2 = r.2 := by
  cases hr : RainInstance.update E w.rain dt aspectRatio g with
  | error e => simp [WeatherInstance.update, htype, hr] at h
  | ok r =>
    simp only [WeatherInstance.update, htype, hr] at h
    simp only [reduceCtorEq, if_false, if_true] at h
    injection h with h
    rw [← h]
    exact ⟨r, rfl, htype.symm, rfl, rfl, rfl⟩

/-- C28: `Thunderstorm::update` leaves the `active` flag and the flash colours as they are,
and so does a returning `RainInstance::update` for the thunderstorm of its field. After
`WeatherInstance::init` with a rain definition that is a thunderstorm, the thunderstorm is
not active, `secondsSincePrevLightning` is +infinity and `lightningBoltAngle` is 0; and after
any sequence of `WeatherInstance::update` calls on that instance, nothing else writing to
it, the thunderstorm is the one `init` made: no lightning has struck, and
`secondsSincePrevLightning`, `secondsUntilNextLightning` and `lightningBoltAngle` have their
initial values. The updates return when the field holds every index the loops visit. -/
theorem C28_lightning_never_triggers {σ : Type} (E : Env σ) (prior : WeatherInstance)
    (weatherDef : WeatherDefinition) (flashColors : List (Fin 256)) (random : σ)
    (htype : weatherDef.type = WeatherDefinitionType.Rain)
    (hstorm : weatherDef.rain.thunderstorm = true) :
    (∀ (t : Thunderstorm) (dt : ℚ) (g : σ),
      (Thunderstorm.update E t dt g).1.active = t.active
      ∧ (Thunderstorm.update E t dt g).1.flashColors = t.flashColors)
    ∧ (∀ (self : RainInstance) (dt aspectRatio : ℚ) (g : σ) (out : RainInstance × σ)
        (t : Thunderstorm),
      RainInstance.update E self dt aspectRatio g = .ok out → self.thunderstorm = some t →
      ∃ t1, out.1.thunderstorm = some t1 ∧ t1.active = t.active
        ∧ t1.flashColors = t.flashColors)
    ∧ ∃ w0 t0, WeatherInstance.init E prior weatherDef flashColors random = .ok w0
        ∧ w0.1.rain.thunderstorm = some t0
        ∧ t0.active = false
        ∧ t0.secondsSincePrevLightning = Double.posInf
        ∧ t0.lightningBoltAngle = 0
        ∧ (∀ (calls : List (ℚ × ℚ)) (out : WeatherInstance × σ),
            WeatherInstance.updateMany E calls w0 = .ok out →
            out.1.rain.thunderstorm = some t0)
        ∧ (RainInstance.slowEndIndex E ≤ E.RAINDROP_TOTAL_COUNT →
            ∀ calls : List (ℚ × ℚ), ∃ out, WeatherInstance.updateMany E calls w0 = .ok out) := by
  have hflag : ∀ (t : Thunderstorm) (dt : ℚ) (g : σ),
      (Thunderstorm.update E t dt g).1.active = t.active
      ∧ (Thunderstorm.update E t dt g).1.flashColors = t.flashColors := by
    intro t dt g
    by_cases ha : t.active = true
    · by_cases hd : t.secondsUntilNextLightning - dt ≤ 0
      · simp [Thunderstorm.update, ha, hd]
      · simp [Thunderstorm.update, ha, hd]
    · simp [Thunderstorm.update, ha]
  refine ⟨hflag, ?_, ?_⟩
  · intro self dt aspectRatio g out t h hth
    obtain ⟨s3, _, _, _, h4⟩ := rain_update_cases E self dt aspectRatio g out h
    exact ⟨_, (h4 t hth).1, (hflag t dt s3.2).1, (hflag t dt s3.2).2⟩
  · have hinit : WeatherInstance.init E prior weatherDef flashColors random
        = .ok ({ prior with
                 type := WeatherInstanceType.Rain
                 rain := (RainInstance.init E weatherDef.rain.thunderstorm flashColors random).1 },
               (RainInstance.init E weatherDef.rain.thunderstorm flashColors random).2) := by
      simp [WeatherInstance.init, htype]
    have hth : (RainInstance.init E weatherDef.rain.thunderstorm flashColors random).1.thunderstorm
        = some (Thunderstorm.init E flashColors
            (initParticles E E.RAINDROP_TOTAL_COUNT random).2).1 := by
      simp [RainInstance.init, hstorm]
    have hlen0 : (RainInstance.init E weatherDef.rain.thunderstorm flashColors
        random).1.particles.length = E.RAINDROP_TOTAL_COUNT := by
      simp [RainInstance.init, hstorm, initParticles_length]
    have hkeep : ∀ (calls : List (ℚ × ℚ)) (w : WeatherInstance × σ),
        w.1.type = WeatherInstanceType.Rain →
        w.1.rain.thunderstorm = some (Thunderstorm.init E flashColors
            (initParticles E E.RAINDROP_TOTAL_COUNT random).2).1 →
        ∀ out, WeatherInstance.updateMany E calls w = .ok out →
          out.1.rain.thunderstorm = some (Thunderstorm.init E flashColors
            (initParticles E E.RAINDROP_TOTAL_COUNT random).2).1 := by
      intro calls
      induction calls with
      | nil =>
        intro w _ h2 out h
        simp only [WeatherInstance.updateMany] at h
        injection h with h
        rw [← h]; exact h2
      | cons call calls ih =>
        intro w h1 h2 out h
        simp only [WeatherInstance.updateMany] at h
        cases hu : WeatherInstance.update E w.1 call.1 call.2 w.2 with
        | error e => rw [hu] at h; simp at h
        | ok w1 =>
          rw [hu] at h
          obtain ⟨r, hr, k1, k2, _, _⟩ := weather_update_rain E w.1 call.1 call.2 w.2 w1 h1 hu
          obtain ⟨s3, _, _, _, k5⟩ := rain_update_cases E w.1.rain call.1 call.2 w.2 r hr
          refine ih w1 (k1.trans h1) ?_ out h
          rw [k2, (k5 _ h2).1, Thunderstorm.update_inactive E _ _ _ rfl]
    have hruns : RainInstance.slowEndIndex E ≤ E.RAINDROP_TOTAL_COUNT →
        ∀ (calls : List (ℚ × ℚ)) (w : WeatherInstance × σ),
        w.1.type = WeatherInstanceType.Rain →
        w.1.rain.particles.length = E.RAINDROP_TOTAL_COUNT →
        ∃ out, WeatherInstance.updateMany E calls w = .ok out := by
      intro htotal calls
      induction calls with
      | nil => intro w _ _; exact ⟨w, rfl⟩
      | cons call calls ih =>
        intro w h1 h2
        obtain ⟨r, hr⟩ := rain_update_returns E w.1.rain call.1 call.2 w.2 (by omega)
        have hu : WeatherInstance.update E w.1 call.1 call.2 w.2
            = .ok ({ w.1 with rain := r.1 }, r.2) := by
          simp [WeatherInstance.update, h1, hr]
        simp only [WeatherInstance.updateMany, hu]
        exact ih _ h1 ((rain_update_length E w.1.rain call.1 call.2 w.2 r hr).trans h2)
    refine ⟨_, _, hinit, hth, rfl, rfl, rfl, ?_, ?_⟩
    · intro calls out h
      exact hkeep calls _ rfl hth out h
    · intro htotal calls
      exact hruns htotal calls _ rfl hlen0

/-- Under `sampleEnv`, a new instance initialised as a thunderstorm and updated twice still
has the thunderstorm `init` made, with `secondsSincePrevLightning` at +infinity. -/
theorem C28_lightning_never_triggers_witness :
    ∃ w0 t0 out,
      WeatherInstance.init sampleEnv WeatherInstance.new
          { type := WeatherDefinitionType.Rain, rain := { thunderstorm := true } } [1, 2, 3] 0
        = .ok w0
      ∧ WeatherInstance.updateMany sampleEnv [(1, 8 / 5), (2, 8 / 5)] w0 = .ok out
      ∧ out.1.rain.thunderstorm = some t0
      ∧ t0.secondsSincePrevLightning = Double.posInf := by
  obtain ⟨_, _, w0, t0, h1, _, _, h4, _, h6, h7⟩ :=
    C28_lightning_never_triggers sampleEnv WeatherInstance.new
      { type := WeatherDefinitionType.Rain, rain := { thunderstorm := true } } [1, 2, 3] 0
      rfl rfl
  obtain ⟨out, hout⟩ := h7 (by decide) [(1, 8 / 5), (2, 8 / 5)]
  exact ⟨w0, t0, out, h1, hout, h6 _ out hout, h4⟩

/-! ## Snow: what every update keeps -/

theorem snowflakeStep_lengths {σ : Type} (E : Env σ) (dt aspectRatio vx vy : ℚ) (i : Nat)
    (s s1 : SnowInstance × σ) (h : snowflakeStep E dt aspectRatio vx vy i s = .ok s1) :
    s1.1.particles.length = s.1.particles.length
    ∧ s1.1.directions.length = s.1.directions.length
    ∧ s1.1.lastDirectionChangeSeconds.length = s.1.lastDirectionChangeSeconds.length := by
  unfold snowflakeStep at h
  cases hg : Buffer.get s.1.particles i with
  | error e => rw [hg] at h; simp at h
  | ok p =>
    rw [hg] at h
    simp only at h
    by_cases hy : p.yPercent ≥ 1
    · simp only [hy, decide_True, if_true] at h
      cases hd : Buffer.set s.1.directions i
          (MakeSnowflakeDirection E (E.nextReal s.2).2).1 with
      | error e => rw [hd] at h; simp at h
      | ok ds =>
        rw [hd] at h
        simp only at h
        injection h with h
        have hds : ds.length = s.1.directions.length := by
          unfold Buffer.set at hd
          split_ifs at hd
          injection hd with hd
          rw [← hd]; simp
        rw [← h]
        simp [hds]
    · simp only [hy, decide_False, Bool.false_eq_true, if_false] at h
      cases ht : Buffer.get s.1.lastDirectionChangeSeconds i with
      | error e => rw [ht] at h; simp at h
      | ok t =>
        cases hd : Buffer.get s.1.directions i with
        | error e => rw [ht, hd] at h; simp at h
        | ok d =>
          rw [ht, hd] at h
          simp only at h
          injection h with h
          rw [← h]
          simp

theorem snow_update_lengths {σ : Type} (E : Env σ) (self : SnowInstance) (dt aspectRatio : ℚ)
    (random : σ) (out : SnowInstance × σ)
    (h : SnowInstance.update E self dt aspectRatio random = .ok out) :
    out.1.particles.length = self.particles.length
    ∧ out.1.directions.length = self.directions.length
    ∧ out.1.lastDirectionChangeSeconds.length = self.lastDirectionChangeSeconds.length := by
  rw [snow_update_eq, snow_animateUpTo_eq, min_self] at h
  exact forRange_preserves _
    (fun t => t.1.particles.length = self.particles.length
      ∧ t.1.directions.length = self.directions.length
      ∧ t.1.lastDirectionChangeSeconds.length = self.lastDirectionChangeSeconds.length)
    (fun j t t1 hb hP =>
      ⟨(snowflakeStep_lengths E dt aspectRatio _ _ j t t1 hb).1.trans hP.1,
       (snowflakeStep_lengths E dt aspectRatio _ _ j t t1 hb).2.1.trans hP.2.1,
       (snowflakeStep_lengths E dt aspectRatio _ _ j t t1 hb).2.2.trans hP.2.2⟩)
    _ _ _ _ h ⟨rfl, rfl, rfl⟩

theorem snow_update_returns {σ : Type} (E : Env σ) (self : SnowInstance) (dt aspectRatio : ℚ)
    (random : σ) (hl1 : SnowInstance.slowEndIndex E ≤ self.particles.length)
    (hl2 : SnowInstance.slowEndIndex E ≤ self.directions.length)
    (hl3 : SnowInstance.slowEndIndex E ≤ self.lastDirectionChangeSeconds.length) :
    ∃ out, SnowInstance.update E self dt aspectRatio random = .ok out := by
  rw [snow_update_eq, snow_animateUpTo_eq, min_self]
  obtain ⟨out, hout, _⟩ := forRange_invariant
    (fun i => snowflakeStep E dt aspectRatio (SnowInstance.velocityPercentX E i)
      (SnowInstance.velocityPercentY E i) i)
    (fun (_ : Nat) (t : SnowInstance × σ) =>
      t.1.particles.length = self.particles.length
      ∧ t.1.directions.length = self.directions.length
      ∧ t.1.lastDirectionChangeSeconds.length = self.lastDirectionChangeSeconds.length)
    0 (SnowInstance.slowEndIndex E) (self, random) (Nat.zero_le _) ⟨rfl, rfl, rfl⟩
    (by
      intro j t _ hj hP
      obtain ⟨c, hc⟩ := Option.isSome_iff_exists.mp
        (SnowInstance.cell_isSome t.1 j (by omega) (by omega) (by omega))
      obtain ⟨t1, ht1, _⟩ := snowflakeStep_cell E dt aspectRatio
        (SnowInstance.velocityPercentX E j) (SnowInstance.velocityPercentY E j) j t c hc
      have hl := snowflakeStep_lengths E dt aspectRatio _ _ j t t1 ht1
      exact ⟨t1, ht1, hl.1.trans hP.1, hl.2.1.trans hP.2.1, hl.2.2.trans hP.2.2⟩)
  exact ⟨out, hout⟩

theorem initParticles_snd {σ : Type} (E : Env σ) :
    ∀ (count : Nat) (g : σ), (initParticles E count g).2 = (E.afterTwoReals)^[count] g := by
  intro count
  induction count with
  | zero => intro g; rfl
  | succ n ih =>
    intro g
    simp only [initParticles, ih, Function.iterate_succ_apply]
    rfl

theorem initDirections_length {σ : Type} (E : Env σ) :
    ∀ (count : Nat) (g : σ), (initDirections E count g).1.length = count := by
  intro count
  induction count with
  | zero => intro g; rfl
  | succ n ih => intro g; simp [initDirections, ih]

theorem initDirections_getElem {σ : Type} (E : Env σ) :
    ∀ (count : Nat) (g : σ) (k : Nat), k < count →
      (initDirections E count g).1[k]?
        = some (decide (Int.tmod (E.next ((fun r => (E.next r).2)^[k] g)).1 2 ≠ 0)) := by
  intro count
  induction count with
  | zero => intro g k hk; omega
  | succ n ih =>
    intro g k hk
    cases k with
    | zero => simp [initDirections, MakeSnowflakeDirection]
    | succ k =>
      simp only [initDirections, List.getElem?_cons_succ]
      rw [ih _ k (by omega)]
      simp only [MakeSnowflakeDirection, Function.iterate_succ_apply]

theorem snow_updateMany_lengths {σ : Type} (E : Env σ) :
    ∀ (calls : List (ℚ × ℚ)) (s out : SnowInstance × σ),
      SnowInstance.updateMany E calls s = .ok out →
      out.1.particles.length = s.1.particles.length
      ∧ out.1.directions.length = s.1.directions.length
      ∧ out.1.lastDirectionChangeSeconds.length = s.1.lastDirectionChangeSeconds.length := by
  intro calls
  induction calls with
  | nil =>
    intro s out h
    simp only [SnowInstance.updateMany] at h
    injection h with h
    rw [← h]; exact ⟨rfl, rfl, rfl⟩
  | cons call calls ih =>
    intro s out h
    simp only [SnowInstance.updateMany] at h
    cases hu : SnowInstance.update E s.1 call.1 call.2 s.2 with
    | error e => rw [hu] at h; simp at h
    | ok s1 =>
      rw [hu] at h
      have h1 := snow_update_lengths E s.1 call.1 call.2 s.2 s1 hu
      have h2 := ih s1 out h
      exact ⟨h2.1.trans h1.1, h2.2.1.trans h1.2.1, h2.2.2.trans h1.2.2⟩

theorem snow_updateMany_returns {σ : Type} (E : Env σ) :
    ∀ (calls : List (ℚ × ℚ)) (s : SnowInstance × σ),
      SnowInstance.slowEndIndex E ≤ s.1.particles.length →
      SnowInstance.slowEndIndex E ≤ s.1.directions.length →
      SnowInstance.slowEndIndex E ≤ s.1.lastDirectionChangeSeconds.length →
      ∃ out, SnowInstance.updateMany E calls s = .ok out := by
  intro calls
  induction calls with
  | nil => intro s _ _ _; exact ⟨s, rfl⟩
  | cons call calls ih =>
    intro s h1 h2 h3
    obtain ⟨s1, hs1⟩ := snow_update_returns E s.1 call.1 call.2 s.2 h1 h2 h3
    have hl := snow_update_lengths E s.1 call.1 call.2 s.2 s1 hs1
    simp only [SnowInstance.updateMany, hs1]
    exact ih s1 (by omega) (by omega) (by omega)

theorem rain_updateMany_length {σ : Type} (E : Env σ) :
    ∀ (calls : List (ℚ × ℚ)) (s out : RainInstance × σ),
      RainInstance.updateMany E calls s = .ok out →
      out.1.particles.length = s.1.particles.length := by
  intro calls
  induction calls with
  | nil =>
    intro s out h
    simp only [RainInstance.updateMany] at h
    injection h with h
    rw [← h]
  | cons call calls ih =>
    intro s out h
    simp only [RainInstance.updateMany] at h
    cases hu : RainInstance.update E s.1 call.1 call.2 s.2 with
    | error e => rw [hu] at h; simp at h
    | ok s1 =>
      rw [hu] at h
      exact (ih s1 out h).trans (rain_update_length E s.1 call.1 call.2 s.2 s1 hu)

/-- C23: right after `SnowInstance::init` the particle, direction and timer buffers all hold
`SNOWFLAKE_TOTAL_COUNT` entries, every timer is 0, and direction `k` is
`(random.next() % 2) != 0` for the `k`-th `next()` after the generator has placed all the
particles (two `nextReal` draws each). A returning `SnowInstance::update` changes none of
the three lengths, so in every state reached from `init` by update calls the three buffers
hold `SNOWFLAKE_TOTAL_COUNT` entries and share their indices; such calls return when the
loops stay within that count. A returning `RainInstance::update` keeps the particle count,
which is `RAINDROP_TOTAL_COUNT` in every state reached from `RainInstance::init`. -/
theorem C23_snow_parallel_buffers {σ : Type} (E : Env σ) (random : σ) :
    ((SnowInstance.init E random).1.particles.length = E.SNOWFLAKE_TOTAL_COUNT
      ∧ (SnowInstance.init E random).1.directions.length = E.SNOWFLAKE_TOTAL_COUNT
      ∧ (SnowInstance.init E random).1.lastDirectionChangeSeconds.length
          = E.SNOWFLAKE_TOTAL_COUNT)
    ∧ (∀ k, k < E.SNOWFLAKE_TOTAL_COUNT →
        (SnowInstance.init E random).1.lastDirectionChangeSeconds[k]? = some 0
        ∧ (SnowInstance.init E random).1.directions[k]?
            = some (decide (Int.tmod (E.next ((fun r => (E.next r).2)^[k]
                ((E.afterTwoReals)^[E.SNOWFLAKE_TOTAL_COUNT] random))).1 2 ≠ 0)))
    ∧ (∀ (self : SnowInstance) (dt aspectRatio : ℚ) (g : σ) (out : SnowInstance × σ),
        SnowInstance.update E self dt aspectRatio g = .ok out →
        out.1.particles.length = self.particles.length
        ∧ out.1.directions.length = self.directions.length
        ∧ out.1.lastDirectionChangeSeconds.length = self.lastDirectionChangeSeconds.length)
    ∧ (∀ (calls : List (ℚ × ℚ)) (out : SnowInstance × σ),
        SnowInstance.updateMany E calls (SnowInstance.init E random) = .ok out →
        out.1.particles.length = E.SNOWFLAKE_TOTAL_COUNT
        ∧ out.1.directions.length = out.1.particles.length
        ∧ out.1.lastDirectionChangeSeconds.length = out.1.particles.length)
    ∧ (SnowInstance.slowEndIndex E ≤ E.SNOWFLAKE_TOTAL_COUNT →
        ∀ calls : List (ℚ × ℚ),
          ∃ out, SnowInstance.updateMany E calls (SnowInstance.init E random) = .ok out)
    ∧ (∀ (self : RainInstance) (dt aspectRatio : ℚ) (g : σ) (out : RainInstance × σ),
        RainInstance.update E self dt aspectRatio g = .ok out →
        out.1.particles.length = self.particles.length)
    ∧ (∀ (isThunderstorm : Bool) (flashColors : List (Fin 256)) (calls : List (ℚ × ℚ))
        (out : RainInstance × σ),
        RainInstance.updateMany E calls (RainInstance.init E isThunderstorm flashColors random)
          = .ok out →
        out.1.particles.length = E.RAINDROP_TOTAL_COUNT) := by
  have hp : (SnowInstance.init E random).1.particles.length = E.SNOWFLAKE_TOTAL_COUNT := by
    simp [SnowInstance.init, initParticles_length]
  have hd : (SnowInstance.init E random).1.directions.length = E.SNOWFLAKE_TOTAL_COUNT := by
    simp [SnowInstance.init, initParticles_length, initDirections_length]
  have ht : (SnowInstance.init E random).1.lastDirectionChangeSeconds.length
      = E.SNOWFLAKE_TOTAL_COUNT := by
    simp [SnowInstance.init, initParticles_length]
  refine ⟨⟨hp, hd, ht⟩, ?_, ?_, ?_, ?_, ?_, ?_⟩
  · intro k hk
    constructor
    · simp [SnowInstance.init, initParticles_length, hk]
    · simp only [SnowInstance.init, initParticles_length, initParticles_snd]
      exact initDirections_getElem E _ _ k hk
  · intro self dt aspectRatio g out h
    exact snow_update_lengths E self dt aspectRatio g out h
  · intro calls out h
    have hl := snow_updateMany_lengths E calls _ out h
    exact ⟨hl.1.trans hp, by rw [hl.2.1, hl.1, hd, hp], by rw [hl.2.2, hl.1, ht, hp]⟩
  · intro htotal calls
    exact snow_updateMany_returns E calls _ (by omega) (by omega) (by omega)
  · intro self dt aspectRatio g out h
    exact rain_update_length E self dt aspectRatio g out h
  · intro isThunderstorm flashColors calls out h
    rw [rain_updateMany_length E calls _ out h]
    cases isThunderstorm <;> simp [RainInstance.init, initParticles_length]

/-- Under `sampleEnv` two updates of the snow field made by `init` return, and the three
buffers of the result hold six entries each. -/
theorem C23_snow_parallel_buffers_witness :
    ∃ out, SnowInstance.updateMany sampleEnv [(1, 8 / 5), (1 / 2, 4 / 3)]
        (SnowInstance.init sampleEnv 0) = .ok out
      ∧ out.1.particles.length = 6 ∧ out.1.directions.length = 6
      ∧ out.1.lastDirectionChangeSeconds.length = 6 := by
  have h := C23_snow_parallel_buffers sampleEnv 0
  obtain ⟨out, hout⟩ := h.2.2.2.2.1 (by decide) [(1, 8 / 5), (1 / 2, 4 / 3)]
  obtain ⟨h1, h2, h3⟩ := h.2.2.2.1 _ out hout
  exact ⟨out, hout, h1, h2.trans h1, h3.trans h1⟩

/-! ## Snow: the range of the direction-change timers -/

theorem Buffer.get_mem {α : Type} (buffer : List α) (i : Nat) (v : α)
    (h : Buffer.get buffer i = .ok v) : v ∈ buffer := by
  unfold Buffer.get at h
  cases hg : buffer[i]? with
  | none => rw [hg] at h; simp at h
  | some w =>
    rw [hg] at h
    simp only at h
    injection h with h
    rw [← h]
    exact List.getElem?_mem hg

theorem snowflakeStep_timers {σ : Type} (E : Env σ) (dt aspectRatio vx vy : ℚ) (i : Nat)
    (s s1 : SnowInstance × σ)
    (hmin : 0 < E.SNOWFLAKE_MIN_SECONDS_BEFORE_DIRECTION_CHANGE) (hdt : 0 ≤ dt)
    (h : snowflakeStep E dt aspectRatio vx vy i s = .ok s1)
    (hP : ∀ t ∈ s.1.lastDirectionChangeSeconds,
      0 ≤ t ∧ t < E.SNOWFLAKE_MIN_SECONDS_BEFORE_DIRECTION_CHANGE) :
    ∀ t ∈ s1.1.lastDirectionChangeSeconds,
      0 ≤ t ∧ t < E.SNOWFLAKE_MIN_SECONDS_BEFORE_DIRECTION_CHANGE := by
  unfold snowflakeStep at h
  cases hg : Buffer.get s.1.particles i with
  | error e => rw [hg] at h; simp at h
  | ok p =>
    rw [hg] at h
    simp only at h
    by_cases hy : p.yPercent ≥ 1
    · simp only [hy, decide_True, if_true] at h
      cases hd : Buffer.set s.1.directions i
          (MakeSnowflakeDirection E (E.nextReal s.2).2).1 with
      | error e => rw [hd] at h; simp at h
      | ok ds =>
        rw [hd] at h
        simp only at h
        injection h with h
        rw [← h]
        exact hP
    · simp only [hy, decide_False, Bool.false_eq_true, if_false] at h
      cases ht : Buffer.get s.1.lastDirectionChangeSeconds i with
      | error e => rw [ht] at h; simp at h
      | ok t0 =>
        cases hd : Buffer.get s.1.directions i with
        | error e => rw [ht, hd] at h; simp at h
        | ok d =>
          rw [ht, hd] at h
          simp only at h
          injection h with h
          rw [← h]
          intro t hmem
          have ht0 := hP t0 (Buffer.get_mem _ _ _ ht)
          rcases List.mem_or_eq_of_mem_set hmem with hold | hnew
          · exact hP t hold
          · rw [hnew]
            by_cases hge : t0 + dt ≥ E.SNOWFLAKE_MIN_SECONDS_BEFORE_DIRECTION_CHANGE
            · simp only [hge, if_true]
              obtain ⟨_, _, k1, k2⟩ := fmod_of_nonneg (t0 + dt)
                E.SNOWFLAKE_MIN_SECONDS_BEFORE_DIRECTION_CHANGE hmin (by linarith)
              exact ⟨k1, k2⟩
            · simp only [hge, if_false]
              exact ⟨by linarith, not_le.mp hge⟩

theorem snow_update_timers {σ : Type} (E : Env σ) (self : SnowInstance) (dt aspectRatio : ℚ)
    (random : σ) (out : SnowInstance × σ)
    (hmin : 0 < E.SNOWFLAKE_MIN_SECONDS_BEFORE_DIRECTION_CHANGE) (hdt : 0 ≤ dt)
    (h : SnowInstance.update E self dt aspectRatio random = .ok out)
    (hP : ∀ t ∈ self.lastDirectionChangeSeconds,
      0 ≤ t ∧ t < E.SNOWFLAKE_MIN_SECONDS_BEFORE_DIRECTION_CHANGE) :
    ∀ t ∈ out.1.lastDirectionChangeSeconds,
      0 ≤ t ∧ t < E.SNOWFLAKE_MIN_SECONDS_BEFORE_DIRECTION_CHANGE := by
  rw [snow_update_eq, snow_animateUpTo_eq, min_self] at h
  exact forRange_preserves _
    (fun s => ∀ t ∈ s.1.lastDirectionChangeSeconds,
      0 ≤ t ∧ t < E.SNOWFLAKE_MIN_SECONDS_BEFORE_DIRECTION_CHANGE)
    (fun j t t1 hb hQ => snowflakeStep_timers E dt aspectRatio _ _ j t t1 hmin hdt hb hQ)
    _ _ _ _ h hP

/-- C26: for a positive `SNOWFLAKE_MIN_SECONDS_BEFORE_DIRECTION_CHANGE`, in every state reached
from `SnowInstance::init` by update calls with `dt >= 0` every direction-change timer `t`
has `0 <= t < SNOWFLAKE_MIN_SECONDS_BEFORE_DIRECTION_CHANGE` (such calls return when the
loops stay within `SNOWFLAKE_TOTAL_COUNT`); and an update that respawns a particle leaves
the timer of that particle as it was. -/
theorem C26_snow_timer_range {σ : Type} (E : Env σ) (random : σ) (calls : List (ℚ × ℚ))
    (hmin : 0 < E.SNOWFLAKE_MIN_SECONDS_BEFORE_DIRECTION_CHANGE)
    (hdt : ∀ call ∈ calls, 0 ≤ call.1) :
    (∀ out, SnowInstance.updateMany E calls (SnowInstance.init E random) = .ok out →
      ∀ t ∈ out.1.lastDirectionChangeSeconds,
        0 ≤ t ∧ t < E.SNOWFLAKE_MIN_SECONDS_BEFORE_DIRECTION_CHANGE)
    ∧ (SnowInstance.slowEndIndex E ≤ E.SNOWFLAKE_TOTAL_COUNT →
        ∃ out, SnowInstance.updateMany E calls (SnowInstance.init E random) = .ok out)
    ∧ (∀ (self : SnowInstance) (dt aspectRatio : ℚ) (g : σ) (i : Nat) (p : Particle)
        (d : Bool) (t : ℚ),
        i < SnowInstance.slowEndIndex E →
        SnowInstance.slowEndIndex E ≤ self.particles.length →
        SnowInstance.slowEndIndex E ≤ self.directions.length →
        SnowInstance.slowEndIndex E ≤ self.lastDirectionChangeSeconds.length →
        self.particles[i]? = some p → self.directions[i]? = some d →
        self.lastDirectionChangeSeconds[i]? = some t → p.yPercent ≥ 1 →
        ∃ out q, SnowInstance.update E self dt aspectRatio g = .ok out
          ∧ out.1.particles[i]? = some q ∧ q.yPercent = 0
          ∧ out.1.lastDirectionChangeSeconds[i]? = some t) := by
  have hmany : ∀ (calls : List (ℚ × ℚ)) (s out : SnowInstance × σ),
      (∀ call ∈ calls, 0 ≤ call.1) →
      (∀ t ∈ s.1.lastDirectionChangeSeconds,
        0 ≤ t ∧ t < E.SNOWFLAKE_MIN_SECONDS_BEFORE_DIRECTION_CHANGE) →
      SnowInstance.updateMany E calls s = .ok out →
      ∀ t ∈ out.1.lastDirectionChangeSeconds,
        0 ≤ t ∧ t < E.SNOWFLAKE_MIN_SECONDS_BEFORE_DIRECTION_CHANGE := by
    intro calls
    induction calls with
    | nil =>
      intro s out _ hP h
      simp only [SnowInstance.updateMany] at h
      injection h with h
      rw [← h]; exact hP
    | cons call calls ih =>
      intro s out hd hP h
      simp only [SnowInstance.updateMany] at h
      cases hu : SnowInstance.update E s.1 call.1 call.2 s.2 with
      | error e => rw [hu] at h; simp at h
      | ok s1 =>
        rw [hu] at h
        exact ih s1 out (fun c hc => hd c (List.mem_cons_of_mem _ hc))
          (snow_update_timers E s.1 call.1 call.2 s.2 s1 hmin
            (hd call (List.mem_cons_self _ _)) hu hP) h
  refine ⟨?_, ?_, ?_⟩
  · intro out h
    refine hmany calls _ out hdt ?_ h
    intro t ht
    have h0 : t = 0 := by
      simp only [SnowInstance.init] at ht
      exact List.eq_of_mem_replicate ht
    rw [h0]
    exact ⟨le_refl 0, hmin⟩
  · intro htotal
    exact snow_updateMany_returns E calls _
      (by simp [SnowInstance.init, initParticles_length]; exact htotal)
      (by simp [SnowInstance.init, initParticles_length, initDirections_length]; exact htotal)
      (by simp [SnowInstance.init, initParticles_length]; exact htotal)
  · intro self dt aspectRatio g i p d t hi hl1 hl2 hl3 hp hd ht hy
    obtain ⟨si, _, out, h1, _, _, h4, h5, _, h7⟩ :=
      SnowInstance.update_at E self dt aspectRatio g i p d t hi hl1 hl2 hl3 hp hd ht
    refine ⟨out, _, h4, h5, ?_, ?_⟩
    · simp [animateSnowflake, hy]
    · rw [h7]
      simp [animateSnowflake, hy]

/-- Under `sampleEnv` (threshold 1/4 s) two updates of the snow field made by `init` return,
and every timer of the result lies in `[0, 1/4)`. -/
theorem C26_snow_timer_range_witness :
    ∃ out, SnowInstance.updateMany sampleEnv [(1, 8 / 5), (1 / 3, 8 / 5)]
        (SnowInstance.init sampleEnv 0) = .ok out
      ∧ ∀ t ∈ out.1.lastDirectionChangeSeconds, 0 ≤ t ∧ t < 1 / 4 := by
  have h := C26_snow_timer_range sampleEnv 0 [(1, 8 / 5), (1 / 3, 8 / 5)]
    (by norm_num [sampleEnv])
    (by intro call hc; simp at hc; rcases hc with h | h <;> (rw [h]; norm_num))
  obtain ⟨out, hout⟩ := h.2.1 (by decide)
  exact ⟨out, hout, h.1 out hout⟩

/-! ## After a respawn -/

theorem animateRaindrop_of_onScreen {σ : Type} (E : Env σ) (dt aspectRatio vx vy : ℚ)
    (q : Particle) (g : σ) (hx : 0 ≤ q.xPercent) (hy : q.yPercent < 1) :
    (animateRaindrop E dt aspectRatio vx vy q g).1
      = { xPercent := q.xPercent + vx * ( E.ASPECT_RATIO / aspectRatio) * dt
          yPercent := q.yPercent + vy * dt } := by
  have hc : (decide (q.xPercent < 0) || decide (q.yPercent ≥ 1)) = false := by
    simp [not_lt.mpr hx, hy]
  simp [animateRaindrop, hc]

theorem animateSnowflake_of_onScreen {σ : Type} (E : Env σ) (dt aspectRatio vx vy : ℚ)
    (c : Particle × Bool × ℚ) (g : σ) (hy : c.1.yPercent < 1) :
    (animateSnowflake E dt aspectRatio vx vy c g).1.1.xPercent
        = c.1.xPercent
          + (vx * (if (animateSnowflake E dt aspectRatio vx vy c g).1.2.1 = true then 1 else -1)
              * ( E.ASPECT_RATIO / aspectRatio) * (1 / 2)) * dt
    ∧ (animateSnowflake E dt aspectRatio vx vy c g).1.1.yPercent = c.1.yPercent + vy * dt := by
  constructor
  · simp [animateSnowflake, not_le.mpr hy]
  · simp [animateSnowflake, not_le.mpr hy]

/-- C27: with `nextReal` in `[0, 1)` and `aspectRatio > 0`, a rain particle that
`RainInstance::update` respawns comes out with `0 <= xPercent <= 1` and
`0 <= yPercent < 1`, and a snow particle that `SnowInstance::update` respawns with
`0 <= xPercent < 1` and `yPercent == 0`; for both the respawn test is then false, and the
next update (any `dt`, any positive aspect ratio) moves the particle by its velocity instead
of respawning it. -/
theorem C27_respawn_on_screen {σ : Type} (E : Env σ) (dt aspectRatio : ℚ) (random : σ)
    (i : Nat) (p : Particle)
    (hgen : ∀ r, 0 ≤ (E.nextReal r).1 ∧ (E.nextReal r).1 < 1) (_har : 0 < aspectRatio) :
    (∀ self : RainInstance, i < RainInstance.slowEndIndex E →
      RainInstance.slowEndIndex E ≤ self.particles.length →
      self.particles[i]? = some p → (p.xPercent < 0 ∨ p.yPercent ≥ 1) →
      ∃ out q, RainInstance.update E self dt aspectRatio random = .ok out
        ∧ out.1.particles[i]? = some q
        ∧ 0 ≤ q.xPercent ∧ q.xPercent ≤ 1 ∧ 0 ≤ q.yPercent ∧ q.yPercent < 1
        ∧ ¬ (q.xPercent < 0 ∨ q.yPercent ≥ 1)
        ∧ ∀ dt2 aspectRatio2 : ℚ, 0 < aspectRatio2 →
            ∃ out2 q2, RainInstance.update E out.1 dt2 aspectRatio2 out.2 = .ok out2
              ∧ out2.1.particles[i]? = some q2
              ∧ q2.xPercent = q.xPercent
                  + RainInstance.velocityPercentX E i * ( E.ASPECT_RATIO / aspectRatio2) * dt2
              ∧ q2.yPercent = q.yPercent + RainInstance.velocityPercentY E i * dt2)
    ∧ (∀ (self : SnowInstance) (d : Bool) (t : ℚ), i < SnowInstance.slowEndIndex E →
      SnowInstance.slowEndIndex E ≤ self.particles.length →
      SnowInstance.slowEndIndex E ≤ self.directions.length →
      SnowInstance.slowEndIndex E ≤ self.lastDirectionChangeSeconds.length →
      self.particles[i]? = some p → self.directions[i]? = some d →
      self.lastDirectionChangeSeconds[i]? = some t → p.yPercent ≥ 1 →
      ∃ out q, SnowInstance.update E self dt aspectRatio random = .ok out
        ∧ out.1.particles[i]? = some q
        ∧ 0 ≤ q.xPercent ∧ q.xPercent < 1 ∧ q.yPercent = 0
        ∧ ¬ (q.yPercent ≥ 1)
        ∧ ∀ dt2 aspectRatio2 : ℚ, 0 < aspectRatio2 →
            ∃ out2 q2 d2, SnowInstance.update E out.1 dt2 aspectRatio2 out.2 = .ok out2
              ∧ out2.1.particles[i]? = some q2 ∧ out2.1.directions[i]? = some d2
              ∧ q2.xPercent = q.xPercent
                  + (SnowInstance.velocityPercentX E i * (if d2 = true then 1 else -1)
                      * ( E.ASPECT_RATIO / aspectRatio2) * (1 / 2)) * dt2
              ∧ q2.yPercent = q.yPercent + SnowInstance.velocityPercentY E i * dt2) := by
  refine ⟨?_, ?_⟩
  · intro self hi hlen hp hc
    obtain ⟨si, out, _, _, h3, h4, h5⟩ :=
      RainInstance.update_particle E self dt aspectRatio random i p hi hlen hp
    have hc1 : (decide (p.xPercent < 0) || decide (p.yPercent ≥ 1)) = true := by
      simpa using hc
    have hr1 := hgen (E.nextReal si.2).2
    have hq : 0 ≤ (animateRaindrop E dt aspectRatio (RainInstance.velocityPercentX E i)
          (RainInstance.velocityPercentY E i) p si.2).1.xPercent
        ∧ (animateRaindrop E dt aspectRatio (RainInstance.velocityPercentX E i)
          (RainInstance.velocityPercentY E i) p si.2).1.xPercent ≤ 1
        ∧ 0 ≤ (animateRaindrop E dt aspectRatio (RainInstance.velocityPercentX E i)
          (RainInstance.velocityPercentY E i) p si.2).1.yPercent
        ∧ (animateRaindrop E dt aspectRatio (RainInstance.velocityPercentX E i)
          (RainInstance.velocityPercentY E i) p si.2).1.yPercent < 1 := by
      simp only [animateRaindrop, hc1, if_true]
      split_ifs
      · exact ⟨hr1.1, le_of_lt hr1.2, le_refl 0, zero_lt_one⟩
      · exact ⟨zero_le_one, le_refl 1, hr1.1, hr1.2⟩
    refine ⟨out, _, h3, h4, hq.1, hq.2.1, hq.2.2.1, hq.2.2.2, ?_, ?_⟩
    · intro hor
      rcases hor with h | h
      · exact absurd h (not_lt.mpr hq.1)
      · exact absurd h (not_le.mpr hq.2.2.2)
    · intro dt2 aspectRatio2 _
      obtain ⟨si2, out2, _, _, k3, k4, _⟩ :=
        RainInstance.update_particle E out.1 dt2 aspectRatio2 out.2 i _ hi (by omega) h4
      rw [animateRaindrop_of_onScreen E dt2 aspectRatio2 _ _ _ si2.2 hq.1 hq.2.2.2] at k4
      exact ⟨out2, _, k3, k4, rfl, rfl⟩
  · intro self d t hi hl1 hl2 hl3 hp hd ht hy
    obtain ⟨si, _, out, _, _, _, h4, h5, h6, h7⟩ :=
      SnowInstance.update_at E self dt aspectRatio random i p d t hi hl1 hl2 hl3 hp hd ht
    have hl := snow_update_lengths E self dt aspectRatio random out h4
    have hr1 := hgen si.2
    have hq : (animateSnowflake E dt aspectRatio (SnowInstance.velocityPercentX E i)
          (SnowInstance.velocityPercentY E i) (p, d, t) si.2).1.1
        = { xPercent := (E.nextReal si.2).1, yPercent := 0 } := by
      simp [animateSnowflake, hy]
    rw [hq] at h5
    refine ⟨out, _, h4, h5, hr1.1, hr1.2, rfl, by norm_num, ?_⟩
    intro dt2 aspectRatio2 _
    obtain ⟨si2, _, out2, _, _, _, k4, k5, k6, _⟩ :=
      SnowInstance.update_at E out.1 dt2 aspectRatio2 out.2 i _ _ _ hi (by omega) (by omega)
        (by omega) h5 h6 h7
    have hmove := animateSnowflake_of_onScreen E dt2 aspectRatio2
      (SnowInstance.velocityPercentX E i) (SnowInstance.velocityPercentY E i)
      ({ xPercent := (E.nextReal si.2).1, yPercent := 0 },
        (animateSnowflake E dt aspectRatio (SnowInstance.velocityPercentX E i)
          (SnowInstance.velocityPercentY E i) (p, d, t) si.2).1.2.1,
        (animateSnowflake E dt aspectRatio (SnowInstance.velocityPercentX E i)
          (SnowInstance.velocityPercentY E i) (p, d, t) si.2).1.2.2) si2.2 (by norm_num)
    exact ⟨out2, _, _, k4, k5, k6, hmove.1, hmove.2⟩

/-- In `sampleRain` the particle at index 1 has left the screen; the update brings it back
on screen, and one more update moves it without respawning it. -/
theorem C27_respawn_on_screen_witness :
    ∃ out q out2 q2, RainInstance.update sampleEnv sampleRain 1 (8 / 5) 0 = .ok out
      ∧ out.1.particles[1]? = some q
      ∧ 0 ≤ q.xPercent ∧ q.xPercent ≤ 1 ∧ 0 ≤ q.yPercent ∧ q.yPercent < 1
      ∧ RainInstance.update sampleEnv out.1 1 (8 / 5) out.2 = .ok out2
      ∧ out2.1.particles[1]? = some q2
      ∧ q2.yPercent = q.yPercent + RainInstance.velocityPercentY sampleEnv 1 * 1 := by
  obtain ⟨out, q, h1, h2, h3, h4, h5, h6, _, h8⟩ :=
    (C27_respawn_on_screen sampleEnv 1 (8 / 5) 0 1 ⟨-1 / 10, 1 / 2⟩
      sampleEnv_nextReal_range (by norm_num)).1 sampleRain (by decide) (by decide) rfl
      (Or.inl (by norm_num))
  obtain ⟨out2, q2, k1, k2, _, k4⟩ := h8 1 (8 / 5) (by norm_num)
  exact ⟨out, q, out2, q2, h1, h2, h3, h4, h5, h6, k1, k2, k4⟩

/-! ## Doubles with a finite range: arithmetic -/

theorem Double.limit_pos : 0 < Double.limit := by
  unfold Double.limit
  positivity

theorem Double.toRange_fin (q : ℚ) (h1 : -Double.limit < q) (h2 : q < Double.limit) :
    Double.toRange (Double.fin q) = Double.fin q := by
  simp [Double.toRange, not_le.mpr h2, not_le.mpr h1]

/-- Adding `0.0` leaves a `double` as it is. -/
theorem Double.addR_zero (d : Double) (hd : Double.isDouble d = true) :
    Double.addR d (Double.fin 0) = d := by
  cases d with
  | fin q =>
    simp only [Double.isDouble, decide_eq_true_eq] at hd
    simp only [Double.addR, Double.add, add_zero]
    exact Double.toRange_fin q hd.1 hd.2
  | posInf => rfl
  | negInf => rfl
  | nan => rfl

/-! ## Loops over indexed entries -/

/-- The iteration of the raindrop loops for index `i` returns when the buffer holds the
index, rewrites the particle at `i` by `IEEE.animateRaindrop`, and leaves the other
particles and the length of the buffer alone. -/
theorem ieee_raindropStep_cell {σ : Type} (E : Env σ) (dt aspectRatio vx vy : ℚ) (i : Nat)
    (s : List IEEE.Particle × σ) (c : IEEE.Particle) (hc : s.1[i]? = some c) :
    ∃ s1, IEEE.raindropStep E dt aspectRatio vx vy i s = .ok s1
      ∧ s1.2 = (IEEE.animateRaindrop E dt aspectRatio vx vy c s.2).2
      ∧ s1.1[i]? = some (IEEE.animateRaindrop E dt aspectRatio vx vy c s.2).1
      ∧ (∀ k, k ≠ i → s1.1[k]? = s.1[k]?)
      ∧ s1.1.length = s.1.length := by
  have hil : i < s.1.length := (List.getElem?_eq_some.mp hc).1
  refine ⟨(List.set s.1 i (IEEE.animateRaindrop E dt aspectRatio vx vy c s.2).1,
      (IEEE.animateRaindrop E dt aspectRatio vx vy c s.2).2), ?_, rfl, ?_, ?_, ?_⟩
  · simp [IEEE.raindropStep, Buffer.get, hc]
  · simp [List.getElem?_set_self, hil]
  · intro k hk
    have hne : i ≠ k := fun h => hk h.symm
    simp [List.getElem?_set_ne hne]
  · simp

theorem ieee_rain_animateUpTo_eq {σ : Type} (E : Env σ) (dt aspectRatio : ℚ) (stop : Nat)
    (s : List IEEE.Particle × σ) :
    IEEE.RainInstance.animateUpTo E dt aspectRatio stop s
      = forRange (fun i => IEEE.raindropStep E dt aspectRatio (RainInstance.velocityPercentX E i)
          (RainInstance.velocityPercentY E i) i) 0 (min (RainInstance.slowEndIndex E) stop) s := by
  unfold IEEE.RainInstance.animateUpTo IEEE.animateRaindropRange
  rw [← threeRanges_eq
    (IEEE.raindropStep E dt aspectRatio (RainInstance.fastVelocityPercentX E)
      (RainInstance.fastVelocityPercentY E))
    (IEEE.raindropStep E dt aspectRatio (RainInstance.mediumVelocityPercentX E)
      (RainInstance.mediumVelocityPercentY E))
    (IEEE.raindropStep E dt aspectRatio (RainInstance.slowVelocityPercentX E)
      (RainInstance.slowVelocityPercentY E))
    (fun i => IEEE.raindropStep E dt aspectRatio (RainInstance.velocityPercentX E i)
      (RainInstance.velocityPercentY E i) i)
    (RainInstance.fastEndIndex E) (RainInstance.mediumEndIndex E)
    (RainInstance.slowEndIndex E) stop ?_ ?_ ?_ ?_ ?_ s]
  · cases forRange (IEEE.raindropStep E dt aspectRatio (RainInstance.fastVelocityPercentX E)
        (RainInstance.fastVelocityPercentY E)) 0 (min (RainInstance.fastEndIndex E) stop) s with
    | error e => rfl
    | ok s1 =>
      simp only [Except.bind]
      cases forRange (IEEE.raindropStep E dt aspectRatio (RainInstance.mediumVelocityPercentX E)
        (RainInstance.mediumVelocityPercentY E)) (RainInstance.fastEndIndex E)
        (min (RainInstance.mediumEndIndex E) stop) s1 <;> rfl
  · simp [RainInstance.mediumEndIndex]
  · simp [RainInstance.slowEndIndex]
  · intro j hj
    simp [RainInstance.velocityPercentX, RainInstance.velocityPercentY, hj]
  · intro j hj1 hj2
    simp [RainInstance.velocityPercentX, RainInstance.velocityPercentY, not_lt.mpr hj1, hj2]
  · intro j hj1 _
    have hj3 : ¬ j < RainInstance.fastEndIndex E := by
      simp only [RainInstance.mediumEndIndex] at hj1; omega
    simp [RainInstance.velocityPercentX, RainInstance.velocityPercentY, not_lt.mpr hj1, hj3]

theorem ieee_rain_update_eq {σ : Type} (E : Env σ) (self : IEEE.RainInstance)
    (dt aspectRatio : ℚ) (random : σ) :
    IEEE.RainInstance.update E self dt aspectRatio random
      = match IEEE.RainInstance.animateUpTo E dt aspectRatio (RainInstance.slowEndIndex E)
          (self.particles, random) with
        | .error e => .error e
        | .ok s3 =>
          match self.thunderstorm with
          | some thunderstorm =>
            .ok ({ particles := s3.1
                   thunderstorm := some (Thunderstorm.update E thunderstorm dt s3.2).1 },
                 (Thunderstorm.update E thunderstorm dt s3.2).2)
          | none => .ok ({ particles := s3.1, thunderstorm := none }, s3.2) := by
  have hfs : RainInstance.fastEndIndex E ≤ RainInstance.slowEndIndex E := by
    simp only [RainInstance.slowEndIndex, RainInstance.mediumEndIndex]; omega
  have hms : RainInstance.mediumEndIndex E ≤ RainInstance.slowEndIndex E := by
    simp only [RainInstance.slowEndIndex]; omega
  unfold IEEE.RainInstance.update IEEE.RainInstance.animateUpTo
  simp only [min_eq_left hfs, min_eq_left hms, min_self]
  cases IEEE.animateRaindropRange E dt aspectRatio 0 (RainInstance.fastEndIndex E)
      (RainInstance.fastVelocityPercentX E) (RainInstance.fastVelocityPercentY E)
      (self.particles, random) with
  | error e => rfl
  | ok s1 =>
    simp only []
    cases IEEE.animateRaindropRange E dt aspectRatio (RainInstance.fastEndIndex E)
        (RainInstance.mediumEndIndex E) (RainInstance.mediumVelocityPercentX E)
        (RainInstance.mediumVelocityPercentY E) s1 with
    | error e => rfl
    | ok s2 => rfl

theorem ieee_rain_animateUpTo_zero {σ : Type} (E : Env σ) (dt aspectRatio : ℚ)
    (s : List IEEE.Particle × σ) : IEEE.RainInstance.animateUpTo E dt aspectRatio 0 s = .ok s := by
  rw [ieee_rain_animateUpTo_eq]
  exact forRange_empty _ _ _ _ (by simp)

/-- What one call of `RainInstance::update` does to the particle at index `i`, on doubles
with a finite range: the call returns, and the particle becomes `IEEE.animateRaindrop` of
its old value, with the velocities of its tier and the generator left by the particles
before it. -/
theorem ieee_rain_update_particle {σ : Type} (E : Env σ) (self : IEEE.RainInstance)
    (dt aspectRatio : ℚ) (random : σ) (i : Nat) (p : IEEE.Particle)
    (hi : i < RainInstance.slowEndIndex E)
    (hlen : RainInstance.slowEndIndex E ≤ self.particles.length)
    (hp : self.particles[i]? = some p) :
    ∃ si si1 out,
      IEEE.RainInstance.animateUpTo E dt aspectRatio i (self.particles, random) = .ok si
      ∧ IEEE.RainInstance.animateUpTo E dt aspectRatio (i + 1) (self.particles, random) = .ok si1
      ∧ si1.2 = (IEEE.animateRaindrop E dt aspectRatio (RainInstance.velocityPercentX E i)
            (RainInstance.velocityPercentY E i) p si.2).2
      ∧ IEEE.RainInstance.update E self dt aspectRatio random = .ok out
      ∧ out.1.particles[i]? = some
          (IEEE.animateRaindrop E dt aspectRatio (RainInstance.velocityPercentX E i)
            (RainInstance.velocityPercentY E i) p si.2).1 := by
  obtain ⟨si, si1, sf, h1, h2, h3, h4, h5⟩ := cellLoop_at
    (fun (s : List IEEE.Particle × σ) k => s.1[k]?) Prod.snd
    (fun i => IEEE.animateRaindrop E dt aspectRatio (RainInstance.velocityPercentX E i)
      (RainInstance.velocityPercentY E i))
    (fun i => IEEE.raindropStep E dt aspectRatio (RainInstance.velocityPercentX E i)
      (RainInstance.velocityPercentY E i) i)
    (fun i s c hc => by
      obtain ⟨s1, a1, a2, a3, a4, _⟩ := ieee_raindropStep_cell E dt aspectRatio
        (RainInstance.velocityPercentX E i) (RainInstance.velocityPercentY E i) i s c hc
      exact ⟨s1, a1, a2, a3, a4⟩)
    (self.particles, random) (RainInstance.slowEndIndex E) i hi
    (fun k hk => by
      have hk1 : k < self.particles.length := by omega
      simp [List.getElem?_eq_getElem hk1])
    p hp
  have hupd := ieee_rain_update_eq E self dt aspectRatio random
  rw [ieee_rain_animateUpTo_eq, min_self, h4] at hupd
  refine ⟨si, si1, (match self.thunderstorm with
      | some thunderstorm =>
        ({ particles := sf.1
           thunderstorm := some (Thunderstorm.update E thunderstorm dt sf.2).1 },
         (Thunderstorm.update E thunderstorm dt sf.2).2)
      | none => ({ particles := sf.1, thunderstorm := none }, sf.2)), ?_, ?_, h3, ?_, ?_⟩
  · rw [ieee_rain_animateUpTo_eq, min_eq_right (by omega)]; exact h1
  · rw [ieee_rain_animateUpTo_eq, min_eq_right (by omega)]; exact h2
  · rw [hupd]; cases self.thunderstorm <;> rfl
  · cases self.thunderstorm <;> exact h5

theorem ieee_snow_cell_eq_some (self : IEEE.SnowInstance) (k : Nat)
    (c : IEEE.Particle × Bool × Double) :
    IEEE.SnowInstance.cell self k = some c ↔
      self.particles[k]? = some c.1 ∧ self.directions[k]? = some c.2.1
        ∧ self.lastDirectionChangeSeconds[k]? = some c.2.2 := by
  obtain ⟨p, d, t⟩ := c
  unfold IEEE.SnowInstance.cell
  cases h1 : self.particles[k]? <;> cases h2 : self.directions[k]?
    <;> cases h3 : self.lastDirectionChangeSeconds[k]? <;> simp

theorem ieee_snow_cell_isSome (self : IEEE.SnowInstance) (k : Nat)
    (h1 : k < self.particles.length) (h2 : k < self.directions.length)
    (h3 : k < self.lastDirectionChangeSeconds.length) :
    (IEEE.SnowInstance.cell self k).isSome = true := by
  simp [IEEE.SnowInstance.cell, List.getElem?_eq_getElem h1, List.getElem?_eq_getElem h2,
    List.getElem?_eq_getElem h3]

/-- The iteration of the snowflake loops for index `i` returns when the three buffers hold
the index, is `IEEE.animateSnowflake` on the entries at `i`, and leaves the other entries
and the lengths of the buffers alone. -/
theorem ieee_snowflakeStep_cell {σ : Type} (E : Env σ) (dt aspectRatio vx vy : ℚ) (i : Nat)
    (s : IEEE.SnowInstance × σ) (c : IEEE.Particle × Bool × Double)
    (hc : IEEE.SnowInstance.cell s.1 i = some c) :
    ∃ s1, IEEE.snowflakeStep E dt aspectRatio vx vy i s = .ok s1
      ∧ s1.2 = (IEEE.animateSnowflake E dt aspectRatio vx vy c s.2).2
      ∧ IEEE.SnowInstance.cell s1.1 i
          = some (IEEE.animateSnowflake E dt aspectRatio vx vy c s.2).1
      ∧ (∀ k, k ≠ i → IEEE.SnowInstance.cell s1.1 k = IEEE.SnowInstance.cell s.1 k)
      ∧ (s1.1.particles.length = s.1.particles.length
        ∧ s1.1.directions.length = s.1.directions.length
        ∧ s1.1.lastDirectionChangeSeconds.length = s.1.lastDirectionChangeSeconds.length) := by
  obtain ⟨p, d, t⟩ := c
  obtain ⟨hp, hd, ht⟩ := (ieee_snow_cell_eq_some s.1 i (p, d, t)).mp hc
  have hpl : i < s.1.particles.length := (List.getElem?_eq_some.mp hp).1
  have hdl : i < s.1.directions.length := (List.getElem?_eq_some.mp hd).1
  have htl : i < s.1.lastDirectionChangeSeconds.length := (List.getElem?_eq_some.mp ht).1
  by_cases hy : Double.le (Double.fin 1) p.yPercent = true
  · refine ⟨_, by simp [IEEE.snowflakeStep, Buffer.get, Buffer.set, hp, hy, hdl]; rfl,
      ?_, ?_, ?_, ?_⟩
    · simp [IEEE.animateSnowflake, hy]
    · rw [ieee_snow_cell_eq_some]
      simp [IEEE.animateSnowflake, hy, hpl, hdl, ht]
    · intro k hk
      have hne : i ≠ k := fun h => hk h.symm
      simp [IEEE.SnowInstance.cell, List.getElem?_set_ne hne]
    · simp
  · refine ⟨_, by simp [IEEE.snowflakeStep, Buffer.get, hp, hd, ht, hy]; rfl, ?_, ?_, ?_, ?_⟩
    · simp [IEEE.animateSnowflake, hy]
    · rw [ieee_snow_cell_eq_some]
      simp [IEEE.animateSnowflake, hy, hpl, hdl, htl]
    · intro k hk
      have hne : i ≠ k := fun h => hk h.symm
      simp [IEEE.SnowInstance.cell, List.getElem?_set_ne hne]
    · simp

theorem ieee_snow_animateUpTo_eq {σ : Type} (E : Env σ) (dt aspectRatio : ℚ) (stop : Nat)
    (s : IEEE.SnowInstance × σ) :
    IEEE.SnowInstance.animateUpTo E dt aspectRatio stop s
      = forRange (fun i => IEEE.snowflakeStep E dt aspectRatio (SnowInstance.velocityPercentX E i)
          (SnowInstance.velocityPercentY E i) i) 0 (min (SnowInstance.slowEndIndex E) stop) s := by
  unfold IEEE.SnowInstance.animateUpTo IEEE.animateSnowflakeRange
  rw [← threeRanges_eq
    (IEEE.snowflakeStep E dt aspectRatio (SnowInstance.fastVelocityPercentX E)
      (SnowInstance.fastVelocityPercentY E))
    (IEEE.snowflakeStep E dt aspectRatio (SnowInstance.mediumVelocityPercentX E)
      (SnowInstance.mediumVelocityPercentY E))
    (IEEE.snowflakeStep E dt aspectRatio (SnowInstance.slowVelocityPercentX E)
      (SnowInstance.slowVelocityPercentY E))
    (fun i => IEEE.snowflakeStep E dt aspectRatio (SnowInstance.velocityPercentX E i)
      (SnowInstance.velocityPercentY E i) i)
    (SnowInstance.fastEndIndex E) (SnowInstance.mediumEndIndex E)
    (SnowInstance.slowEndIndex E) stop ?_ ?_ ?_ ?_ ?_ s]
  · cases forRange (IEEE.snowflakeStep E dt aspectRatio (SnowInstance.fastVelocityPercentX E)
        (SnowInstance.fastVelocityPercentY E)) 0 (min (SnowInstance.fastEndIndex E) stop) s with
    | error e => rfl
    | ok s1 =>
      simp only [Except.bind]
      cases forRange (IEEE.snowflakeStep E dt aspectRatio (SnowInstance.mediumVelocityPercentX E)
        (SnowInstance.mediumVelocityPercentY E)) (SnowInstance.fastEndIndex E)
        (min (SnowInstance.mediumEndIndex E) stop) s1 <;> rfl
  · simp [SnowInstance.mediumEndIndex]
  · simp [SnowInstance.slowEndIndex]
  · intro j hj
    simp [SnowInstance.velocityPercentX, SnowInstance.velocityPercentY, hj]
  · intro j hj1 hj2
    simp [SnowInstance.velocityPercentX, SnowInstance.velocityPercentY, not_lt.mpr hj1, hj2]
  · intro j hj1 _
    have hj3 : ¬ j < SnowInstance.fastEndIndex E := by
      simp only [SnowInstance.mediumEndIndex] at hj1; omega
    simp [SnowInstance.velocityPercentX, SnowInstance.velocityPercentY, not_lt.mpr hj1, hj3]

theorem ieee_snow_update_eq {σ : Type} (E : Env σ) (self : IEEE.SnowInstance)
    (dt aspectRatio : ℚ) (random : σ) :
    IEEE.SnowInstance.update E self dt aspectRatio random
      = IEEE.SnowInstance.animateUpTo E dt aspectRatio (SnowInstance.slowEndIndex E)
          (self, random) := by
  have hfs : SnowInstance.fastEndIndex E ≤ SnowInstance.slowEndIndex E := by
    simp only [SnowInstance.slowEndIndex, SnowInstance.mediumEndIndex]; omega
  have hms : SnowInstance.mediumEndIndex E ≤ SnowInstance.slowEndIndex E := by
    simp only [SnowInstance.slowEndIndex]; omega
  unfold IEEE.SnowInstance.update IEEE.SnowInstance.animateUpTo
  simp only [min_eq_left hfs, min_eq_left hms, min_self]

theorem ieee_snow_animateUpTo_zero {σ : Type} (E : Env σ) (dt aspectRatio : ℚ)
    (s : IEEE.SnowInstance × σ) : IEEE.SnowInstance.animateUpTo E dt aspectRatio 0 s = .ok s := by
  rw [ieee_snow_animateUpTo_eq]
  exact forRange_empty _ _ _ _ (by simp)

/-- What one call of `SnowInstance::update` does to the entries at index `i`, on doubles with
a finite range: the call returns, and the particle, its direction flag and its timer become
`IEEE.animateSnowflake` of their old values, with the velocities of the tier and the
generator left by the particles before it. -/
theorem ieee_snow_update_at {σ : Type} (E : Env σ) (self : IEEE.SnowInstance)
    (dt aspectRatio : ℚ) (random : σ) (i : Nat) (p : IEEE.Particle) (d : Bool) (t : Double)
    (hi : i < SnowInstance.slowEndIndex E)
    (hl1 : SnowInstance.slowEndIndex E ≤ self.particles.length)
    (hl2 : SnowInstance.slowEndIndex E ≤ self.directions.length)
    (hl3 : SnowInstance.slowEndIndex E ≤ self.lastDirectionChangeSeconds.length)
    (hp : self.particles[i]? = some p) (hd : self.directions[i]? = some d)
    (ht : self.lastDirectionChangeSeconds[i]? = some t) :
    ∃ si si1 out,
      IEEE.SnowInstance.animateUpTo E dt aspectRatio i (self, random) = .ok si
      ∧ IEEE.SnowInstance.animateUpTo E dt aspectRatio (i + 1) (self, random) = .ok si1
      ∧ si1.2 = (IEEE.animateSnowflake E dt aspectRatio (SnowInstance.velocityPercentX E i)
            (SnowInstance.velocityPercentY E i) (p, d, t) si.2).2
      ∧ IEEE.SnowInstance.update E self dt aspectRatio random = .ok out
      ∧ out.1.particles[i]? = some
          (IEEE.animateSnowflake E dt aspectRatio (SnowInstance.velocityPercentX E i)
            (SnowInstance.velocityPercentY E i) (p, d, t) si.2).1.1
      ∧ out.1.directions[i]? = some
          (IEEE.animateSnowflake E dt aspectRatio (SnowInstance.velocityPercentX E i)
            (SnowInstance.velocityPercentY E i) (p, d, t) si.2).1.2.1
      ∧ out.1.lastDirectionChangeSeconds[i]? = some
          (IEEE.animateSnowflake E dt aspectRatio (SnowInstance.velocityPercentX E i)
            (SnowInstance.velocityPercentY E i) (p, d, t) si.2).1.2.2 := by
  obtain ⟨si, si1, sf, h1, h2, h3, h4, h5⟩ := cellLoop_at
    (fun (s : IEEE.SnowInstance × σ) k => IEEE.SnowInstance.cell s.1 k) Prod.snd
    (fun i => IEEE.animateSnowflake E dt aspectRatio (SnowInstance.velocityPercentX E i)
      (SnowInstance.velocityPercentY E i))
    (fun i => IEEE.snowflakeStep E dt aspectRatio (SnowInstance.velocityPercentX E i)
      (SnowInstance.velocityPercentY E i) i)
    (fun i s c hc => by
      obtain ⟨s1, a1, a2, a3, a4, _⟩ := ieee_snowflakeStep_cell E dt aspectRatio
        (SnowInstance.velocityPercentX E i) (SnowInstance.velocityPercentY E i) i s c hc
      exact ⟨s1, a1, a2, a3, a4⟩)
    (self, random) (SnowInstance.slowEndIndex E) i hi
    (fun k hk => ieee_snow_cell_isSome self k (by omega) (by omega) (by omega))
    (p, d, t) ((ieee_snow_cell_eq_some self i (p, d, t)).mpr ⟨hp, hd, ht⟩)
  obtain ⟨h6, h7, h8⟩ := (ieee_snow_cell_eq_some sf.1 i _).mp h5
  refine ⟨si, si1, sf, ?_, ?_, h3, ?_, h6, h7, h8⟩
  · rw [ieee_snow_animateUpTo_eq, min_eq_right (by omega)]; exact h1
  · rw [ieee_snow_animateUpTo_eq, min_eq_right (by omega)]; exact h2
  · rw [ieee_snow_update_eq, ieee_snow_animateUpTo_eq, min_self]; exact h4

/-- C8, as stated, fails in two ways. On the rain field `IEEE.sampleRain` the particle at
index 0, at (1/2, 1/2), is not eligible for respawn; with `aspectRatio = 2^-1074 > 0` the
multiplier `ASPECT_RATIO / aspectRatio` overflows to infinity, the displacement
`infinity * 0.0` is a NaN, and `update(0.0, aspectRatio, random)` leaves the particle with a
NaN for `xPercent`. On the snow field `IEEE.lateSnow` the particle at index 0 is not eligible
for respawn either, but its timer has reached the direction-change threshold: with
`dt = 0` and `aspectRatio = 8/5` its iteration consults the direction policy, which advances
the generator from 0 to 1 and flips the direction flag. -/
theorem C8_update_zero_dt_counterexample :
    (0 : ℚ) < 1 / 2 ^ 1074
    ∧ IEEE.sampleRain.particles[0]? = some ⟨Double.fin (1 / 2), Double.fin (1 / 2)⟩
    ∧ Double.lt (Double.fin (1 / 2)) (Double.fin 0) = false
    ∧ Double.le (Double.fin 1) (Double.fin (1 / 2)) = false
    ∧ (∃ out, IEEE.RainInstance.update sampleEnv IEEE.sampleRain 0 (1 / 2 ^ 1074) 0 = .ok out
        ∧ out.1.particles[0]? = some ⟨Double.nan, Double.fin (1 / 2)⟩)
    ∧ IEEE.lateSnow.particles[0]? = some ⟨Double.fin (1 / 2), Double.fin (1 / 2)⟩
    ∧ IEEE.lateSnow.directions[0]? = some true
    ∧ (∃ si1 out, IEEE.SnowInstance.animateUpTo sampleEnv 0 (8 / 5) 1 (IEEE.lateSnow, 0) = .ok si1
        ∧ si1.2 = 1
        ∧ IEEE.SnowInstance.update sampleEnv IEEE.lateSnow 0 (8 / 5) 0 = .ok out
        ∧ out.1.directions[0]? = some false) := by
  refine ⟨by positivity, rfl, by simp [Double.lt], by norm_num [Double.le], ?_, rfl, rfl, ?_⟩
  · obtain ⟨si, si1, out, h1, _, _, h4, h5⟩ := ieee_rain_update_particle sampleEnv IEEE.sampleRain
      0 (1 / 2 ^ 1074) 0 0 ⟨Double.fin (1 / 2), Double.fin (1 / 2)⟩ (by decide) (by decide) rfl
    refine ⟨out, h4, ?_⟩
    rw [h5]
    norm_num [IEEE.animateRaindrop, IEEE.RainInstance.deltaPercentX, IEEE.deltaPercentY,
      Double.lt, Double.le, Double.addR, Double.mulR, Double.divR, Double.add, Double.mul,
      Double.div, Double.toRange, Double.limit, RainInstance.velocityPercentX,
      RainInstance.velocityPercentY, RainInstance.fastEndIndex, RainInstance.fastVelocityPercentX,
      RainInstance.fastVelocityPercentY, sampleEnv]
  · obtain ⟨si, si1, out, h1, h2, h3, h4, _, h6, _⟩ := ieee_snow_update_at sampleEnv
      IEEE.lateSnow 0 (8 / 5) 0 0 ⟨Double.fin (1 / 2), Double.fin (1 / 2)⟩ true (Double.fin 1)
      (by decide) (by decide) (by decide) (by decide) rfl rfl rfl
    rw [ieee_snow_animateUpTo_zero] at h1
    injection h1 with h1
    rw [← h1] at h3 h6
    refine ⟨si1, out, h2, ?_, h4, ?_⟩
    · rw [h3]
      norm_num [IEEE.animateSnowflake, Double.le, Double.addR, Double.add, Double.toRange,
        Double.limit, sampleEnv]
    · rw [h6]
      norm_num [IEEE.animateSnowflake, Double.le, Double.addR, Double.add, Double.toRange,
        Double.limit, sampleEnv]

/-- The displacement `(velocityPercentX * aspectRatioMultiplierX) * 0.0` of a raindrop is zero
when the multiplier and its product with the velocity do not overflow. -/
theorem ieee_rain_deltaPercentX_zero {σ : Type} (E : Env σ) (aspectRatio vx : ℚ)
    (har : 0 < aspectRatio) (hm : abs ( E.ASPECT_RATIO / aspectRatio) < Double.limit)
    (hv : abs (vx * ( E.ASPECT_RATIO / aspectRatio)) < Double.limit) :
    IEEE.RainInstance.deltaPercentX E 0 aspectRatio vx = Double.fin 0 := by
  have har0 : aspectRatio ≠ 0 := ne_of_gt har
  have hm1 := abs_lt.mp hm
  have hv1 := abs_lt.mp hv
  have hL := Double.limit_pos
  simp only [IEEE.RainInstance.deltaPercentX, Double.divR, Double.div, har0, if_false,
    Double.toRange_fin _ hm1.1 hm1.2, Double.mulR, Double.mul, Double.toRange_fin _ hv1.1 hv1.2,
    mul_zero]
  exact Double.toRange_fin 0 (by linarith) hL

/-- The displacement `velocityPercentY * 0.0` is zero. -/
theorem ieee_deltaPercentY_zero (vy : ℚ) : IEEE.deltaPercentY 0 vy = Double.fin 0 := by
  have hL := Double.limit_pos
  simp only [IEEE.deltaPercentY, Double.mulR, Double.mul, mul_zero]
  exact Double.toRange_fin 0 (by linarith) hL

/-- The displacement
`(velocityPercentX * directionX * aspectRatioMultiplierX * velocityCorrectionX) * 0.0` of a
snowflake is zero when the velocity, the multiplier and their product do not overflow. -/
theorem ieee_snow_deltaPercentX_zero {σ : Type} (E : Env σ) (aspectRatio vx : ℚ) (d : Bool)
    (har : 0 < aspectRatio) (hm : abs ( E.ASPECT_RATIO / aspectRatio) < Double.limit)
    (hvx : abs vx < Double.limit)
    (hv : abs (vx * ( E.ASPECT_RATIO / aspectRatio)) < Double.limit) :
    IEEE.SnowInstance.deltaPercentX E 0 aspectRatio vx d = Double.fin 0 := by
  have har0 : aspectRatio ≠ 0 := ne_of_gt har
  have hm1 := abs_lt.mp hm
  have hvx1 := abs_lt.mp hvx
  have hv1 := abs_lt.mp hv
  have hL := Double.limit_pos
  have hd : ∀ s : ℚ, s = 1 ∨ s = -1 →
      Double.mulR
        (Double.mulR
          (Double.mulR (Double.mulR (Double.fin vx) (Double.fin s))
            (Double.divR (Double.fin E.ASPECT_RATIO) (Double.fin aspectRatio)))
          (Double.fin (1 / 2)))
        (Double.fin 0) = Double.fin 0 := by
    intro s hs
    have h1 : Double.mulR (Double.fin vx) (Double.fin s) = Double.fin (vx * s) := by
      simp only [Double.mulR, Double.mul]
      rcases hs with hs | hs <;> rw [hs] <;>
        exact Double.toRange_fin _ (by linarith) (by linarith)
    have h2 : Double.divR (Double.fin E.ASPECT_RATIO) (Double.fin aspectRatio)
        = Double.fin ( E.ASPECT_RATIO / aspectRatio) := by
      simp only [Double.divR, Double.div, har0, if_false]
      exact Double.toRange_fin _ hm1.1 hm1.2
    have h3 : Double.mulR (Double.fin (vx * s)) (Double.fin ( E.ASPECT_RATIO / aspectRatio))
        = Double.fin (vx * s * ( E.ASPECT_RATIO / aspectRatio)) := by
      simp only [Double.mulR, Double.mul]
      rcases hs with hs | hs <;> rw [hs] <;>
        exact Double.toRange_fin _ (by linarith) (by linarith)
    have h4 : Double.mulR (Double.fin (vx * s * ( E.ASPECT_RATIO / aspectRatio)))
          (Double.fin (1 / 2))
        = Double.fin (vx * s * ( E.ASPECT_RATIO / aspectRatio) * (1 / 2)) := by
      simp only [Double.mulR, Double.mul]
      rcases hs with hs | hs <;> rw [hs] <;>
        exact Double.toRange_fin _ (by linarith) (by linarith)
    rw [h1, h2, h3, h4]
    simp only [Double.mulR, Double.mul, mul_zero]
    exact Double.toRange_fin 0 (by linarith) hL
  unfold IEEE.SnowInstance.deltaPercentX
  cases d
  · exact hd (-1) (Or.inr rfl)
  · exact hd 1 (Or.inl rfl)

/-- C8 (amended): on doubles with a finite range, for `aspectRatio > 0` such that
`ASPECT_RATIO / aspectRatio` and its product with the tier's `velocityPercentX` do not
overflow (their magnitude stays below `2^1024`; for snow also that of `velocityPercentX`
itself), `update(0.0, aspectRatio, random)` of a rain field and of a snow field returns and
leaves the particle at index `i` exactly as it was when it is not eligible for respawn (rain:
neither `xPercent < 0` nor `yPercent >= 1`; snow: not `yPercent >= 1`). Such a rain particle
draws nothing from the generator. Such a snow particle draws nothing when its timer is below
the direction-change threshold; when the timer has reached the threshold, the direction
policy is consulted and advances the generator. -/
theorem C8_update_zero_dt {σ : Type} (E : Env σ) (aspectRatio : ℚ) (random : σ) (i : Nat)
    (p : IEEE.Particle) (har : 0 < aspectRatio)
    (hm : abs ( E.ASPECT_RATIO / aspectRatio) < Double.limit)
    (hpx : Double.isDouble p.xPercent = true) (hpy : Double.isDouble p.yPercent = true) :
    (∀ self : IEEE.RainInstance, i < RainInstance.slowEndIndex E →
      RainInstance.slowEndIndex E ≤ self.particles.length →
      abs (RainInstance.velocityPercentX E i * ( E.ASPECT_RATIO / aspectRatio)) < Double.limit →
      self.particles[i]? = some p →
      Double.lt p.xPercent (Double.fin 0) = false → Double.le (Double.fin 1) p.yPercent = false →
      ∃ si si1 out,
        IEEE.RainInstance.animateUpTo E 0 aspectRatio i (self.particles, random) = .ok si
        ∧ IEEE.RainInstance.animateUpTo E 0 aspectRatio (i + 1) (self.particles, random)
            = .ok si1
        ∧ IEEE.RainInstance.update E self 0 aspectRatio random = .ok out
        ∧ out.1.particles[i]? = some p ∧ si1.2 = si.2)
    ∧ (∀ (self : IEEE.SnowInstance) (d : Bool) (t : Double),
      i < SnowInstance.slowEndIndex E →
      SnowInstance.slowEndIndex E ≤ self.particles.length →
      SnowInstance.slowEndIndex E ≤ self.directions.length →
      SnowInstance.slowEndIndex E ≤ self.lastDirectionChangeSeconds.length →
      abs (SnowInstance.velocityPercentX E i) < Double.limit →
      abs (SnowInstance.velocityPercentX E i * ( E.ASPECT_RATIO / aspectRatio)) < Double.limit →
      self.particles[i]? = some p → self.directions[i]? = some d →
      self.lastDirectionChangeSeconds[i]? = some t → Double.isDouble t = true →
      Double.le (Double.fin 1) p.yPercent = false →
      ∃ si si1 out,
        IEEE.SnowInstance.animateUpTo E 0 aspectRatio i (self, random) = .ok si
        ∧ IEEE.SnowInstance.animateUpTo E 0 aspectRatio (i + 1) (self, random) = .ok si1
        ∧ IEEE.SnowInstance.update E self 0 aspectRatio random = .ok out
        ∧ out.1.particles[i]? = some p
        ∧ (Double.le (Double.fin E.SNOWFLAKE_MIN_SECONDS_BEFORE_DIRECTION_CHANGE) t = false →
            si1.2 = si.2)
        ∧ (Double.le (Double.fin E.SNOWFLAKE_MIN_SECONDS_BEFORE_DIRECTION_CHANGE) t = true →
            si1.2 = (E.shouldSnowflakeChangeDirection si.2).2)) := by
  refine ⟨?_, ?_⟩
  · intro self hi hlen hv hp hx hy
    obtain ⟨si, si1, out, h1, h2, h3, h4, h5⟩ :=
      ieee_rain_update_particle E self 0 aspectRatio random i p hi hlen hp
    have hc1 : (Double.lt p.xPercent (Double.fin 0) || Double.le (Double.fin 1) p.yPercent)
        = false := by
      simp [hx, hy]
    refine ⟨si, si1, out, h1, h2, h4, ?_, ?_⟩
    · rw [h5]
      simp only [IEEE.animateRaindrop, hc1, Bool.false_eq_true, if_false,
        ieee_rain_deltaPercentX_zero E aspectRatio _ har hm hv, ieee_deltaPercentY_zero,
        Double.addR_zero _ hpx, Double.addR_zero _ hpy]
    · rw [h3]
      simp only [IEEE.animateRaindrop, hc1, Bool.false_eq_true, if_false]
  · intro self d t hi hl1 hl2 hl3 hvx hv hp hd ht htd hy
    obtain ⟨si, si1, out, h1, h2, h3, h4, h5, _, _⟩ :=
      ieee_snow_update_at E self 0 aspectRatio random i p d t hi hl1 hl2 hl3 hp hd ht
    refine ⟨si, si1, out, h1, h2, h4, ?_, ?_, ?_⟩
    · rw [h5]
      simp only [IEEE.animateSnowflake, hy, Bool.false_eq_true, if_false,
        ieee_snow_deltaPercentX_zero E aspectRatio _ _ har hm hvx hv, ieee_deltaPercentY_zero,
        Double.addR_zero _ hpx, Double.addR_zero _ hpy]
    · intro hlt
      rw [h3]
      simp only [IEEE.animateSnowflake, hy, Bool.false_eq_true, if_false,
        Double.addR_zero _ htd, hlt]
    · intro hge
      rw [h3]
      simp only [IEEE.animateSnowflake, hy, Bool.false_eq_true, if_false,
        Double.addR_zero _ htd, hge, if_true]

/-- With `dt = 0` and `aspectRatio = 8/5` the on-screen particles at index 0 of
`IEEE.sampleRain` and of `IEEE.sampleSnow` keep their position. -/
theorem C8_update_zero_dt_witness :
    (∃ out, IEEE.RainInstance.update sampleEnv IEEE.sampleRain 0 (8 / 5) 0 = .ok out
      ∧ out.1.particles[0]? = some ⟨Double.fin (1 / 2), Double.fin (1 / 2)⟩)
    ∧ (∃ out, IEEE.SnowInstance.update sampleEnv IEEE.sampleSnow 0 (8 / 5) 0 = .ok out
      ∧ out.1.particles[0]? = some ⟨Double.fin (1 / 2), Double.fin (1 / 2)⟩) := by
  have h := C8_update_zero_dt sampleEnv (8 / 5) 0 0 ⟨Double.fin (1 / 2), Double.fin (1 / 2)⟩
    (by norm_num) (by norm_num [sampleEnv, Double.limit, abs_of_pos])
    (by norm_num [Double.isDouble, Double.limit]) (by norm_num [Double.isDouble, Double.limit])
  obtain ⟨_, _, out1, _, _, h1, h2, _⟩ :=
    h.1 IEEE.sampleRain (by decide) (by decide)
      (by norm_num [sampleEnv, Double.limit, RainInstance.velocityPercentX,
        RainInstance.fastVelocityPercentX, RainInstance.fastEndIndex, abs_of_pos])
      rfl (by norm_num [Double.lt]) (by norm_num [Double.le])
  obtain ⟨_, _, out2, _, _, h3, h4, _⟩ :=
    h.2 IEEE.sampleSnow true (Double.fin 0) (by decide) (by decide) (by decide) (by decide)
      (by norm_num [sampleEnv, Double.limit, SnowInstance.velocityPercentX,
        SnowInstance.fastVelocityPercentX, SnowInstance.fastEndIndex, abs_of_pos])
      (by norm_num [sampleEnv, Double.limit, SnowInstance.velocityPercentX,
        SnowInstance.fastVelocityPercentX, SnowInstance.fastEndIndex, abs_of_pos])
      rfl rfl rfl (by norm_num [Double.isDouble, Double.limit]) (by norm_num [Double.le])
  exact ⟨⟨out1, h1, h2⟩, ⟨out2, h3, h4⟩⟩

/-! ## Positions over sequences of updates -/

end OpenTESArena
